import Mathlib

/-!
The render pipeline of `src/gui/render.cpp`.

A shallow embedding of the frame-update state machine, the palette resolver,
the aspect table builder, the mode negotiator and the state serializer.

Conventions of the embedding:

* the global `render` record, `RENDER_DrawLine` and the scaler tables are the
  fields of one explicit `State`; every function of the source is a pure
  function on it;
* calls into collaborators that are not part of the file (the `GFX_*` display
  backend, `CAPTURE_AddImage`) are appended to the field `calls` in the order
  they are made; what such a call returns is read from an `Env`;
* `double` values are elements of an arbitrary type `F` with the operations of
  `DoubleOps F`; `exactOps` instantiates them with exact rational arithmetic;
* pointers are natural numbers, `0` being the null pointer;
* arrays are total functions on the index;
* preprocessor switches and the constants and types of headers that are not
  part of the file are the fields of `Config`.
-/

namespace Render

/-! ## Machine types and build configuration -/

/-- The type `Bit8u`. -/
abbrev Bit8u := Fin 256

/-- The enumeration `scalerMode_t`. -/
inductive scalerMode_t
  | scalerMode8
  | scalerMode15
  | scalerMode16
  | scalerMode32
  deriving DecidableEq, Repr

/-- The enumeration `scalerOperation_t`. -/
inductive scalerOperation_t
  | scalerOpNormal
  | scalerOpAdvMame
  | scalerOpAdvInterp
  | scalerOpHQ
  | scalerOpSaI
  | scalerOpSuperSaI
  | scalerOpSuperEagle
  | scalerOpTV
  | scalerOpRGB
  | scalerOpScan
  deriving DecidableEq, Repr

/-- The simple scaler blocks (`ScalerSimpleBlock_t` objects) the file names. -/
inductive SimpleBlock
  | ScaleNormal1x
  | ScaleNormal2x
  | ScaleNormal3x
  | ScaleNormalDw
  | ScaleNormalDh
  | ScaleTV2x
  | ScaleTV3x
  | ScaleRGB2x
  | ScaleRGB3x
  | ScaleScan2x
  | ScaleScan3x
  deriving DecidableEq, Repr

/-- The complex scaler blocks (`ScalerComplexBlock_t` objects) the file names. -/
inductive ComplexBlock
  | ScaleAdvInterp2x
  | ScaleAdvInterp3x
  | ScaleAdvMame2x
  | ScaleAdvMame3x
  | ScaleHQ2x
  | ScaleHQ3x
  | ScaleSuper2xSaI
  | ScaleSuperEagle
  | Scale2xSaI
  deriving DecidableEq, Repr

/-- The `gfxFlags`, `xscale` and `yscale` members of a scaler block. -/
structure BlockInfo where
  gfxFlags : Nat
  xscale : Nat
  yscale : Nat
  deriving DecidableEq, Repr

/-- A `ScalerLineBlock_t` table: the `Linear` or `Random` member of a simple
block, or the global `ScalerCache`. -/
inductive LineBlock
  | Linear (b : SimpleBlock)
  | Random (b : SimpleBlock)
  | ScalerCache
  deriving DecidableEq, Repr

/-- A value of type `ScalerLineHandler_t` (or `ScalerComplexHandler_t`): the
null pointer, one of the handlers defined in the file, or an entry of a table
of the scaler library. -/
inductive LineHandler
  | null
  | RENDER_EmptyLineHandler
  | RENDER_StartLineHandler
  | RENDER_FinishLineHandler
  | RENDER_ClearCacheHandler
  | line (tbl : LineBlock) (row : Nat) (mode : scalerMode_t)
  | complexLinear (b : ComplexBlock) (mode : scalerMode_t)
  | complexRandom (b : ComplexBlock) (mode : scalerMode_t)
  deriving DecidableEq, Repr

/-- Preprocessor switches, and the constants and type widths declared in
headers outside the file (`config.h`, `video.h`, `render.h`,
`render_scalers.h`). -/
structure Config where
  C_DBP_ENABLE_SCALERCACHE : Bool
  C_DBP_ENABLE_CAPTURE : Bool
  VGA_KEEP_CHANGES : Bool
  C_DBP_ENABLE_SCALERS : Bool
  C_OPENGL : Bool
  RENDER_USE_ADVANCED_SCALERS : Nat
  /-- Width in bits of `Bitu`. -/
  bituBits : Nat
  /-- Width in bits of one element of `Scaler_Aspect`. -/
  aspectBits : Nat
  /-- Width in bits of one element of `Scaler_ChangedLines`. -/
  changedBits : Nat
  /-- The value of `sizeof(Bitu)`. -/
  sizeofBitu : Nat
  SCALER_MAXWIDTH : Nat
  SCALER_MAXHEIGHT : Nat
  SCALER_MAXLINE_WIDTH : Nat
  SCALER_COMPLEXWIDTH : Nat
  SCALER_COMPLEXHEIGHT : Nat
  SCALER_BLOCKSIZE : Nat
  GFX_CAN_8 : Nat
  GFX_CAN_15 : Nat
  GFX_CAN_16 : Nat
  GFX_CAN_32 : Nat
  GFX_LOVE_8 : Nat
  GFX_LOVE_15 : Nat
  GFX_LOVE_16 : Nat
  GFX_LOVE_32 : Nat
  GFX_RGBONLY : Nat
  GFX_SCALING : Nat
  GFX_HARDWARE : Nat
  GFX_CAN_RANDOM : Nat
  simpleInfo : SimpleBlock → BlockInfo
  complexInfo : ComplexBlock → BlockInfo

/-- The operations on `double` the file uses. -/
structure DoubleOps (F : Type) where
  /-- Conversion of an unsigned integer to `double`. -/
  ofNat : Nat → F
  /-- The literal `0.025`. -/
  lit0025 : F
  add : F → F → F
  sub : F → F → F
  mul : F → F → F
  div : F → F → F
  /-- The comparison `a >= b`. -/
  ge : F → F → Bool
  /-- The comparison `a > b`. -/
  gt : F → F → Bool
  /-- The conversion `(Bitu)a` for a `Bitu` of the given width. -/
  toBitu : Nat → F → Nat

/-- Exact rational arithmetic for the `double` operations: no rounding, and
`(Bitu)a` is the integer part of `a` reduced to the width of `Bitu`. -/
def exactOps : DoubleOps ℚ where
  ofNat := fun n => (n : ℚ)
  lit0025 := 1 / 40
  add := fun a b => a + b
  sub := fun a b => a - b
  mul := fun a b => a * b
  div := fun a b => a / b
  ge := fun a b => decide (b ≤ a)
  gt := fun a b => decide (b < a)
  toBitu := fun w a => (Int.toNat (Int.floor a)) % 2 ^ w

/-! ## The data model (`Render_t` of `render.h`) -/

/-- One entry of `render.pal.rgb`. -/
structure RGBEntry where
  red : Bit8u
  green : Bit8u
  blue : Bit8u
  deriving DecidableEq, Repr

/-- The member `render.src`. -/
structure Src (F : Type) where
  width : Nat
  start : Nat
  height : Nat
  bpp : Nat
  dblw : Bool
  dblh : Bool
  ratio : F
  fps : F
  deriving DecidableEq

/-- The member `render.frameskip`. -/
structure Frameskip where
  count : Nat
  max : Nat
  deriving DecidableEq, Repr

/-- The member `render.pal`; `lut` is the lookup table read as `lut.b16` for
15/16-bit output and as `lut.b32` for 32-bit output. -/
structure Pal where
  rgb : Nat → RGBEntry
  lut : Nat → Nat
  changed : Bool
  modified : Nat → Nat
  first : Nat
  last : Nat

/-- The member `render.scale`. -/
structure Scale where
  size : Nat
  inMode : scalerMode_t
  outMode : scalerMode_t
  op : scalerOperation_t
  clearCache : Bool
  forced : Bool
  lineHandler : LineHandler
  linePalHandler : LineHandler
  complexHandler : LineHandler
  blocks : Nat
  lastBlock : Nat
  outPitch : Nat
  outWrite : Nat
  cachePitch : Nat
  cacheRead : Nat
  inHeight : Nat
  inLine : Nat
  outLine : Nat

/-- The global `render`. -/
structure Render_t (F : Type) where
  src : Src F
  frameskip : Frameskip
  pal : Pal
  scale : Scale
  updating : Bool
  active : Bool
  aspect : Bool
  fullFrame : Bool

/-- The argument of `GFX_EndUpdate`: the null pointer, the constant
`(const Bit16u*)(size_t)1`, or the address of `Scaler_ChangedLines`. -/
inductive ChangedLinesArg
  | null
  | one
  | Scaler_ChangedLines
  deriving DecidableEq, Repr

/-- A call into a collaborator outside the file, with its arguments. -/
inductive Call (F : Type)
  | GFX_SetPalette (start count : Nat) (entries : Nat)
  | GFX_GetRGB (red green blue : Bit8u)
  | GFX_StartUpdate (pixels pitch : Nat)
  | GFX_EndUpdate (changedLines : ChangedLinesArg)
  | GFX_GetBestMode (flags : Nat)
  | GFX_SetShader
  | GFX_SetSize (width height flags : Nat) (scalex scaley : F)
  | GFX_GetPixels
  | CAPTURE_AddImage (width height bpp pitch flags : Nat)

/-- What the collaborators outside the file answer. -/
structure Env (F : Type) where
  /-- The value `GFX_GetRGB(red,green,blue)` returns. -/
  GFX_GetRGB : Bit8u → Bit8u → Bit8u → Nat
  /-- `GFX_StartUpdate(pixels,pitch)`: its result and the values it leaves in
  the two reference arguments, given the values they hold at the call. -/
  GFX_StartUpdate : Nat → Nat → Bool × Nat × Nat
  GFX_GetBestMode : Nat → Nat
  GFX_SetSize : Nat → Nat → Nat → F → F → Nat
  /-- `GFX_GetPixels(pitch)`: the returned pointer and the pitch. -/
  GFX_GetPixels : Nat × Nat
  /-- Whether `CaptureState & (CAPTURE_IMAGE|CAPTURE_VIDEO)` is non-zero. -/
  capturing : Bool
  CAPTURE_FLAG_DBLW : Nat
  CAPTURE_FLAG_DBLH : Nat
  CAPTURE_FLAG_DUPLICATE : Nat

/-- The globals the file reads and writes, and the calls made so far. -/
structure State (F : Type) where
  render : Render_t F
  RENDER_DrawLine : LineHandler
  Scaler_Aspect : Nat → Nat
  Scaler_ChangedLines : Nat → Nat
  Scaler_ChangedLineIndex : Nat
  calls : List (Call F)

/-- The address `&scalerSourceCache`. -/
def scalerSourceCache : Nat := 1

/-! ## Palette resolver -/

/-- One round of the loop of `Check_Palette` for 15/16-bit output (`bits = 16`)
or 32-bit output (`bits = 32`), at index `i`. -/
def Check_Palette_body {F : Type} (env : Env F) (bits : Nat) (i : Nat) (s : State F) :
    State F :=
  let r := (s.render.pal.rgb i).red
  let g := (s.render.pal.rgb i).green
  let b := (s.render.pal.rgb i).blue
  let newPal := env.GFX_GetRGB r g b % 2 ^ bits
  let s := { s with calls := s.calls ++ [Call.GFX_GetRGB r g b] }
  if newPal ≠ s.render.pal.lut i then
    { s with render := { s.render with pal := { s.render.pal with
        changed := true
        modified := Function.update s.render.pal.modified i 1
        lut := Function.update s.render.pal.lut i newPal } } }
  else s

/-- The loop `for (i=...;i<=render.pal.last;i++)` of `Check_Palette` with `n`
rounds left, `i` being the current index. -/
def Check_Palette_loop {F : Type} (env : Env F) (bits : Nat) : Nat → Nat → State F → State F
  | 0, _, s => s
  | n + 1, i, s => Check_Palette_loop env bits n (i + 1) (Check_Palette_body env bits i s)

/-- The opening statement of `Check_Palette`, which cleans up the changed
palette data of the previous call. -/
def Check_Palette_clean {F : Type} (s : State F) : State F :=
  if s.render.pal.changed then
    { s with render := { s.render with pal := { s.render.pal with
        modified := fun _ => 0
        changed := false } } }
  else s

/-- The statement `switch (render.scale.outMode)` of `Check_Palette`. -/
def Check_Palette_switch {F : Type} (env : Env F) (s : State F) : State F :=
  match s.render.scale.outMode with
  | scalerMode_t.scalerMode8 =>
    { s with calls := s.calls ++ [Call.GFX_SetPalette s.render.pal.first
        (s.render.pal.last - s.render.pal.first + 1) s.render.pal.first] }
  | scalerMode_t.scalerMode15 =>
    Check_Palette_loop env 16 (s.render.pal.last + 1 - s.render.pal.first)
      s.render.pal.first s
  | scalerMode_t.scalerMode16 =>
    Check_Palette_loop env 16 (s.render.pal.last + 1 - s.render.pal.first)
      s.render.pal.first s
  | scalerMode_t.scalerMode32 =>
    Check_Palette_loop env 32 (s.render.pal.last + 1 - s.render.pal.first)
      s.render.pal.first s

/-- The function `Check_Palette`. -/
def Check_Palette {F : Type} (env : Env F) (s : State F) : State F :=
  let s := Check_Palette_clean s
  if s.render.pal.first > s.render.pal.last then s
  else
    let s := Check_Palette_switch env s
    { s with render := { s.render with pal := { s.render.pal with first := 256, last := 0 } } }

/-- The function `RENDER_SetPal`. -/
def RENDER_SetPal {F : Type} (entry red green blue : Bit8u) (s : State F) : State F :=
  let s := { s with render := { s.render with pal := { s.render.pal with
    rgb := Function.update s.render.pal.rgb entry.val ⟨red, green, blue⟩ } } }
  let s :=
    if s.render.pal.first > entry.val then
      { s with render := { s.render with pal := { s.render.pal with first := entry.val } } }
    else s
  if s.render.pal.last < entry.val then
    { s with render := { s.render with pal := { s.render.pal with last := entry.val } } }
  else s

/-! ## Frame update state machine -/

/-- The call `GFX_StartUpdate( render.scale.outWrite, render.scale.outPitch )`:
the call is recorded, the two reference arguments receive what the backend
leaves in them, and the result of the call is returned. -/
def call_GFX_StartUpdate {F : Type} (env : Env F) (s : State F) : Bool × State F :=
  let r := env.GFX_StartUpdate s.render.scale.outWrite s.render.scale.outPitch
  (r.1, { s with
    calls := s.calls ++ [Call.GFX_StartUpdate s.render.scale.outWrite s.render.scale.outPitch]
    render := { s.render with scale := { s.render.scale with
      outWrite := r.2.1
      outPitch := r.2.2 } } })

/-- The call `GFX_EndUpdate(changedLines)`. -/
def call_GFX_EndUpdate {F : Type} (a : ChangedLinesArg) (s : State F) : State F :=
  { s with calls := s.calls ++ [Call.GFX_EndUpdate a] }

/-- The statements of `RENDER_StartUpdate` from `render.frameskip.count=0;` to
`render.scale.outPitch = 0;` and, with the dirty-line cache, the two
assignments that reset the changed-line list. -/
def RENDER_StartUpdate_prepare {F : Type} (cfg : Config) (env : Env F) (s : State F) :
    State F :=
  let s := { s with render := { s.render with frameskip := { s.render.frameskip with
    count := 0 } } }
  let s := if s.render.scale.inMode = scalerMode_t.scalerMode8 then Check_Palette env s else s
  let s := { s with render := { s.render with scale := { s.render.scale with
    inLine := 0
    outLine := 0
    cacheRead :=
      if cfg.C_DBP_ENABLE_SCALERCACHE then scalerSourceCache else s.render.scale.cacheRead
    outWrite := 0
    outPitch := 0 } } }
  if cfg.C_DBP_ENABLE_SCALERCACHE then
    { s with
      Scaler_ChangedLines := Function.update s.Scaler_ChangedLines 0 0
      Scaler_ChangedLineIndex := 0 }
  else s

/-- The assignment `render.fullFrame = v;`, compiled only with
`VGA_KEEP_CHANGES`. -/
def set_fullFrame {F : Type} (cfg : Config) (v : Bool) (s : State F) : State F :=
  if cfg.VGA_KEEP_CHANGES then { s with render := { s.render with fullFrame := v } } else s

/-- The closing statements `render.updating = true; return true;` of
`RENDER_StartUpdate`. -/
def RENDER_StartUpdate_open {F : Type} (s : State F) : Bool × State F :=
  (true, { s with render := { s.render with updating := true } })

/-- The statements of `RENDER_StartUpdate` that acquire the buffer and bind
`RENDER_DrawLine`, up to the end of the function. -/
def RENDER_StartUpdate_bind {F : Type} (cfg : Config) (env : Env F) (s : State F) :
    Bool × State F :=
  if !cfg.C_DBP_ENABLE_SCALERCACHE then
    let r := call_GFX_StartUpdate env s
    if !r.1 then (false, r.2)
    else RENDER_StartUpdate_open { r.2 with RENDER_DrawLine := r.2.render.scale.lineHandler }
  else if s.render.scale.clearCache then
    let r := call_GFX_StartUpdate env s
    if !r.1 then (false, r.2)
    else
      let s := set_fullFrame cfg true r.2
      let s := { s with render := { s.render with scale := { s.render.scale with
        clearCache := false } } }
      RENDER_StartUpdate_open { s with RENDER_DrawLine := LineHandler.RENDER_ClearCacheHandler }
  else if s.render.pal.changed then
    let r := call_GFX_StartUpdate env s
    if !r.1 then (false, r.2)
    else
      let s := { r.2 with RENDER_DrawLine := r.2.render.scale.linePalHandler }
      RENDER_StartUpdate_open (set_fullFrame cfg true s)
  else
    let s := { s with RENDER_DrawLine := LineHandler.RENDER_StartLineHandler }
    RENDER_StartUpdate_open (set_fullFrame cfg (cfg.C_DBP_ENABLE_CAPTURE && env.capturing) s)

/-- The function `RENDER_StartUpdate`: the returned flag and the next state. -/
def RENDER_StartUpdate {F : Type} (cfg : Config) (env : Env F) (s : State F) :
    Bool × State F :=
  if s.render.updating then (false, s)
  else if !s.render.active then (false, s)
  else if s.render.frameskip.count < s.render.frameskip.max then
    (false, { s with render := { s.render with frameskip := { s.render.frameskip with
      count := s.render.frameskip.count + 1 } } })
  else RENDER_StartUpdate_bind cfg env (RENDER_StartUpdate_prepare cfg env s)

/-- The function `RENDER_Halt`. -/
def RENDER_Halt {F : Type} (s : State F) : State F :=
  let s := { s with RENDER_DrawLine := LineHandler.RENDER_EmptyLineHandler }
  let s := call_GFX_EndUpdate ChangedLinesArg.null s
  let s := { s with render := { s.render with updating := false } }
  { s with render := { s.render with active := false } }

/-- The block of `RENDER_EndUpdate` guarded by `C_DBP_ENABLE_CAPTURE`; the
arguments `fps` and the two buffer addresses of `CAPTURE_AddImage` are not
recorded. -/
def RENDER_EndUpdate_capture {F : Type} (cfg : Config) (env : Env F) (s : State F) :
    State F :=
  if cfg.C_DBP_ENABLE_CAPTURE && env.capturing then
    let flags := 0
    let flags :=
      if s.render.src.dblw ≠ s.render.src.dblh then
        let flags := if s.render.src.dblw then flags ||| env.CAPTURE_FLAG_DBLW else flags
        if s.render.src.dblh then flags ||| env.CAPTURE_FLAG_DBLH else flags
      else flags
    let flags :=
      if s.render.scale.outWrite = 0 then flags ||| env.CAPTURE_FLAG_DUPLICATE else flags
    let pitch := s.render.scale.cachePitch
    { s with calls := s.calls ++
      [Call.CAPTURE_AddImage s.render.src.width s.render.src.height s.render.src.bpp pitch flags] }
  else s

/-- The function `RENDER_EndUpdate`. -/
def RENDER_EndUpdate {F : Type} (cfg : Config) (env : Env F) (abort : Bool) (s : State F) :
    State F :=
  if !s.render.updating then s
  else
    let s := { s with RENDER_DrawLine := LineHandler.RENDER_EmptyLineHandler }
    let s := RENDER_EndUpdate_capture cfg env s
    let s :=
      if s.render.scale.outWrite ≠ 0 then
        if !cfg.C_DBP_ENABLE_SCALERCACHE then
          call_GFX_EndUpdate (if abort then ChangedLinesArg.null else ChangedLinesArg.one) s
        else
          call_GFX_EndUpdate
            (if abort then ChangedLinesArg.null else ChangedLinesArg.Scaler_ChangedLines) s
      else s
    { s with render := { s.render with updating := false } }

/-! ## Aspect table builder -/

/-- The state of the second loop of `MakeAspectTable`: the locals `lines` and
`linesadded`, and the table `Scaler_Aspect`. -/
structure AspectAcc (F : Type) where
  lines : F
  linesadded : Nat
  Scaler_Aspect : Nat → Nat

/-- The loop `for (i=0;i<skip;i++) Scaler_Aspect[i] = 0;` with `n` rounds left. -/
def MakeAspectTable_zero : Nat → Nat → (Nat → Nat) → (Nat → Nat)
  | 0, _, tbl => tbl
  | n + 1, i, tbl => MakeAspectTable_zero n (i + 1) (Function.update tbl i 0)

/-- One round of the loop `for (i=skip;i<height;i++)` of `MakeAspectTable`. -/
def MakeAspectTable_body {F : Type} (cfg : Config) (ops : DoubleOps F) (scaley : F)
    (miny : Nat) (i : Nat) (a : AspectAcc F) : AspectAcc F :=
  let lines := ops.add a.lines scaley
  if ops.ge lines (ops.ofNat miny) then
    let templines := ops.toBitu cfg.bituBits lines % 2 ^ cfg.bituBits
    { lines := ops.sub lines (ops.ofNat templines)
      linesadded := (a.linesadded + templines) % 2 ^ cfg.bituBits
      Scaler_Aspect := Function.update a.Scaler_Aspect i (templines % 2 ^ cfg.aspectBits) }
  else
    { a with
      lines := lines
      Scaler_Aspect := Function.update a.Scaler_Aspect i 0 }

/-- The loop `for (i=skip;i<height;i++)` of `MakeAspectTable` with `n` rounds
left, `i` being the current index. -/
def MakeAspectTable_loop {F : Type} (cfg : Config) (ops : DoubleOps F) (scaley : F)
    (miny : Nat) : Nat → Nat → AspectAcc F → AspectAcc F
  | 0, _, a => a
  | n + 1, i, a =>
    MakeAspectTable_loop cfg ops scaley miny n (i + 1)
      (MakeAspectTable_body cfg ops scaley miny i a)

/-- The function `MakeAspectTable`: the returned `linesadded` and the table
`Scaler_Aspect` it leaves, given the table `tbl` it finds. -/
def MakeAspectTable {F : Type} (cfg : Config) (ops : DoubleOps F) (skip height : Nat)
    (scaley : F) (miny : Nat) (tbl : Nat → Nat) : Nat × (Nat → Nat) :=
  let tbl := MakeAspectTable_zero skip 0 tbl
  let height := (height + skip) % 2 ^ cfg.bituBits
  let a := MakeAspectTable_loop cfg ops scaley miny (height - skip) skip
    { lines := ops.ofNat 0, linesadded := 0, Scaler_Aspect := tbl }
  (a.linesadded, a.Scaler_Aspect)

/-! ## Mode negotiator -/

/-- The test `(flags & mask) != 0`. -/
def hasFlag (flags mask : Nat) : Bool := (flags &&& mask) ≠ 0

/-- The value `flags & ~mask` for operands of the width of `Bitu`. -/
def clearFlag (cfg : Config) (flags mask : Nat) : Nat :=
  flags &&& ((2 ^ cfg.bituBits - 1) ^^^ mask)

/-- The product of two `Bitu`. -/
def mulBitu (cfg : Config) (a b : Nat) : Nat := (a * b) % 2 ^ cfg.bituBits

/-- The scaler blocks selected so far: the locals `simpleBlock` and
`complexBlock` (`none` being the null pointer). -/
structure Blocks where
  simpleBlock : SimpleBlock
  complexBlock : Option ComplexBlock
  deriving DecidableEq, Repr

/-- The statements at the label `forcenormal`. -/
def forcenormal : Blocks :=
  { complexBlock := none, simpleBlock := SimpleBlock.ScaleNormal1x }

/-- The `switch (render.scale.op)` of `RENDER_Reset`, compiled for the value of
`RENDER_USE_ADVANCED_SCALERS`. -/
def RENDER_Reset_op (cfg : Config) (op : scalerOperation_t) (size : Nat) (b : Blocks) :
    Blocks :=
  if cfg.RENDER_USE_ADVANCED_SCALERS > 0 then
    match op with
    | scalerOperation_t.scalerOpAdvInterp =>
      if cfg.RENDER_USE_ADVANCED_SCALERS > 2 then
        if size = 2 then { b with complexBlock := some ComplexBlock.ScaleAdvInterp2x }
        else if size = 3 then { b with complexBlock := some ComplexBlock.ScaleAdvInterp3x }
        else b
      else b
    | scalerOperation_t.scalerOpAdvMame =>
      if cfg.RENDER_USE_ADVANCED_SCALERS > 2 then
        if size = 2 then { b with complexBlock := some ComplexBlock.ScaleAdvMame2x }
        else if size = 3 then { b with complexBlock := some ComplexBlock.ScaleAdvMame3x }
        else b
      else b
    | scalerOperation_t.scalerOpHQ =>
      if cfg.RENDER_USE_ADVANCED_SCALERS > 2 then
        if size = 2 then { b with complexBlock := some ComplexBlock.ScaleHQ2x }
        else if size = 3 then { b with complexBlock := some ComplexBlock.ScaleHQ3x }
        else b
      else b
    | scalerOperation_t.scalerOpSuperSaI =>
      if cfg.RENDER_USE_ADVANCED_SCALERS > 2 then
        if size = 2 then { b with complexBlock := some ComplexBlock.ScaleSuper2xSaI } else b
      else b
    | scalerOperation_t.scalerOpSuperEagle =>
      if cfg.RENDER_USE_ADVANCED_SCALERS > 2 then
        if size = 2 then { b with complexBlock := some ComplexBlock.ScaleSuperEagle } else b
      else b
    | scalerOperation_t.scalerOpSaI =>
      if cfg.RENDER_USE_ADVANCED_SCALERS > 2 then
        if size = 2 then { b with complexBlock := some ComplexBlock.Scale2xSaI } else b
      else b
    | scalerOperation_t.scalerOpTV =>
      if size = 2 then { b with simpleBlock := SimpleBlock.ScaleTV2x }
      else if size = 3 then { b with simpleBlock := SimpleBlock.ScaleTV3x }
      else b
    | scalerOperation_t.scalerOpRGB =>
      if size = 2 then { b with simpleBlock := SimpleBlock.ScaleRGB2x }
      else if size = 3 then { b with simpleBlock := SimpleBlock.ScaleRGB3x }
      else b
    | scalerOperation_t.scalerOpScan =>
      if size = 2 then { b with simpleBlock := SimpleBlock.ScaleScan2x }
      else if size = 3 then { b with simpleBlock := SimpleBlock.ScaleScan3x }
      else b
    | scalerOperation_t.scalerOpNormal => b
  else b

/-- The part of `RENDER_Reset` guarded by `C_DBP_ENABLE_SCALERS` that clamps
`render.scale.size` and selects the candidate blocks, up to the statement
`if (complexBlock)`. -/
def RENDER_Reset_select {F : Type} (cfg : Config) (s : State F) : Blocks × State F :=
  -- the quotient `SCALER_MAXLINE_WIDTH/width` is taken as 0 when `width` is 0
  let width := s.render.src.width
  let dblw := s.render.src.dblw
  let dblh := s.render.src.dblh
  let b : Blocks := { simpleBlock := SimpleBlock.ScaleNormal1x, complexBlock := none }
  let maxsize_current_input := cfg.SCALER_MAXLINE_WIDTH / width
  let s :=
    if s.render.scale.size > maxsize_current_input then
      { s with render := { s.render with scale := { s.render.scale with
        size := maxsize_current_input } } }
    else s
  if (dblh && dblw) || (s.render.scale.forced && !dblh && !dblw) then
    let b :=
      if s.render.scale.size = 2 then { b with simpleBlock := SimpleBlock.ScaleNormal2x }
      else if s.render.scale.size = 3 then { b with simpleBlock := SimpleBlock.ScaleNormal3x }
      else { b with simpleBlock := SimpleBlock.ScaleNormal1x }
    (RENDER_Reset_op cfg s.render.scale.op s.render.scale.size b, s)
  else if dblw then
    let b := { b with simpleBlock := SimpleBlock.ScaleNormalDw }
    if mulBitu cfg width (cfg.simpleInfo b.simpleBlock).xscale > cfg.SCALER_MAXLINE_WIDTH then
      ({ b with simpleBlock := SimpleBlock.ScaleNormal1x }, s)
    else (b, s)
  else if dblh then
    ({ b with simpleBlock := SimpleBlock.ScaleNormalDh }, s)
  else (forcenormal, s)

/-- Where one pass of the negotiation of `RENDER_Reset` ends: at a
`goto forcenormal`, in `E_Exit` (with its message and the state reached), or
with the locals needed further down. -/
inductive Pass (F : Type)
  | gotoForcenormal (s : State F)
  | E_Exit (msg : String) (s : State F)
  | granted (b : Blocks) (gfx_flags xscale yscale : Nat) (s : State F)

/-- The state a pass ends with. -/
def Pass.state {F : Type} : Pass F → State F
  | Pass.gotoForcenormal s => s
  | Pass.E_Exit _ s => s
  | Pass.granted _ _ _ _ s => s

/-- The first `switch (render.src.bpp)` of `RENDER_Reset`: the new value of
`gfx_flags` and the state with `render.src.start` set. -/
def RENDER_Reset_bpp {F : Type} (cfg : Config) (gfx_flags : Nat) (s : State F) :
    Nat × State F :=
  let setStart (k : Nat) : State F :=
    { s with render := { s.render with src := { s.render.src with
      start := mulBitu cfg s.render.src.width k / cfg.sizeofBitu } } }
  if s.render.src.bpp = 8 then
    (if hasFlag gfx_flags cfg.GFX_CAN_8 then gfx_flags ||| cfg.GFX_LOVE_8
      else gfx_flags ||| cfg.GFX_LOVE_32, setStart 1)
  else if s.render.src.bpp = 15 then
    (clearFlag cfg (gfx_flags ||| cfg.GFX_LOVE_15) cfg.GFX_CAN_8 ||| cfg.GFX_RGBONLY, setStart 2)
  else if s.render.src.bpp = 16 then
    (clearFlag cfg (gfx_flags ||| cfg.GFX_LOVE_16) cfg.GFX_CAN_8 ||| cfg.GFX_RGBONLY, setStart 2)
  else if s.render.src.bpp = 32 then
    (clearFlag cfg (gfx_flags ||| cfg.GFX_LOVE_32) cfg.GFX_CAN_8 ||| cfg.GFX_RGBONLY, setStart 4)
  else (gfx_flags, s)

/-- Whether the statement `if (complexBlock)` of `RENDER_Reset` jumps to
`forcenormal`: a complex block is selected and either the resolution test
compiled for `RENDER_USE_ADVANCED_SCALERS>1` holds or the jump is
unconditional. -/
def RENDER_Reset_tooLarge {F : Type} (cfg : Config) (b : Blocks) (s : State F) : Bool :=
  let width := s.render.src.width
  let height := s.render.src.height
  match b.complexBlock with
  | some _ =>
    if cfg.RENDER_USE_ADVANCED_SCALERS > 1 then
      decide (width ≥ cfg.SCALER_COMPLEXWIDTH - 16) || decide (height ≥ cfg.SCALER_COMPLEXHEIGHT - 16)
    else true
  | none => false

/-- The block `gfx_flags`, `xscale` and `yscale` are read from: the complex
block when there is one, the simple block otherwise. -/
def RENDER_Reset_info (cfg : Config) (b : Blocks) : BlockInfo :=
  match b.complexBlock with
  | some c => cfg.complexInfo c
  | none => cfg.simpleInfo b.simpleBlock

/-- One pass of `RENDER_Reset` from the statement `if (complexBlock)` (or, with
`C_DBP_ENABLE_SCALERS` off, from the statements after the label) to the test
of what `GFX_GetBestMode` returned. -/
def RENDER_Reset_pass {F : Type} (cfg : Config) (env : Env F) (b : Blocks) (s : State F) :
    Pass F :=
  if RENDER_Reset_tooLarge cfg b s then Pass.gotoForcenormal s
  else
    let info := RENDER_Reset_info cfg b
    let r := RENDER_Reset_bpp cfg info.gfxFlags s
    let s := { r.2 with calls := r.2.calls ++ [Call.GFX_GetBestMode r.1] }
    let gfx_flags := env.GFX_GetBestMode r.1
    if gfx_flags = 0 then
      if b.complexBlock = none ∧ b.simpleBlock = SimpleBlock.ScaleNormal1x then
        Pass.E_Exit "Failed to create a rendering output" s
      else Pass.gotoForcenormal s
    else Pass.granted b gfx_flags info.xscale info.yscale s

/-- The negotiation of `RENDER_Reset` with its jumps to `forcenormal`: a pass
with the selected blocks and, when it ends in `goto forcenormal`, a pass with
the blocks set at the label. A further jump does not occur
(`RENDER_Reset_pass_forcenormal`). -/
def RENDER_Reset_negotiate {F : Type} (cfg : Config) (env : Env F) (b : Blocks)
    (s : State F) : Pass F :=
  match RENDER_Reset_pass cfg env b s with
  | Pass.gotoForcenormal s => RENDER_Reset_pass cfg env forcenormal s
  | p => p

/-- The part of `RENDER_Reset` from `width *= xscale;` to the call of
`GFX_SetSize`: the value `GFX_SetSize` returns and the next state. -/
def RENDER_Reset_size {F : Type} (cfg : Config) (ops : DoubleOps F) (env : Env F)
    (b : Blocks) (gfx_flags xscale yscale : Nat) (s : State F) : Nat × State F :=
  let gfx_scalew : F :=
    if s.render.aspect then
      if ops.gt s.render.src.ratio (ops.ofNat 1) then ops.ofNat 1
      else ops.div (ops.ofNat 1) s.render.src.ratio
    else ops.ofNat 1
  let gfx_scaleh : F :=
    if s.render.aspect then
      if ops.gt s.render.src.ratio (ops.ofNat 1) then s.render.src.ratio
      else ops.ofNat 1
    else ops.ofNat 1
  let width := mulBitu cfg s.render.src.width xscale
  let skip := if b.complexBlock.isSome then 1 else 0
  let r : (Nat × (Nat → Nat)) × Nat × F :=
    if hasFlag gfx_flags cfg.GFX_SCALING then
      (MakeAspectTable cfg ops skip s.render.src.height (ops.ofNat yscale) yscale s.Scaler_Aspect,
        gfx_flags, gfx_scaleh)
    else if hasFlag gfx_flags cfg.GFX_CAN_RANDOM && ops.gt gfx_scaleh (ops.ofNat 1) then
      let gfx_scaleh := ops.mul gfx_scaleh (ops.ofNat yscale)
      (MakeAspectTable cfg ops skip s.render.src.height gfx_scaleh yscale s.Scaler_Aspect,
        gfx_flags, gfx_scaleh)
    else
      let gfx_flags := clearFlag cfg gfx_flags cfg.GFX_CAN_RANDOM
      (MakeAspectTable cfg ops skip s.render.src.height (ops.ofNat yscale) yscale s.Scaler_Aspect,
        gfx_flags, gfx_scaleh)
  let height := r.1.1
  let gfx_flags := r.2.1
  let gfx_scaleh := r.2.2
  let s := { s with Scaler_Aspect := r.1.2 }
  let s := if cfg.C_OPENGL then { s with calls := s.calls ++ [Call.GFX_SetShader] } else s
  let s := { s with calls := s.calls ++
    [Call.GFX_SetSize width height gfx_flags gfx_scalew gfx_scaleh] }
  (env.GFX_SetSize width height gfx_flags gfx_scalew gfx_scaleh, s)

/-- The selection of `render.scale.outMode` from the flags `GFX_SetSize`
returned; `none` when `E_Exit` is reached. -/
def RENDER_Reset_outMode (cfg : Config) (gfx_flags : Nat) : Option scalerMode_t :=
  if cfg.C_DBP_ENABLE_SCALERS && hasFlag gfx_flags cfg.GFX_CAN_8 then
    some scalerMode_t.scalerMode8
  else if cfg.C_DBP_ENABLE_SCALERS && hasFlag gfx_flags cfg.GFX_CAN_15 then
    some scalerMode_t.scalerMode15
  else if cfg.C_DBP_ENABLE_SCALERS && hasFlag gfx_flags cfg.GFX_CAN_16 then
    some scalerMode_t.scalerMode16
  else if hasFlag gfx_flags cfg.GFX_CAN_32 then some scalerMode_t.scalerMode32
  else none

/-- The selection of `lineBlock` and `render.scale.complexHandler`. -/
def RENDER_Reset_lineBlock (cfg : Config) (b : Blocks) (gfx_flags : Nat)
    (outMode : scalerMode_t) : LineBlock × LineHandler :=
  if hasFlag gfx_flags cfg.GFX_HARDWARE then
    match (if cfg.RENDER_USE_ADVANCED_SCALERS > 1 then b.complexBlock else none) with
    | some c => (LineBlock.ScalerCache, LineHandler.complexLinear c outMode)
    | none => (LineBlock.Linear b.simpleBlock, LineHandler.null)
  else
    match (if cfg.RENDER_USE_ADVANCED_SCALERS > 1 then b.complexBlock else none) with
    | some c => (LineBlock.ScalerCache, LineHandler.complexRandom c outMode)
    | none => (LineBlock.Random b.simpleBlock, LineHandler.null)

/-- The second `switch (render.src.bpp)` of `RENDER_Reset`; `none` when its
`default:` case reaches `E_Exit`. -/
def RENDER_Reset_handlers {F : Type} (cfg : Config) (lineBlock : LineBlock) (s : State F) :
    Option (State F) :=
  let set (row : Nat) (linePal : LineHandler) (inMode : scalerMode_t) (k : Nat) : State F :=
    { s with render := { s.render with scale := { s.render.scale with
      lineHandler := LineHandler.line lineBlock row s.render.scale.outMode
      linePalHandler := linePal
      inMode := inMode
      cachePitch :=
        if cfg.C_DBP_ENABLE_SCALERCACHE then mulBitu cfg s.render.src.width k
        else s.render.scale.cachePitch } } }
  if s.render.src.bpp = 8 then
    some (set 0 (LineHandler.line lineBlock 4 s.render.scale.outMode) scalerMode_t.scalerMode8 1)
  else if s.render.src.bpp = 15 then
    some (set 1 LineHandler.null scalerMode_t.scalerMode15 2)
  else if s.render.src.bpp = 16 then
    some (set 2 LineHandler.null scalerMode_t.scalerMode16 2)
  else if s.render.src.bpp = 32 then
    some (set 3 LineHandler.null scalerMode_t.scalerMode32 4)
  else none

/-- The end of `RENDER_Reset`, from `render.scale.blocks = ...` on. -/
def RENDER_Reset_finish {F : Type} (cfg : Config) (s : State F) : State F :=
  let s := { s with render := { s.render with scale := { s.render.scale with
    blocks := s.render.src.width / cfg.SCALER_BLOCKSIZE
    lastBlock := s.render.src.width % cfg.SCALER_BLOCKSIZE
    inHeight := s.render.src.height } } }
  let s := { s with render := { s.render with pal := { s.render.pal with
    first := 0
    last := 255
    changed := false
    modified := fun _ => 0 } } }
  let s := { s with RENDER_DrawLine :=
    if cfg.C_DBP_ENABLE_SCALERCACHE then LineHandler.RENDER_FinishLineHandler
    else LineHandler.RENDER_EmptyLineHandler }
  let s := { s with render := { s.render with scale := { s.render.scale with outWrite := 0 } } }
  let s :=
    if cfg.C_DBP_ENABLE_SCALERCACHE then
      { s with render := { s.render with scale := { s.render.scale with clearCache := true } } }
    else s
  { s with render := { s.render with active := true } }

/-- The candidate blocks of `RENDER_Reset` when it reaches the statement
`if (complexBlock)` for the first time, and the state then: the selection of
`RENDER_Reset_select` with `C_DBP_ENABLE_SCALERS`, the blocks of the label
`forcenormal` without it. -/
def RENDER_Reset_candidate {F : Type} (cfg : Config) (s : State F) : Blocks × State F :=
  if cfg.C_DBP_ENABLE_SCALERS then RENDER_Reset_select cfg s else (forcenormal, s)

/-- The part of `RENDER_Reset` after a granted negotiation, from
`width *= xscale;` to the end of the function; an error is the message of the
`E_Exit` that ended it. -/
def RENDER_Reset_output {F : Type} (cfg : Config) (ops : DoubleOps F) (env : Env F)
    (b : Blocks) (gfx_flags xscale yscale : Nat) (s : State F) : Except String (State F) :=
  let r := RENDER_Reset_size cfg ops env b gfx_flags xscale yscale s
  let gfx_flags := r.1
  let s := r.2
  match RENDER_Reset_outMode cfg gfx_flags with
  | none => Except.error "Failed to create a rendering output"
  | some outMode =>
    let s := { s with render := { s.render with scale := { s.render.scale with
      outMode := outMode } } }
    let lb := RENDER_Reset_lineBlock cfg b gfx_flags outMode
    let s := { s with render := { s.render with scale := { s.render.scale with
      complexHandler := lb.2 } } }
    match RENDER_Reset_handlers cfg lb.1 s with
    | none => Except.error "RENDER:Wrong source bpp"
    | some s => Except.ok (RENDER_Reset_finish cfg s)

/-- The function `RENDER_Reset` from the statement `if (complexBlock)` on, for
the blocks `b` selected before it: the negotiation and, when it is granted,
the rest of the function. -/
def RENDER_Reset_run {F : Type} (cfg : Config) (ops : DoubleOps F) (env : Env F)
    (b : Blocks) (s : State F) : Except String (State F) :=
  match RENDER_Reset_negotiate cfg env b s with
  | Pass.gotoForcenormal _ => Except.error "goto forcenormal"
  | Pass.E_Exit msg _ => Except.error msg
  | Pass.granted b gfx_flags xscale yscale s =>
    RENDER_Reset_output cfg ops env b gfx_flags xscale yscale s

/-- The function `RENDER_Reset`; an error is the message of the `E_Exit` that
ended it. -/
def RENDER_Reset {F : Type} (cfg : Config) (ops : DoubleOps F) (env : Env F) (s : State F) :
    Except String (State F) :=
  RENDER_Reset_run cfg ops env (RENDER_Reset_candidate cfg s).1 (RENDER_Reset_candidate cfg s).2

/-- The enumeration `GFX_CallBackFunctions_t`; `other` stands for any value
that is none of the three the file names. -/
inductive GFX_CallBackFunctions_t
  | GFX_CallBackReset
  | GFX_CallBackStop
  | GFX_CallBackRedraw
  | other (n : Nat)
  deriving DecidableEq, Repr

/-- The function `RENDER_CallBack`. -/
def RENDER_CallBack {F : Type} (cfg : Config) (ops : DoubleOps F) (env : Env F)
    (function : GFX_CallBackFunctions_t) (s : State F) : Except String (State F) :=
  match function with
  | GFX_CallBackFunctions_t.GFX_CallBackStop => Except.ok (RENDER_Halt s)
  | GFX_CallBackFunctions_t.GFX_CallBackRedraw =>
    if cfg.C_DBP_ENABLE_SCALERCACHE then
      Except.ok { s with render := { s.render with scale := { s.render.scale with
        clearCache := true } } }
    else Except.ok s
  | GFX_CallBackFunctions_t.GFX_CallBackReset =>
    RENDER_Reset cfg ops env (call_GFX_EndUpdate ChangedLinesArg.null s)
  | GFX_CallBackFunctions_t.other _ => Except.error "Unhandled GFX_CallBackReset"

/-- The function `RENDER_SetSize` (the debug assertion on `fps` is not part of
the model). -/
def RENDER_SetSize {F : Type} (cfg : Config) (ops : DoubleOps F) (env : Env F)
    (width height bpp : Nat) (fps : F) (ratio : F) (dblw dblh : Bool) (s : State F) :
    Except String (State F) :=
  let s := RENDER_Halt s
  if width = 0 || height = 0 || decide (width > cfg.SCALER_MAXWIDTH)
      || decide (height > cfg.SCALER_MAXHEIGHT) then
    Except.ok s
  else
    let ratio :=
      if ops.gt ratio (ops.ofNat 1) then
        let target := ops.add (ops.mul (ops.ofNat height) ratio) ops.lit0025
        ops.div target (ops.ofNat height)
      else ratio
    let s := { s with render := { s.render with src := { s.render.src with
      width := width
      height := height
      bpp := bpp
      dblw := dblw
      dblh := dblh
      fps := fps
      ratio := ratio } } }
    RENDER_Reset cfg ops env s

/-! ## State serializer -/

/-- One item of a save-state record, as `DBPArchive` writes or reads it: the
byte block of `render.src`, the palette `render.pal`, a `bool`, a `Bitu`, or a
`Bit32u`. -/
inductive Field (F : Type)
  | srcBytes (v : Src F)
  | pal (v : Pal)
  | bool (v : Bool)
  | bitu (v : Nat)
  | bit32u (v : Nat)

/-- The two modes of `DBPArchive` the embedding covers. -/
inductive ArchiveMode
  | MODE_SAVE
  | MODE_LOAD
  deriving DecidableEq, Repr

/-- The local `render_offset` as `DBPSerialize_Render` initialises it. -/
def render_offset_init {F : Type} (cfg : Config) (env : Env F) (s : State F) : Nat :=
  let current_pixels := env.GFX_GetPixels.1
  let current_pitch := env.GFX_GetPixels.2
  if s.render.scale.outWrite > current_pixels ∧
      s.render.scale.outWrite <
        current_pixels + mulBitu cfg current_pitch s.render.src.height then
    (s.render.scale.outWrite - current_pixels) % 2 ^ 32
  else 0

/-- The function `DBPSerialize_Render` in mode `MODE_SAVE`: the items it writes,
in order. `uninit` is the indeterminate value of the locals `old` that a
version below 5 writes. With `C_DBP_ENABLE_SCALERCACHE` the two consecutive
`ar.Serialize` calls are taken as two statements. -/
def DBPSerialize_Render_save {F : Type} (cfg : Config) (env : Env F) (version uninit : Nat)
    (s : State F) : List (Field F) × State F :=
  let s := { s with calls := s.calls ++ [Call.GFX_GetPixels] }
  let render_offset := render_offset_init cfg env s
  let head : List (Field F) :=
    [Field.srcBytes s.render.src, Field.pal s.render.pal, Field.bool s.render.updating,
      Field.bool s.render.active, Field.bitu s.render.scale.inLine,
      Field.bitu s.render.scale.outLine]
  let tail : List (Field F) :=
    if !cfg.C_DBP_ENABLE_SCALERCACHE then
      (if version < 5 then [Field.bitu uninit] else [])
        ++ [Field.bit32u render_offset]
        ++ (if version ≥ 2 ∧ version < 5 then [Field.bit32u uninit] else [])
    else
      [Field.bitu s.Scaler_ChangedLineIndex, Field.bit32u render_offset]
        ++ (if version ≥ 2 then
            [Field.bit32u ((s.render.scale.cacheRead - scalerSourceCache) % 2 ^ 32)]
          else [])
  (head ++ tail, s)

/-- Reads one `Field.srcBytes` item. -/
def readSrc {F : Type} : List (Field F) → Option (Src F × List (Field F))
  | Field.srcBytes v :: rest => some (v, rest)
  | _ => none

/-- Reads one `Field.pal` item. -/
def readPal {F : Type} : List (Field F) → Option (Pal × List (Field F))
  | Field.pal v :: rest => some (v, rest)
  | _ => none

/-- Reads one `Field.bool` item. -/
def readBool {F : Type} : List (Field F) → Option (Bool × List (Field F))
  | Field.bool v :: rest => some (v, rest)
  | _ => none

/-- Reads one `Field.bitu` item. -/
def readBitu {F : Type} : List (Field F) → Option (Nat × List (Field F))
  | Field.bitu v :: rest => some (v, rest)
  | _ => none

/-- Reads one `Field.bit32u` item. -/
def readBit32u {F : Type} : List (Field F) → Option (Nat × List (Field F))
  | Field.bit32u v :: rest => some (v, rest)
  | _ => none

/-- What the `Serialize` calls of `DBPSerialize_Render` read in mode
`MODE_LOAD`: the block `loaded_src`, the local `render_offset`, the state with
the members read into `render`, and the rest of the record; `none` when the
record does not hold the items in the order they are read. -/
def DBPSerialize_Render_read {F : Type} (cfg : Config) (version : Nat)
    (ar : List (Field F)) (s : State F) : Option (Src F × Nat × State F × List (Field F)) := do
  let (loaded_src, ar) ← readSrc ar
  let (pal, ar) ← readPal ar
  let (updating, ar) ← readBool ar
  let (active, ar) ← readBool ar
  let (inLine, ar) ← readBitu ar
  let (outLine, ar) ← readBitu ar
  let s := { s with render := { s.render with
    pal := pal
    updating := updating
    active := active
    scale := { s.render.scale with inLine := inLine, outLine := outLine } } }
  if !cfg.C_DBP_ENABLE_SCALERCACHE then
    let (_, ar) ← if version < 5 then readBitu ar else some (0, ar)
    let (render_offset, ar) ← readBit32u ar
    let (_, ar) ← if version ≥ 2 ∧ version < 5 then readBit32u ar else some (0, ar)
    some (loaded_src, render_offset, s, ar)
  else
    let (changedLineIndex, ar) ← readBitu ar
    let (render_offset, ar) ← readBit32u ar
    let (cache_offset, ar) ← if version ≥ 2 then readBit32u ar else some (0, ar)
    let s := { s with
      Scaler_ChangedLineIndex := changedLineIndex
      render := { s.render with scale := { s.render.scale with
        clearCache := true
        cacheRead := scalerSourceCache + cache_offset } } }
    some (loaded_src, render_offset, s, ar)

/-- The function `DBPSerialize_Render` in mode `MODE_LOAD`: the next state and
the rest of the record. -/
def DBPSerialize_Render_load {F : Type} [DecidableEq F] (cfg : Config) (ops : DoubleOps F)
    (env : Env F) (version : Nat) (ar : List (Field F)) (s : State F) :
    Except String (State F × List (Field F)) :=
  let s := { s with calls := s.calls ++ [Call.GFX_GetPixels] }
  let current_pixels := env.GFX_GetPixels.1
  match DBPSerialize_Render_read cfg version ar s with
  | none => Except.error "save-state record"
  | some (loaded_src, render_offset, s, ar) =>
    if s.render.src ≠ loaded_src then
      let s := { s with render := { s.render with src := loaded_src } }
      (RENDER_Reset cfg ops env s).map (fun s => (s, ar))
    else if current_pixels ≠ 0 ∧ render_offset ≠ 0 ∧
        render_offset <
          mulBitu cfg (mulBitu cfg s.render.src.width 4) s.render.src.height then
      Except.ok ({ s with render := { s.render with scale := { s.render.scale with
        outWrite := current_pixels + render_offset } } }, ar)
    else
      (RENDER_Reset cfg ops env s).map (fun s => (s, ar))

/-! ## Sequences of calls and observations on the call record -/

/-- Whether a recorded call went to the display backend (a `GFX_` function). -/
def Call.isBackend {F : Type} : Call F → Bool
  | Call.CAPTURE_AddImage _ _ _ _ _ => false
  | _ => true

/-- The recorded calls that went to the display backend. -/
def backendCalls {F : Type} (calls : List (Call F)) : List (Call F) :=
  calls.filter Call.isBackend

/-- The entries `tbl 0, ..., tbl (n-1)` of a table, summed. -/
def tableSum (tbl : Nat → Nat) (n : Nat) : Nat :=
  ((List.range n).map tbl).sum

/-! ## Concrete configurations and states for evaluating the model -/

/-- A build without the optional subsystems, with a 64-bit `Bitu`, 8-bit
entries of `Scaler_Aspect`, 16-bit entries of `Scaler_ChangedLines`, and
sample values for the remaining constants. -/
def plainConfig : Config where
  C_DBP_ENABLE_SCALERCACHE := false
  C_DBP_ENABLE_CAPTURE := false
  VGA_KEEP_CHANGES := false
  C_DBP_ENABLE_SCALERS := false
  C_OPENGL := false
  RENDER_USE_ADVANCED_SCALERS := 0
  bituBits := 64
  aspectBits := 8
  changedBits := 16
  sizeofBitu := 8
  SCALER_MAXWIDTH := 800
  SCALER_MAXHEIGHT := 600
  SCALER_MAXLINE_WIDTH := 800
  SCALER_COMPLEXWIDTH := 800
  SCALER_COMPLEXHEIGHT := 600
  SCALER_BLOCKSIZE := 16
  GFX_CAN_8 := 0x0001
  GFX_CAN_15 := 0x0002
  GFX_CAN_16 := 0x0004
  GFX_CAN_32 := 0x0008
  GFX_LOVE_8 := 0x0010
  GFX_LOVE_15 := 0x0020
  GFX_LOVE_16 := 0x0040
  GFX_LOVE_32 := 0x0080
  GFX_RGBONLY := 0x0100
  GFX_SCALING := 0x1000
  GFX_HARDWARE := 0x2000
  GFX_CAN_RANDOM := 0x4000
  simpleInfo := fun b =>
    match b with
    | SimpleBlock.ScaleNormal1x => ⟨0x000f, 1, 1⟩
    | SimpleBlock.ScaleNormalDw => ⟨0x000f, 2, 1⟩
    | SimpleBlock.ScaleNormalDh => ⟨0x000f, 1, 2⟩
    | SimpleBlock.ScaleNormal2x => ⟨0x000f, 2, 2⟩
    | SimpleBlock.ScaleNormal3x => ⟨0x000f, 3, 3⟩
    | SimpleBlock.ScaleTV2x => ⟨0x010e, 2, 2⟩
    | SimpleBlock.ScaleTV3x => ⟨0x010e, 3, 3⟩
    | SimpleBlock.ScaleRGB2x => ⟨0x010e, 2, 2⟩
    | SimpleBlock.ScaleRGB3x => ⟨0x010e, 3, 3⟩
    | SimpleBlock.ScaleScan2x => ⟨0x010e, 2, 2⟩
    | SimpleBlock.ScaleScan3x => ⟨0x010e, 3, 3⟩
  complexInfo := fun b =>
    match b with
    | ComplexBlock.ScaleAdvInterp3x => ⟨0x010e, 3, 3⟩
    | ComplexBlock.ScaleAdvMame3x => ⟨0x000f, 3, 3⟩
    | ComplexBlock.ScaleHQ3x => ⟨0x010e, 3, 3⟩
    | ComplexBlock.ScaleAdvMame2x => ⟨0x000f, 2, 2⟩
    | _ => ⟨0x010e, 2, 2⟩

/-- The build `plainConfig` with the dirty-line cache switched on. -/
def cacheConfig : Config :=
  { plainConfig with C_DBP_ENABLE_SCALERCACHE := true }

/-- A backend with a 32-bit surface at address 4096 and pitch 1280 that grants
every buffer, accepts every mode as asked, and encodes a colour as
`red * 65536 + green * 256 + blue`. -/
def sampleEnv : Env ℚ where
  GFX_GetRGB := fun r g b => r.val * 65536 + g.val * 256 + b.val
  GFX_StartUpdate := fun _ _ => (true, 4096, 1280)
  GFX_GetBestMode := fun flags => flags
  GFX_SetSize := fun _ _ flags _ _ => flags
  GFX_GetPixels := (4096, 1280)
  capturing := false
  CAPTURE_FLAG_DBLW := 1
  CAPTURE_FLAG_DBLH := 2
  CAPTURE_FLAG_DUPLICATE := 4

/-- The backend `sampleEnv` refusing every buffer. -/
def refusingEnv : Env ℚ :=
  { sampleEnv with GFX_StartUpdate := fun p q => (false, p, q) }

/-- The zero-initialised globals: the state before `RENDER_Init`. -/
def zeroState : State ℚ where
  render :=
    { src := { width := 0, start := 0, height := 0, bpp := 0, dblw := false, dblh := false,
               ratio := 0, fps := 0 }
      frameskip := { count := 0, max := 0 }
      pal := { rgb := fun _ => ⟨0, 0, 0⟩, lut := fun _ => 0, changed := false,
               modified := fun _ => 0, first := 0, last := 0 }
      scale := { size := 0, inMode := scalerMode_t.scalerMode8,
                 outMode := scalerMode_t.scalerMode8,
                 op := scalerOperation_t.scalerOpNormal, clearCache := false, forced := false,
                 lineHandler := LineHandler.null, linePalHandler := LineHandler.null,
                 complexHandler := LineHandler.null, blocks := 0, lastBlock := 0, outPitch := 0,
                 outWrite := 0, cachePitch := 0, cacheRead := 0, inHeight := 0, inLine := 0,
                 outLine := 0 }
      updating := false
      active := false
      aspect := false
      fullFrame := false }
  RENDER_DrawLine := LineHandler.null
  Scaler_Aspect := fun _ => 0
  Scaler_ChangedLines := fun _ => 0
  Scaler_ChangedLineIndex := 0
  calls := []

/-- An active pipeline between frames: 32-bit output, 8-bit input, empty dirty
range, no frame skipping. -/
def idleState : State ℚ :=
  { zeroState with
    RENDER_DrawLine := LineHandler.RENDER_EmptyLineHandler
    render := { zeroState.render with
      active := true
      src := { zeroState.render.src with width := 320, height := 200, bpp := 8, ratio := 1,
                                         fps := 70 }
      pal := { zeroState.render.pal with first := 256, last := 0 }
      scale := { zeroState.render.scale with
        outMode := scalerMode_t.scalerMode32
        lineHandler :=
          LineHandler.line (LineBlock.Random SimpleBlock.ScaleNormal1x) 0
            scalerMode_t.scalerMode32
        linePalHandler :=
          LineHandler.line (LineBlock.Random SimpleBlock.ScaleNormal1x) 4
            scalerMode_t.scalerMode32 } } }

/-- The arguments of one `RENDER_SetPal` call. -/
structure PalWrite where
  entry : Bit8u
  red : Bit8u
  green : Bit8u
  blue : Bit8u
  deriving DecidableEq, Repr

/-- The calls `RENDER_SetPal` of `ws`, made in order. -/
def setPalAll {F : Type} (ws : List PalWrite) (s : State F) : State F :=
  ws.foldl (fun s w => RENDER_SetPal w.entry w.red w.green w.blue s) s

/-- The most recent call in `ws` that writes entry `i`, if any. -/
def lastWrite (ws : List PalWrite) (i : Nat) : Option PalWrite :=
  ws.reverse.find? (fun w => decide (w.entry.val = i))

/-- The value `newPal` that `Check_Palette` computes for index `i` when the
lookup entries are `bits` wide. -/
def newPal {F : Type} (env : Env F) (bits : Nat) (s : State F) (i : Nat) : Nat :=
  env.GFX_GetRGB (s.render.pal.rgb i).red (s.render.pal.rgb i).green (s.render.pal.rgb i).blue
    % 2 ^ bits

/-- The width of the lookup entries `Check_Palette` writes for an output
mode: `lut.b16` for 15/16-bit output, `lut.b32` otherwise. -/
def lutBits : scalerMode_t → Nat
  | scalerMode_t.scalerMode15 => 16
  | scalerMode_t.scalerMode16 => 16
  | _ => 32

/-- The values of `templines` in the successive rounds of the second loop of
`MakeAspectTable` (0 for a round that takes the `else` branch), before they
are stored: `n` rounds starting with the accumulator `lines`. -/
def MakeAspectTable_counts {F : Type} (cfg : Config) (ops : DoubleOps F) (scaley : F)
    (miny : Nat) : Nat → F → List Nat
  | 0, _ => []
  | n + 1, lines =>
    let lines := ops.add lines scaley
    if ops.ge lines (ops.ofNat miny) then
      let templines := ops.toBitu cfg.bituBits lines % 2 ^ cfg.bituBits
      templines :: MakeAspectTable_counts cfg ops scaley miny n (ops.sub lines (ops.ofNat templines))
    else 0 :: MakeAspectTable_counts cfg ops scaley miny n lines

/-- The state `idleState` with 32-bit output after `RENDER_SetPal(0,1,0,0)`:
entry 0 is dirty and its cached lookup value 0 is stale. -/
def dirtyState : State ℚ :=
  RENDER_SetPal 0 1 0 0 idleState

/-- The build `plainConfig` with entries of `Scaler_Aspect` as wide as `Bitu`. -/
def wideConfig : Config :=
  { plainConfig with aspectBits := 64 }

/-- The state `idleState` in the middle of a frame: a transaction is open. -/
def openState : State ℚ :=
  { idleState with render := { idleState.render with updating := true } }

/-- A save-state record of version 5 whose source format is 640x400 and whose
`updating` flag is set. -/
def sampleRecord : List (Field ℚ) :=
  [Field.srcBytes { idleState.render.src with width := 640, height := 400 },
    Field.pal idleState.render.pal, Field.bool true, Field.bool true, Field.bitu 0,
    Field.bitu 0, Field.bit32u 0]

/-- Three `RENDER_SetPal` calls, two of them writing entry 5. -/
def sampleWrites : List PalWrite :=
  [⟨5, 1, 2, 3⟩, ⟨9, 4, 5, 6⟩, ⟨5, 7, 8, 9⟩]

/-- The argument of the `GFX_GetBestMode` call of a pass that starts with the
blocks `b`. -/
def RENDER_Reset_asked {F : Type} (cfg : Config) (b : Blocks) (s : State F) : Nat :=
  (RENDER_Reset_bpp cfg (RENDER_Reset_info cfg b).gfxFlags s).1

/-- The number of `GFX_GetBestMode` calls in a call record. -/
def bestModeCalls {F : Type} : List (Call F) → Nat
  | [] => 0
  | Call.GFX_GetBestMode _ :: calls => bestModeCalls calls + 1
  | _ :: calls => bestModeCalls calls

/-- The simple block `RENDER_Reset` takes as the always working default for a
magnification: `ScaleNormal2x` for 2, `ScaleNormal3x` for 3, `ScaleNormal1x`
otherwise. -/
def normalBlock (size : Nat) : SimpleBlock :=
  if size = 2 then SimpleBlock.ScaleNormal2x
  else if size = 3 then SimpleBlock.ScaleNormal3x
  else SimpleBlock.ScaleNormal1x

/-- The blocks of the scaler `op` at the magnification `size`: the default of
the magnification, overridden by the `switch (render.scale.op)`. -/
def requestedBlocks (cfg : Config) (op : scalerOperation_t) (size : Nat) : Blocks :=
  RENDER_Reset_op cfg op size { simpleBlock := normalBlock size, complexBlock := none }

/-- The build `plainConfig` with the software scalers switched on, the advanced
ones included. -/
def scalersConfig : Config :=
  { plainConfig with C_DBP_ENABLE_SCALERS := true, RENDER_USE_ADVANCED_SCALERS := 3 }

/-- The backend `sampleEnv` with no usable mode: `GFX_GetBestMode` returns 0. -/
def deadEnv : Env ℚ :=
  { sampleEnv with GFX_GetBestMode := fun _ => 0 }

/-- The state `idleState` with the source format 320x600 and the scaler `hq2x`
forced. -/
def hqState : State ℚ :=
  { idleState with render := { idleState.render with
    src := { idleState.render.src with height := 600 }
    scale := { idleState.render.scale with
      op := scalerOperation_t.scalerOpHQ, size := 2, forced := true } } }

/-- The state `idleState` with the scaler `normal3x` forced: with a source
width of 320 and a line width limit of 800 the usable magnification is 2. -/
def normal3xState : State ℚ :=
  { idleState with render := { idleState.render with
    scale := { idleState.render.scale with
      op := scalerOperation_t.scalerOpNormal, size := 3, forced := true } } }

/-- The state of a pass when it tests what `GFX_GetBestMode` returned: the
first `switch (render.src.bpp)` has set `render.src.start` and the call is
recorded. -/
def RENDER_Reset_asking {F : Type} (cfg : Config) (b : Blocks) (s : State F) : State F :=
  { (RENDER_Reset_bpp cfg (RENDER_Reset_info cfg b).gfxFlags s).2 with
    calls := (RENDER_Reset_bpp cfg (RENDER_Reset_info cfg b).gfxFlags s).2.calls ++
      [Call.GFX_GetBestMode (RENDER_Reset_asked cfg b s)] }

/-- The value of `render.scale.size` after the statement that limits it to
`maxsize_current_input`. -/
def clampedSize {F : Type} (cfg : Config) (s : State F) : Nat :=
  if s.render.scale.size > cfg.SCALER_MAXLINE_WIDTH / s.render.src.width then
    cfg.SCALER_MAXLINE_WIDTH / s.render.src.width
  else s.render.scale.size

/-- The state `RENDER_SetSize` has built when it calls `RENDER_Reset`: the
pipeline halted and the source format stored, with the ratio adjusted when it
exceeds 1. -/
def RENDER_SetSize_stored {F : Type} (ops : DoubleOps F) (width height bpp : Nat)
    (fps ratio : F) (dblw dblh : Bool) (s : State F) : State F :=
  { RENDER_Halt s with render := { (RENDER_Halt s).render with
    src := { (RENDER_Halt s).render.src with
      width := width
      height := height
      bpp := bpp
      dblw := dblw
      dblh := dblh
      fps := fps
      ratio :=
        if ops.gt ratio (ops.ofNat 1) = true then
          ops.div (ops.add (ops.mul (ops.ofNat height) ratio) ops.lit0025) (ops.ofNat height)
        else ratio } } }

/-- The `bool` items of a save-state record, in the order they are stored. -/
def boolFields {F : Type} : List (Field F) → List Bool
  | [] => []
  | Field.bool v :: fields => v :: boolFields fields
  | _ :: fields => boolFields fields

/-- The state right after the first `RENDER_Init`: `updating` has been set and
the pipeline is not active yet. -/
def initState : State ℚ :=
  { zeroState with render := { zeroState.render with updating := true } }

/-- A save-state record of version 5 with the source format and palette of
`idleState` and the write offset 0. -/
def zeroOffsetRecord : List (Field ℚ) :=
  [Field.srcBytes idleState.render.src, Field.pal idleState.render.pal, Field.bool false,
    Field.bool true, Field.bitu 0, Field.bitu 0, Field.bit32u 0]

/-- The state `idleState` in a frame whose output buffer has been acquired: the
write pointer is 1280 bytes into the backend buffer at 4096. -/
def drawingState : State ℚ :=
  { idleState with render := { idleState.render with
    updating := true
    scale := { idleState.render.scale with outWrite := 5376, outPitch := 1280 } } }

/-- A save-state record of version 5 with the source format and palette of
`idleState` and the write offset 1280. -/
def offsetRecord : List (Field ℚ) :=
  [Field.srcBytes idleState.render.src, Field.pal idleState.render.pal, Field.bool false,
    Field.bool true, Field.bitu 0, Field.bitu 0, Field.bit32u 1280]

/-- The number of rounds of the loop `for (Bits x=render.src.start;x>0;)`: the
`Bitu` value `start` converted to the signed type `Bits` of the same width,
when that is positive. -/
def startCount (cfg : Config) (start : Nat) : Nat :=
  if start % 2 ^ cfg.bituBits < 2 ^ (cfg.bituBits - 1) then start % 2 ^ cfg.bituBits else 0

/-- The loop of `RENDER_StartLineHandler` with `x` rounds left at word `i`:
whether `src[0] != cache[0]` holds in one of them. `src` gives the words of the
line, `memory` the `Bitu` word stored at an address, `cache` is
`render.scale.cacheRead`. -/
def RENDER_StartLineHandler_differs (cfg : Config) (src memory : Nat → Nat) (cache : Nat) :
    Nat → Nat → Bool
  | 0, _ => false
  | x + 1, i =>
    if src i ≠ memory (cache + i * cfg.sizeofBitu) then true
    else RENDER_StartLineHandler_differs cfg src memory cache x (i + 1)

/-- The four statements that end `RENDER_StartLineHandler` for a line that
equals its cached copy: the cache cursor, the changed-line run and the two line
counters advance. -/
def RENDER_StartLineHandler_advance {F : Type} (cfg : Config) (s : State F) : State F :=
  let s := { s with render := { s.render with scale := { s.render.scale with
    cacheRead := s.render.scale.cacheRead + s.render.scale.cachePitch } } }
  let s := { s with
    Scaler_ChangedLines :=
      Function.update s.Scaler_ChangedLines 0
        ((s.Scaler_ChangedLines 0 + s.Scaler_Aspect s.render.scale.inLine)
          % 2 ^ cfg.changedBits) }
  let s := { s with render := { s.render with scale := { s.render.scale with
    inLine := (s.render.scale.inLine + 1) % 2 ^ cfg.bituBits } } }
  { s with render := { s.render with scale := { s.render.scale with
    outLine := (s.render.scale.outLine + 1) % 2 ^ cfg.bituBits } } }

/-- The function `RENDER_StartLineHandler`. The argument `line` is `none` for
the null pointer and otherwise gives the `Bitu` words of the line. The result
is the next state and, when the function ends in the call `RENDER_DrawLine( s )`,
the handler of the scaler library that is called. -/
def RENDER_StartLineHandler {F : Type} (cfg : Config) (env : Env F) (memory : Nat → Nat)
    (line : Option (Nat → Nat)) (s : State F) : State F × Option LineHandler :=
  let differs :=
    match line with
    | some src =>
      RENDER_StartLineHandler_differs cfg src memory s.render.scale.cacheRead
        (startCount cfg s.render.src.start) 0
    | none => false
  if differs then
    let r := call_GFX_StartUpdate env s
    if !r.1 then
      ({ r.2 with RENDER_DrawLine := LineHandler.RENDER_EmptyLineHandler }, none)
    else
      let s := r.2
      let s := { s with render := { s.render with scale := { s.render.scale with
        outWrite := s.render.scale.outWrite +
          mulBitu cfg s.render.scale.outPitch (s.Scaler_ChangedLines 0) } } }
      let s := { s with RENDER_DrawLine := s.render.scale.lineHandler }
      (s, some s.RENDER_DrawLine)
  else (RENDER_StartLineHandler_advance cfg s, none)

/-- The call `RENDER_DrawLine( line )` the video source makes for one line.
`RENDER_EmptyLineHandler` and `RENDER_StartLineHandler` are run; any other
handler (a function of the scaler library, or one of the two handlers of the
file that write the cache) is not run here and is returned as the handler
that is called. -/
def call_RENDER_DrawLine {F : Type} (cfg : Config) (env : Env F) (memory : Nat → Nat)
    (line : Option (Nat → Nat)) (s : State F) : State F × Option LineHandler :=
  match s.RENDER_DrawLine with
  | LineHandler.RENDER_EmptyLineHandler => (s, none)
  | LineHandler.RENDER_StartLineHandler => RENDER_StartLineHandler cfg env memory line s
  | h => (s, some h)

/-- The calls `RENDER_DrawLine( line )` for the lines of `lines`, in order: the
final state and the handlers `call_RENDER_DrawLine` returned. -/
def drawLines {F : Type} (cfg : Config) (env : Env F) (memory : Nat → Nat) :
    List (Option (Nat → Nat)) → State F → State F × List LineHandler
  | [], s => (s, [])
  | line :: lines, s =>
    let r := call_RENDER_DrawLine cfg env memory line s
    let rest := drawLines cfg env memory lines r.1
    (rest.1, r.2.toList ++ rest.2)

/-- A call of an entry point of the file that neither runs `RENDER_Reset` nor
restores a saved state: the calls the video source makes during frames, a
halt, the stop and redraw callbacks of the backend, and saving the state. -/
inductive FrameOp
  | startUpdate
  | endUpdate (abort : Bool)
  | drawLine (line : Option (Nat → Nat))
  | setPal (entry red green blue : Bit8u)
  | halt
  | callBackStop
  | callBackRedraw
  | save (version uninit : Nat)

/-- Runs the calls of `fs` in order; the list holds what each
`RENDER_StartUpdate` among them returned. -/
def runOps {F : Type} (cfg : Config) (ops : DoubleOps F) (env : Env F) (memory : Nat → Nat) :
    List FrameOp → State F → List Bool × State F
  | [], s => ([], s)
  | FrameOp.startUpdate :: fs, s =>
    let r := RENDER_StartUpdate cfg env s
    let rest := runOps cfg ops env memory fs r.2
    (r.1 :: rest.1, rest.2)
  | FrameOp.endUpdate abort :: fs, s =>
    runOps cfg ops env memory fs (RENDER_EndUpdate cfg env abort s)
  | FrameOp.drawLine line :: fs, s =>
    runOps cfg ops env memory fs (call_RENDER_DrawLine cfg env memory line s).1
  | FrameOp.setPal e r g b :: fs, s => runOps cfg ops env memory fs (RENDER_SetPal e r g b s)
  | FrameOp.halt :: fs, s => runOps cfg ops env memory fs (RENDER_Halt s)
  | FrameOp.callBackStop :: fs, s =>
    match RENDER_CallBack cfg ops env GFX_CallBackFunctions_t.GFX_CallBackStop s with
    | Except.ok t => runOps cfg ops env memory fs t
    | Except.error _ => ([], s)
  | FrameOp.callBackRedraw :: fs, s =>
    match RENDER_CallBack cfg ops env GFX_CallBackFunctions_t.GFX_CallBackRedraw s with
    | Except.ok t => runOps cfg ops env memory fs t
    | Except.error _ => ([], s)
  | FrameOp.save version uninit :: fs, s =>
    runOps cfg ops env memory fs (DBPSerialize_Render_save cfg env version uninit s).2

/-- Whether the line `line` equals its cached copy at `cache`: every word the
loop of `RENDER_StartLineHandler` compares is equal. -/
def lineCached (cfg : Config) (memory : Nat → Nat) (start cache : Nat)
    (line : Nat → Nat) : Prop :=
  ∀ i, i < startCount cfg start → line i = memory (cache + i * cfg.sizeofBitu)

/-- One frame of the video source: `RENDER_StartUpdate`, followed by
`RENDER_EndUpdate(abort)` when it returned true. -/
def frameAttempt {F : Type} (cfg : Config) (env : Env F) (abort : Bool) (s : State F) :
    Bool × State F :=
  let r := RENDER_StartUpdate cfg env s
  if r.1 then (true, RENDER_EndUpdate cfg env abort r.2) else r

/-- The frames `frameAttempt` for the values of `abort` in `aborts`, in order:
what each `RENDER_StartUpdate` returned, and the final state. -/
def frameAttempts {F : Type} (cfg : Config) (env : Env F) :
    List Bool → State F → List Bool × State F
  | [], s => ([], s)
  | abort :: aborts, s =>
    let r := frameAttempt cfg env abort s
    let rest := frameAttempts cfg env aborts r.2
    (r.1 :: rest.1, rest.2)

/-- The number of `GFX_StartUpdate` calls in a call record. -/
def startUpdateCalls {F : Type} : List (Call F) → Nat
  | [] => 0
  | Call.GFX_StartUpdate _ _ :: calls => startUpdateCalls calls + 1
  | _ :: calls => startUpdateCalls calls

/-- The number of `GFX_EndUpdate` calls in a call record. -/
def endUpdateCalls {F : Type} : List (Call F) → Nat
  | [] => 0
  | Call.GFX_EndUpdate _ :: calls => endUpdateCalls calls + 1
  | _ :: calls => endUpdateCalls calls

/-- The sum of the repeat counts `Scaler_Aspect[render.scale.inLine]` that `n`
unchanged lines add to the changed-line run when the counter `inLine` starts
at `a`. -/
def runCounts (cfg : Config) (aspect : Nat → Nat) (a n : Nat) : Nat :=
  ((List.range n).map (fun i => aspect ((a + i) % 2 ^ cfg.bituBits))).sum

/-- The state `idleState` with two of three frames skipped. -/
def skipState : State ℚ :=
  { idleState with render := { idleState.render with
    frameskip := { count := 0, max := 2 } } }

/-- The state `idleState` of a build with the dirty-line cache, for the source
format 320x200 of depth 8 on a 64-bit machine: 40 words and 320 bytes per
cached line, and every line repeated twice. -/
def cacheIdleState : State ℚ :=
  { idleState with
    Scaler_Aspect := fun _ => 2
    render := { idleState.render with
      src := { idleState.render.src with start := 40 }
      scale := { idleState.render.scale with cachePitch := 320 } } }

/-- The state `cacheIdleState` in a frame that `RENDER_StartUpdate` has begun
with the cache entry handler: no buffer is acquired yet. -/
def cacheEntryState : State ℚ :=
  { cacheIdleState with
    RENDER_DrawLine := LineHandler.RENDER_StartLineHandler
    render := { cacheIdleState.render with
      updating := true
      scale := { cacheIdleState.render.scale with cacheRead := scalerSourceCache } } }

/-- The state `cacheIdleState` with the repeat count 255 for every line. -/
def tallState : State ℚ :=
  { cacheIdleState with Scaler_Aspect := fun _ => 255 }

/-- The source format `v` without the member `start`, which `RENDER_Reset`
computes from the other members. -/
def Src.format {F : Type} (v : Src F) : Src F := { v with start := 0 }

/-- The state `t` differs from the state `s` at most in `render.pal` and in
calls recorded after those of `s`, none of them `GFX_StartUpdate` or
`GFX_EndUpdate`. -/
def onlyPalette {F : Type} (s t : State F) : Prop :=
  ∃ pal cs, t = { s with render := { s.render with pal := pal }, calls := s.calls ++ cs } ∧
    startUpdateCalls cs = 0 ∧ endUpdateCalls cs = 0

/-- A backend like `sampleEnv` that has no paletted mode: `GFX_GetBestMode`
returns 0 for flags that contain `GFX_CAN_8` and the flags themselves
otherwise. -/
def pickyEnv : Env ℚ :=
  { sampleEnv with GFX_GetBestMode := fun flags => if hasFlag flags 0x0001 then 0 else flags }

/-- The state `hqState` with the source format 320x200, which is within the
limit of the complex scalers. -/
def hqSmallState : State ℚ :=
  { hqState with render := { hqState.render with
    src := { hqState.render.src with height := 200 } } }

/-- The state `idleState` after `RENDER_Halt`. -/
def haltedState : State ℚ := RENDER_Halt idleState

/-! ## Frame update state machine: properties -/

section FrameUpdate

variable {F : Type}

theorem RENDER_StartUpdate_of_updating (cfg : Config) (env : Env F) (s : State F)
    (h : s.render.updating = true) : RENDER_StartUpdate cfg env s = (false, s) := by
  simp [RENDER_StartUpdate, h]

theorem RENDER_StartUpdate_of_inactive (cfg : Config) (env : Env F) (s : State F)
    (h : s.render.active = false) : RENDER_StartUpdate cfg env s = (false, s) := by
  simp [RENDER_StartUpdate, h]

theorem set_fullFrame_updating (cfg : Config) (v : Bool) (s : State F) :
    (set_fullFrame cfg v s).render.updating = s.render.updating := by
  unfold set_fullFrame; split <;> rfl

theorem RENDER_StartUpdate_bind_true_updating (cfg : Config) (env : Env F) (s : State F)
    (h : (RENDER_StartUpdate_bind cfg env s).1 = true) :
    (RENDER_StartUpdate_bind cfg env s).2.render.updating = true := by
  unfold RENDER_StartUpdate_bind at h ⊢
  simp only [RENDER_StartUpdate_open] at h ⊢
  split_ifs at h ⊢ <;> simp_all

theorem RENDER_StartUpdate_true_updating (cfg : Config) (env : Env F) (s : State F)
    (h : (RENDER_StartUpdate cfg env s).1 = true) :
    (RENDER_StartUpdate cfg env s).2.render.updating = true := by
  unfold RENDER_StartUpdate at h ⊢
  split_ifs at h ⊢
  exact RENDER_StartUpdate_bind_true_updating cfg env _ h

theorem backendCalls_append (xs ys : List (Call F)) :
    backendCalls (xs ++ ys) = backendCalls xs ++ backendCalls ys := by
  simp [backendCalls]

theorem backendCalls_EndUpdate (a : ChangedLinesArg) :
    backendCalls [(Call.GFX_EndUpdate a : Call F)] = [Call.GFX_EndUpdate a] := rfl

theorem RENDER_EndUpdate_capture_backendCalls (cfg : Config) (env : Env F) (s : State F) :
    backendCalls (RENDER_EndUpdate_capture cfg env s).calls = backendCalls s.calls := by
  unfold RENDER_EndUpdate_capture
  split
  · simp [backendCalls_append, backendCalls, Call.isBackend]
  · rfl

theorem RENDER_EndUpdate_capture_render (cfg : Config) (env : Env F) (s : State F) :
    (RENDER_EndUpdate_capture cfg env s).render = s.render := by
  unfold RENDER_EndUpdate_capture
  split <;> rfl

theorem RENDER_EndUpdate_capture_DrawLine (cfg : Config) (env : Env F) (s : State F) :
    (RENDER_EndUpdate_capture cfg env s).RENDER_DrawLine = s.RENDER_DrawLine := by
  unfold RENDER_EndUpdate_capture
  split <;> rfl

theorem RENDER_SetPal_active (e r g b : Bit8u) (s : State F) :
    (RENDER_SetPal e r g b s).render.active = s.render.active := by
  unfold RENDER_SetPal
  simp only
  split_ifs <;> rfl

theorem RENDER_EndUpdate_active (cfg : Config) (env : Env F) (abort : Bool) (s : State F) :
    (RENDER_EndUpdate cfg env abort s).render.active = s.render.active := by
  unfold RENDER_EndUpdate
  simp only [call_GFX_EndUpdate]
  split_ifs <;> simp [RENDER_EndUpdate_capture_render]

theorem RENDER_Halt_active (s : State F) : (RENDER_Halt s).render.active = false := rfl

/-- C1: when `RENDER_StartUpdate` returns true, the `RENDER_StartUpdate` that
follows it immediately returns false (whatever the backend would answer), and
leaves the state as it is. -/
theorem C1_second_StartUpdate_fails (cfg : Config) (env env2 : Env F) (s : State F)
    (h : (RENDER_StartUpdate cfg env s).1 = true) :
    RENDER_StartUpdate cfg env2 (RENDER_StartUpdate cfg env s).2
      = (false, (RENDER_StartUpdate cfg env s).2) :=
  RENDER_StartUpdate_of_updating cfg env2 _ (RENDER_StartUpdate_true_updating cfg env s h)

/-- C2: `RENDER_StartUpdate` returns false when a transaction is open, when the
pipeline is inactive, or when the frame-skip counter is below its maximum; in
the first two cases the whole state, with the record of backend calls, is
unchanged; in the third case (no transaction open, pipeline active) the state
changes only in the counter, which grows by one. -/
theorem C2_StartUpdate_rejects (cfg : Config) (env : Env F) (s : State F) :
    ((s.render.updating = true ∨ s.render.active = false ∨
        s.render.frameskip.count < s.render.frameskip.max) →
      (RENDER_StartUpdate cfg env s).1 = false) ∧
    ((s.render.updating = true ∨ s.render.active = false) →
      (RENDER_StartUpdate cfg env s).2 = s) ∧
    (s.render.updating = false → s.render.active = true →
      s.render.frameskip.count < s.render.frameskip.max →
      (RENDER_StartUpdate cfg env s).2 =
        { s with render := { s.render with frameskip := { s.render.frameskip with
          count := s.render.frameskip.count + 1 } } }) := by
  refine ⟨?_, ?_, ?_⟩
  · intro h
    unfold RENDER_StartUpdate
    split_ifs with h1 h2 h3
    · rfl
    · rfl
    · rfl
    · rcases h with h | h | h
      · exact absurd h h1
      · simp [h] at h2
      · exact absurd h h3
  · intro h
    rcases h with h | h
    · rw [RENDER_StartUpdate_of_updating cfg env s h]
    · rw [RENDER_StartUpdate_of_inactive cfg env s h]
  · intro h1 h2 h3
    simp [RENDER_StartUpdate, h1, h2, h3]

/-- C3: a successful `RENDER_StartUpdate` opens a transaction (`updating` is
true); `RENDER_EndUpdate(abort)` on an open transaction makes exactly one
backend call, a `GFX_EndUpdate` whose argument is null if and only if `abort`
is true, when the output write pointer is non-null, and no backend call when
it is null; either way `updating` is false and the draw strategy is
`RENDER_EmptyLineHandler` afterwards. -/
theorem C3_EndUpdate_commits_once (cfg : Config) (env env2 : Env F) (abort : Bool) :
    (∀ s0 : State F, (RENDER_StartUpdate cfg env s0).1 = true →
      (RENDER_StartUpdate cfg env s0).2.render.updating = true) ∧
    (∀ s : State F, s.render.updating = true →
      (s.render.scale.outWrite ≠ 0 →
        ∃ a : ChangedLinesArg, (a = ChangedLinesArg.null ↔ abort = true) ∧
          backendCalls (RENDER_EndUpdate cfg env2 abort s).calls
            = backendCalls s.calls ++ [Call.GFX_EndUpdate a]) ∧
      (s.render.scale.outWrite = 0 →
        backendCalls (RENDER_EndUpdate cfg env2 abort s).calls = backendCalls s.calls) ∧
      (RENDER_EndUpdate cfg env2 abort s).render.updating = false ∧
      (RENDER_EndUpdate cfg env2 abort s).RENDER_DrawLine
        = LineHandler.RENDER_EmptyLineHandler) := by
  refine ⟨fun s0 h => RENDER_StartUpdate_true_updating cfg env s0 h, ?_⟩
  intro s hu
  refine ⟨?_, ?_, ?_, ?_⟩
  · intro hw
    refine ⟨if abort then ChangedLinesArg.null
      else if cfg.C_DBP_ENABLE_SCALERCACHE then ChangedLinesArg.Scaler_ChangedLines
      else ChangedLinesArg.one, ?_, ?_⟩
    · cases abort <;> cases cfg.C_DBP_ENABLE_SCALERCACHE <;> simp
    · unfold RENDER_EndUpdate
      simp only [call_GFX_EndUpdate, hu, RENDER_EndUpdate_capture_render]
      cases abort <;> cases hc : cfg.C_DBP_ENABLE_SCALERCACHE <;>
        simp [hw, backendCalls_append, RENDER_EndUpdate_capture_backendCalls,
          backendCalls_EndUpdate]
  · intro hw
    unfold RENDER_EndUpdate
    simp [hu, hw, RENDER_EndUpdate_capture_render, RENDER_EndUpdate_capture_backendCalls]
  · unfold RENDER_EndUpdate
    simp [hu]
  · unfold RENDER_EndUpdate
    simp only [call_GFX_EndUpdate, hu, Bool.not_true, Bool.false_eq_true, if_false]
    split_ifs <;> exact RENDER_EndUpdate_capture_DrawLine cfg env2 _

end FrameUpdate

/-! ## Palette resolver: properties -/

section Palette

variable {F : Type}

theorem RENDER_SetPal_pal (e r g b : Bit8u) (s : State F) :
    (RENDER_SetPal e r g b s).render.pal =
      { s.render.pal with
        rgb := Function.update s.render.pal.rgb e.val ⟨r, g, b⟩
        first := min s.render.pal.first e.val
        last := max s.render.pal.last e.val } := by
  unfold RENDER_SetPal
  by_cases h1 : s.render.pal.first > e.val <;> by_cases h2 : s.render.pal.last < e.val
  · have e1 : min s.render.pal.first e.val = e.val := Nat.min_eq_right (Nat.le_of_lt h1)
    have e2 : max s.render.pal.last e.val = e.val := Nat.max_eq_right (Nat.le_of_lt h2)
    simp [h1, h2, e1, e2]
  · have e1 : min s.render.pal.first e.val = e.val := Nat.min_eq_right (Nat.le_of_lt h1)
    have e2 : max s.render.pal.last e.val = s.render.pal.last :=
      Nat.max_eq_left (Nat.le_of_not_lt h2)
    simp [h1, h2, e1, e2]
  · have e1 : min s.render.pal.first e.val = s.render.pal.first :=
      Nat.min_eq_left (Nat.le_of_not_lt h1)
    have e2 : max s.render.pal.last e.val = e.val := Nat.max_eq_right (Nat.le_of_lt h2)
    simp [h1, h2, e1, e2]
  · have e1 : min s.render.pal.first e.val = s.render.pal.first :=
      Nat.min_eq_left (Nat.le_of_not_lt h1)
    have e2 : max s.render.pal.last e.val = s.render.pal.last :=
      Nat.max_eq_left (Nat.le_of_not_lt h2)
    simp [h1, h2, e1, e2]

theorem setPalAll_snoc (ws : List PalWrite) (w : PalWrite) (s : State F) :
    setPalAll (ws ++ [w]) s = RENDER_SetPal w.entry w.red w.green w.blue (setPalAll ws s) := by
  simp [setPalAll, List.foldl_append]

theorem lastWrite_snoc (ws : List PalWrite) (w : PalWrite) (i : Nat) :
    lastWrite (ws ++ [w]) i = if w.entry.val = i then some w else lastWrite ws i := by
  simp only [lastWrite, List.reverse_append, List.reverse_cons, List.reverse_nil,
    List.nil_append, List.singleton_append, List.find?_cons]
  by_cases h : w.entry.val = i <;> simp [h]

theorem setPalAll_spec (ws : List PalWrite) (s : State F) :
    (setPalAll ws s).render.pal.first ≤ s.render.pal.first ∧
    s.render.pal.last ≤ (setPalAll ws s).render.pal.last ∧
    (∀ w ∈ ws, (setPalAll ws s).render.pal.first ≤ w.entry.val ∧
      w.entry.val ≤ (setPalAll ws s).render.pal.last) ∧
    ((setPalAll ws s).render.pal.first = s.render.pal.first ∨
      ∃ w ∈ ws, w.entry.val = (setPalAll ws s).render.pal.first) ∧
    ((setPalAll ws s).render.pal.last = s.render.pal.last ∨
      ∃ w ∈ ws, w.entry.val = (setPalAll ws s).render.pal.last) ∧
    (∀ i, (setPalAll ws s).render.pal.rgb i =
      match lastWrite ws i with
      | some w => ⟨w.red, w.green, w.blue⟩
      | none => s.render.pal.rgb i) := by
  induction ws using List.reverseRecOn with
  | nil => simp [setPalAll, lastWrite]
  | append_singleton ws w ih =>
    obtain ⟨h1, h2, h3, h4, h5, h6⟩ := ih
    rw [setPalAll_snoc]
    simp only [RENDER_SetPal_pal]
    refine ⟨?_, ?_, ?_, ?_, ?_, ?_⟩
    · exact le_trans (min_le_left _ _) h1
    · exact le_trans h2 (le_max_left _ _)
    · intro v hv
      rcases List.mem_append.1 hv with hv | hv
      · exact ⟨le_trans (min_le_left _ _) (h3 v hv).1, le_trans (h3 v hv).2 (le_max_left _ _)⟩
      · rw [List.mem_singleton] at hv
        subst hv
        exact ⟨min_le_right _ _, le_max_right _ _⟩
    · rcases min_choice (setPalAll ws s).render.pal.first w.entry.val with hm | hm
      · rw [hm]
        rcases h4 with h4 | ⟨v, hv, hve⟩
        · exact Or.inl h4
        · exact Or.inr ⟨v, List.mem_append_left _ hv, hve⟩
      · rw [hm]
        exact Or.inr ⟨w, by simp, rfl⟩
    · rcases max_choice (setPalAll ws s).render.pal.last w.entry.val with hm | hm
      · rw [hm]
        rcases h5 with h5 | ⟨v, hv, hve⟩
        · exact Or.inl h5
        · exact Or.inr ⟨v, List.mem_append_left _ hv, hve⟩
      · rw [hm]
        exact Or.inr ⟨w, by simp, rfl⟩
    · intro i
      rw [lastWrite_snoc]
      by_cases h : w.entry.val = i
      · subst h
        simp
      · simp only [h, if_false]
        rw [Function.update_noteq (Ne.symm h)]
        exact h6 i

/-- C6: starting from the empty dirty range (`first = 256`, `last = 0`), after
the `RENDER_SetPal` calls of any list `ws` the range covers every entry
written, and when `ws` is not empty `first` and `last` are themselves entries
written (so they are the least and the greatest); every palette entry holds
the colour of the most recent call that wrote it, or its old colour when no
call wrote it; and one `RENDER_SetPal` from any state never shrinks the
range. -/
theorem C6_SetPal_widens (ws : List PalWrite) (s : State F)
    (hfirst : s.render.pal.first = 256) (hlast : s.render.pal.last = 0) :
    (∀ w ∈ ws, (setPalAll ws s).render.pal.first ≤ w.entry.val ∧
      w.entry.val ≤ (setPalAll ws s).render.pal.last) ∧
    (ws ≠ [] →
      (∃ w ∈ ws, w.entry.val = (setPalAll ws s).render.pal.first) ∧
      (∃ w ∈ ws, w.entry.val = (setPalAll ws s).render.pal.last)) ∧
    (ws = [] → (setPalAll ws s).render.pal.first = 256 ∧ (setPalAll ws s).render.pal.last = 0) ∧
    (∀ i, (setPalAll ws s).render.pal.rgb i =
      match lastWrite ws i with
      | some w => ⟨w.red, w.green, w.blue⟩
      | none => s.render.pal.rgb i) ∧
    (∀ (t : State F) (e r g b : Bit8u),
      (RENDER_SetPal e r g b t).render.pal.first ≤ t.render.pal.first ∧
      t.render.pal.last ≤ (RENDER_SetPal e r g b t).render.pal.last) := by
  obtain ⟨_, _, h3, h4, h5, h6⟩ := setPalAll_spec ws s
  refine ⟨h3, ?_, ?_, h6, ?_⟩
  · intro hne
    obtain ⟨v, hv⟩ := List.exists_mem_of_ne_nil ws hne
    have hv3 := h3 v hv
    have hvlt : v.entry.val < 256 := v.entry.isLt
    refine ⟨?_, ?_⟩
    · rcases h4 with h4 | h4
      · rw [h4, hfirst] at hv3
        omega
      · exact h4
    · rcases h5 with h5 | h5
      · rw [h5, hlast] at hv3
        exact ⟨v, hv, by rw [h5, hlast]; omega⟩
      · exact h5
  · intro hnil
    subst hnil
    exact ⟨hfirst, hlast⟩
  · intro t e r g b
    simp only [RENDER_SetPal_pal]
    exact ⟨min_le_left _ _, le_max_left _ _⟩

theorem Check_Palette_clean_pal (s : State F) :
    (Check_Palette_clean s).render.pal =
      { s.render.pal with
        changed := false
        modified := if s.render.pal.changed then fun _ => 0 else s.render.pal.modified } := by
  unfold Check_Palette_clean
  cases h : s.render.pal.changed <;> simp [h]
  rw [← h]

theorem Check_Palette_clean_calls (s : State F) :
    (Check_Palette_clean s).calls = s.calls := by
  unfold Check_Palette_clean
  split <;> rfl

theorem Check_Palette_clean_outMode (s : State F) :
    (Check_Palette_clean s).render.scale.outMode = s.render.scale.outMode := by
  unfold Check_Palette_clean
  split <;> rfl

theorem Check_Palette_clean_of_unchanged (s : State F) (h : s.render.pal.changed = false) :
    Check_Palette_clean s = s := by
  simp [Check_Palette_clean, h]

theorem Check_Palette_range (env : Env F) (s : State F) :
    (Check_Palette env s).render.pal.first > (Check_Palette env s).render.pal.last ∧
    (s.render.pal.first ≤ s.render.pal.last →
      (Check_Palette env s).render.pal.first = 256 ∧
      (Check_Palette env s).render.pal.last = 0) := by
  have hf : (Check_Palette_clean s).render.pal.first = s.render.pal.first := by
    rw [Check_Palette_clean_pal]
  have hl : (Check_Palette_clean s).render.pal.last = s.render.pal.last := by
    rw [Check_Palette_clean_pal]
  unfold Check_Palette
  simp only [hf, hl]
  split_ifs with h
  · rw [hf, hl]
    exact ⟨h, fun h2 => absurd h2 (Nat.not_le_of_gt h)⟩
  · exact ⟨(by show (0 : Nat) < 256; decide), fun _ => ⟨rfl, rfl⟩⟩

/-- C7: after `Check_Palette` the dirty range is empty (`first > last`), from
every state and for every output mode; when the range was not empty before,
it is the sentinel `first = 256`, `last = 0`. -/
theorem C7_Check_Palette_empties_range (env : Env F) (s : State F) :
    (Check_Palette env s).render.pal.first > (Check_Palette env s).render.pal.last ∧
    (s.render.pal.first ≤ s.render.pal.last →
      (Check_Palette env s).render.pal.first = 256 ∧
      (Check_Palette env s).render.pal.last = 0) :=
  Check_Palette_range env s

theorem Check_Palette_of_empty (env : Env F) (s : State F)
    (h : s.render.pal.first > s.render.pal.last) :
    Check_Palette env s = Check_Palette_clean s := by
  have hf : (Check_Palette_clean s).render.pal.first = s.render.pal.first := by
    rw [Check_Palette_clean_pal]
  have hl : (Check_Palette_clean s).render.pal.last = s.render.pal.last := by
    rw [Check_Palette_clean_pal]
  unfold Check_Palette
  simp only [hf, hl, h, if_true]

theorem Check_Palette_clean_eq (s : State F) :
    Check_Palette_clean s =
      { s with render := { s.render with pal := { s.render.pal with
        changed := false
        modified := if s.render.pal.changed then fun _ => 0 else s.render.pal.modified } } } := by
  unfold Check_Palette_clean
  cases h : s.render.pal.changed
  · simp only [Bool.false_eq_true, if_false]
    cases s with
    | mk render d a c i calls =>
      cases render with
      | mk src fs pal scale u ac asp ff =>
        cases pal with
        | mk rgb lut changed modified first last =>
          simp only at h
          subst h
          rfl
  · simp

theorem Check_Palette_switch_mode8_pal (env : Env F) (s : State F)
    (h : s.render.scale.outMode = scalerMode_t.scalerMode8) :
    (Check_Palette_switch env s).render.pal = s.render.pal := by
  unfold Check_Palette_switch
  rw [h]

/-- C8 as amended: a second `Check_Palette` without a `RENDER_SetPal` in
between equals the first one's state with the palette-changed flag cleared and,
when that flag was set, all modified flags cleared; the RGB table, the lookup
table, the dirty range and the record of backend calls are as the first call
left them (no backend call is made). So the second call changes nothing when
the first call left the flag clear, as it always does for 8-bit output, and it
changes the state when the first call left the flag set. -/
theorem C8_second_Check_Palette (env env2 : Env F) (s : State F) :
    Check_Palette env2 (Check_Palette env s) =
      { Check_Palette env s with render := { (Check_Palette env s).render with
        pal := { (Check_Palette env s).render.pal with
          changed := false
          modified :=
            if (Check_Palette env s).render.pal.changed then fun _ => 0
            else (Check_Palette env s).render.pal.modified } } } ∧
    ((Check_Palette env s).render.pal.changed = false →
      Check_Palette env2 (Check_Palette env s) = Check_Palette env s) ∧
    ((Check_Palette env s).render.pal.changed = true →
      Check_Palette env2 (Check_Palette env s) ≠ Check_Palette env s) ∧
    (s.render.scale.outMode = scalerMode_t.scalerMode8 →
      (Check_Palette env s).render.pal.changed = false) := by
  have hempty := (Check_Palette_range env s).1
  have h2 := Check_Palette_of_empty env2 (Check_Palette env s) hempty
  refine ⟨?_, ?_, ?_, ?_⟩
  · rw [h2, Check_Palette_clean_eq]
  · intro hc
    rw [h2, Check_Palette_clean_of_unchanged _ hc]
  · intro hc heq
    have : (Check_Palette env2 (Check_Palette env s)).render.pal.changed = false := by
      rw [h2, Check_Palette_clean_pal]
    rw [heq, hc] at this
    exact Bool.noConfusion this
  · intro hm
    unfold Check_Palette
    simp only
    split_ifs
    · rw [Check_Palette_clean_pal]
    · show (Check_Palette_switch env (Check_Palette_clean s)).render.pal.changed = false
      rw [Check_Palette_switch_mode8_pal env _ (by rw [Check_Palette_clean_outMode]; exact hm),
        Check_Palette_clean_pal]

/-- C8, counterexample: from `dirtyState` (32-bit output, entry 0 dirty with a
stale lookup value) the first `Check_Palette` sets the palette-changed flag and
`modified[0]`, and the second one, with no `RENDER_SetPal` in between, clears
both: it is not a no-op. -/
theorem C8_counterexample :
    (Check_Palette sampleEnv dirtyState).render.pal.changed = true ∧
    (Check_Palette sampleEnv dirtyState).render.pal.modified 0 = 1 ∧
    (Check_Palette sampleEnv (Check_Palette sampleEnv dirtyState)).render.pal.changed = false ∧
    (Check_Palette sampleEnv (Check_Palette sampleEnv dirtyState)).render.pal.modified 0 = 0 ∧
    Check_Palette sampleEnv (Check_Palette sampleEnv dirtyState)
      ≠ Check_Palette sampleEnv dirtyState := by
  have h1 : (Check_Palette sampleEnv dirtyState).render.pal.changed = true := by decide
  have h3 : (Check_Palette sampleEnv (Check_Palette sampleEnv dirtyState)).render.pal.changed
      = false := by decide
  refine ⟨h1, by decide, h3, by decide, ?_⟩
  intro heq
  rw [heq, h1] at h3
  exact Bool.noConfusion h3

theorem Check_Palette_body_pal (env : Env F) (bits i : Nat) (s : State F) :
    (Check_Palette_body env bits i s).render.pal =
      { s.render.pal with
        lut := Function.update s.render.pal.lut i (newPal env bits s i)
        modified :=
          if newPal env bits s i ≠ s.render.pal.lut i then
            Function.update s.render.pal.modified i 1
          else s.render.pal.modified
        changed := s.render.pal.changed || decide (newPal env bits s i ≠ s.render.pal.lut i) } := by
  unfold Check_Palette_body
  by_cases h : newPal env bits s i = s.render.pal.lut i
  · have h' : env.GFX_GetRGB (s.render.pal.rgb i).red (s.render.pal.rgb i).green
        (s.render.pal.rgb i).blue % 2 ^ bits = s.render.pal.lut i := h
    simp only [h', ne_eq, not_true_eq_false, if_false, h, decide_False, Bool.or_false]
    rw [Function.update_eq_self]
  · have h' : ¬ env.GFX_GetRGB (s.render.pal.rgb i).red (s.render.pal.rgb i).green
        (s.render.pal.rgb i).blue % 2 ^ bits = s.render.pal.lut i := h
    simp only [ne_eq, h', not_false_eq_true, if_true, h, decide_True, Bool.or_true]
    rfl

theorem newPal_congr (env : Env F) (bits : Nat) (s t : State F)
    (h : t.render.pal.rgb = s.render.pal.rgb) (j : Nat) :
    newPal env bits t j = newPal env bits s j := by
  unfold newPal
  rw [h]

theorem Check_Palette_loop_spec (env : Env F) (bits : Nat) :
    ∀ (n i0 : Nat) (s : State F),
      (Check_Palette_loop env bits n i0 s).render.pal.rgb = s.render.pal.rgb ∧
      (∀ j, (Check_Palette_loop env bits n i0 s).render.pal.lut j =
        if i0 ≤ j ∧ j < i0 + n then newPal env bits s j else s.render.pal.lut j) ∧
      (∀ j, (Check_Palette_loop env bits n i0 s).render.pal.modified j =
        if (i0 ≤ j ∧ j < i0 + n) ∧ newPal env bits s j ≠ s.render.pal.lut j then 1
        else s.render.pal.modified j) ∧
      ((Check_Palette_loop env bits n i0 s).render.pal.changed = true ↔
        s.render.pal.changed = true ∨
          ∃ j, (i0 ≤ j ∧ j < i0 + n) ∧ newPal env bits s j ≠ s.render.pal.lut j) := by
  intro n
  induction n with
  | zero =>
    intro i0 s
    refine ⟨rfl, ?_, ?_, ?_⟩
    · intro j
      have : ¬ (i0 ≤ j ∧ j < i0 + 0) := by omega
      simp only [this, if_false]
      rfl
    · intro j
      have : ¬ ((i0 ≤ j ∧ j < i0 + 0) ∧ newPal env bits s j ≠ s.render.pal.lut j) := by
        intro h; omega
      simp only [this, if_false]
      rfl
    · constructor
      · intro h; exact Or.inl h
      · rintro (h | ⟨j, hj, _⟩)
        · exact h
        · omega
  | succ n ih =>
    intro i0 s
    obtain ⟨hrgb, hlut, hmod, hch⟩ := ih (i0 + 1) (Check_Palette_body env bits i0 s)
    have hb := Check_Palette_body_pal env bits i0 s
    have hrgb1 : (Check_Palette_body env bits i0 s).render.pal.rgb = s.render.pal.rgb := by
      rw [hb]
    have hnp := newPal_congr env bits s (Check_Palette_body env bits i0 s) hrgb1
    have hlut1 : (Check_Palette_body env bits i0 s).render.pal.lut
        = Function.update s.render.pal.lut i0 (newPal env bits s i0) := by rw [hb]
    have hmod1 : (Check_Palette_body env bits i0 s).render.pal.modified
        = if newPal env bits s i0 ≠ s.render.pal.lut i0 then
            Function.update s.render.pal.modified i0 1
          else s.render.pal.modified := by rw [hb]
    have hch1 : (Check_Palette_body env bits i0 s).render.pal.changed
        = (s.render.pal.changed || decide (newPal env bits s i0 ≠ s.render.pal.lut i0)) := by
      rw [hb]
    show (Check_Palette_loop env bits n (i0 + 1) (Check_Palette_body env bits i0 s)).render.pal.rgb
        = s.render.pal.rgb ∧ _
    refine ⟨hrgb.trans hrgb1, ?_, ?_, ?_⟩
    · intro j
      show (Check_Palette_loop env bits n (i0 + 1) (Check_Palette_body env bits i0 s)).render.pal.lut j
        = _
      rw [hlut j, hnp j, hlut1]
      by_cases hj : j = i0
      · subst hj
        have h1 : ¬ (j + 1 ≤ j ∧ j < j + 1 + n) := by omega
        have h2 : j ≤ j ∧ j < j + (n + 1) := by omega
        simp only [h1, h2, if_false, if_true, Function.update_same, and_self]
      · rw [Function.update_noteq hj]
        by_cases hr : i0 + 1 ≤ j ∧ j < i0 + 1 + n
        · have h2 : i0 ≤ j ∧ j < i0 + (n + 1) := by omega
          simp only [hr, h2, if_true, and_self]
        · have h2 : ¬ (i0 ≤ j ∧ j < i0 + (n + 1)) := by omega
          simp only [hr, h2, if_false]
    · intro j
      show (Check_Palette_loop env bits n (i0 + 1)
        (Check_Palette_body env bits i0 s)).render.pal.modified j = _
      rw [hmod j, hnp j, hlut1, hmod1]
      by_cases hj : j = i0
      · subst hj
        have h1 : ¬ (j + 1 ≤ j ∧ j < j + 1 + n) := by omega
        have h2 : j ≤ j ∧ j < j + (n + 1) := by omega
        by_cases hd : newPal env bits s j = s.render.pal.lut j
        · simp [h1, hd]
        · simp [h1, h2, hd]
      · rw [Function.update_noteq hj]
        have hm : (if newPal env bits s i0 ≠ s.render.pal.lut i0 then
            Function.update s.render.pal.modified i0 1
          else s.render.pal.modified) j = s.render.pal.modified j := by
          split_ifs
          · exact Function.update_noteq hj _ _
          · rfl
        rw [hm]
        by_cases hr : i0 + 1 ≤ j ∧ j < i0 + 1 + n
        · have h2 : i0 ≤ j ∧ j < i0 + (n + 1) := by omega
          simp only [hr, h2, true_and]
        · have h2 : ¬ (i0 ≤ j ∧ j < i0 + (n + 1)) := by omega
          simp only [hr, h2, false_and, if_false]
    · show (Check_Palette_loop env bits n (i0 + 1)
        (Check_Palette_body env bits i0 s)).render.pal.changed = true ↔ _
      rw [hch, hch1]
      constructor
      · rintro (h | ⟨j, hj, hne⟩)
        · rcases Bool.or_eq_true_iff.1 h with h | h
          · exact Or.inl h
          · exact Or.inr ⟨i0, by omega, of_decide_eq_true h⟩
        · rw [hnp j, hlut1] at hne
          have hji : j ≠ i0 := by omega
          rw [Function.update_noteq hji] at hne
          exact Or.inr ⟨j, by omega, hne⟩
      · rintro (h | ⟨j, hj, hne⟩)
        · exact Or.inl (by simp [h])
        · by_cases hji : j = i0
          · subst hji
            exact Or.inl (by simp [hne])
          · refine Or.inr ⟨j, by omega, ?_⟩
            rw [hnp j, hlut1, Function.update_noteq hji]
            exact hne

theorem Check_Palette_switch_rgb (env : Env F) (s : State F)
    (h : s.render.scale.outMode ≠ scalerMode_t.scalerMode8) :
    Check_Palette_switch env s =
      Check_Palette_loop env (lutBits s.render.scale.outMode)
        (s.render.pal.last + 1 - s.render.pal.first) s.render.pal.first s := by
  unfold Check_Palette_switch
  cases hm : s.render.scale.outMode
  · exact absurd hm h
  · rfl
  · rfl
  · rfl

theorem Check_Palette_of_nonempty (env : Env F) (s : State F)
    (h : s.render.pal.first ≤ s.render.pal.last) :
    (Check_Palette env s).render.pal =
      { (Check_Palette_switch env (Check_Palette_clean s)).render.pal with
        first := 256, last := 0 } := by
  have hf : (Check_Palette_clean s).render.pal.first = s.render.pal.first := by
    rw [Check_Palette_clean_pal]
  have hl : (Check_Palette_clean s).render.pal.last = s.render.pal.last := by
    rw [Check_Palette_clean_pal]
  unfold Check_Palette
  simp only [hf, hl, gt_iff_lt, Nat.not_lt.2 h, if_false]

theorem Check_Palette_converts_spec (env : Env F) (s : State F)
    (hmode : s.render.scale.outMode ≠ scalerMode_t.scalerMode8)
    (hrange : s.render.pal.first ≤ s.render.pal.last) :
    (∀ i, s.render.pal.first ≤ i ∧ i ≤ s.render.pal.last →
      (Check_Palette env s).render.pal.lut i =
        env.GFX_GetRGB (s.render.pal.rgb i).red (s.render.pal.rgb i).green
          (s.render.pal.rgb i).blue % 2 ^ lutBits s.render.scale.outMode) ∧
    (∀ i, s.render.pal.first ≤ i ∧ i ≤ s.render.pal.last →
      s.render.scale.outMode = scalerMode_t.scalerMode32 →
      env.GFX_GetRGB (s.render.pal.rgb i).red (s.render.pal.rgb i).green
          (s.render.pal.rgb i).blue < 2 ^ 32 →
      (Check_Palette env s).render.pal.lut i =
        env.GFX_GetRGB (s.render.pal.rgb i).red (s.render.pal.rgb i).green
          (s.render.pal.rgb i).blue) ∧
    (∀ i, ¬ (s.render.pal.first ≤ i ∧ i ≤ s.render.pal.last) →
      (Check_Palette env s).render.pal.lut i = s.render.pal.lut i) ∧
    (∀ i, (Check_Palette env s).render.pal.modified i =
      if (s.render.pal.first ≤ i ∧ i ≤ s.render.pal.last) ∧
          newPal env (lutBits s.render.scale.outMode) s i ≠ s.render.pal.lut i then 1
      else if s.render.pal.changed then 0 else s.render.pal.modified i) ∧
    ((Check_Palette env s).render.pal.changed = true ↔
      ∃ i, (s.render.pal.first ≤ i ∧ i ≤ s.render.pal.last) ∧
        newPal env (lutBits s.render.scale.outMode) s i ≠ s.render.pal.lut i) := by
  have hpal := Check_Palette_of_nonempty env s hrange
  have hcm : (Check_Palette_clean s).render.scale.outMode = s.render.scale.outMode :=
    Check_Palette_clean_outMode s
  have hsw := Check_Palette_switch_rgb env (Check_Palette_clean s) (by rw [hcm]; exact hmode)
  have hcp := Check_Palette_clean_pal s
  have hf : (Check_Palette_clean s).render.pal.first = s.render.pal.first := by rw [hcp]
  have hl : (Check_Palette_clean s).render.pal.last = s.render.pal.last := by rw [hcp]
  have hlut0 : (Check_Palette_clean s).render.pal.lut = s.render.pal.lut := by rw [hcp]
  have hrgb0 : (Check_Palette_clean s).render.pal.rgb = s.render.pal.rgb := by rw [hcp]
  have hch0 : (Check_Palette_clean s).render.pal.changed = false := by rw [hcp]
  have hmod0 : ∀ j, (Check_Palette_clean s).render.pal.modified j =
      if s.render.pal.changed then 0 else s.render.pal.modified j := by
    intro j
    rw [hcp]
    cases s.render.pal.changed <;> simp
  rw [hcm, hf, hl] at hsw
  obtain ⟨_, hlut, hmod, hch⟩ := Check_Palette_loop_spec env (lutBits s.render.scale.outMode)
    (s.render.pal.last + 1 - s.render.pal.first) s.render.pal.first (Check_Palette_clean s)
  rw [← hsw] at hlut hmod hch
  have hnp := newPal_congr env (lutBits s.render.scale.outMode) s (Check_Palette_clean s) hrgb0
  have hrng : ∀ i, (s.render.pal.first ≤ i ∧
      i < s.render.pal.first + (s.render.pal.last + 1 - s.render.pal.first)) ↔
      (s.render.pal.first ≤ i ∧ i ≤ s.render.pal.last) := by
    intro i; omega
  have hlut' : ∀ i, (Check_Palette env s).render.pal.lut i =
      if s.render.pal.first ≤ i ∧ i ≤ s.render.pal.last then
        newPal env (lutBits s.render.scale.outMode) s i
      else s.render.pal.lut i := by
    intro i
    rw [hpal]
    show (Check_Palette_switch env (Check_Palette_clean s)).render.pal.lut i = _
    rw [hlut i, hnp i, hlut0]
    simp only [hrng i]
  refine ⟨?_, ?_, ?_, ?_, ?_⟩
  · intro i hi
    rw [hlut' i, if_pos hi]
    rfl
  · intro i hi hm hlt
    rw [hlut' i, if_pos hi]
    unfold newPal
    rw [hm]
    exact Nat.mod_eq_of_lt hlt
  · intro i hi
    rw [hlut' i, if_neg hi]
  · intro i
    rw [hpal]
    show (Check_Palette_switch env (Check_Palette_clean s)).render.pal.modified i = _
    rw [hmod i, hnp i, hlut0, hmod0 i]
    simp only [hrng i]
  · rw [hpal]
    show (Check_Palette_switch env (Check_Palette_clean s)).render.pal.changed = true ↔ _
    rw [hch, hch0]
    constructor
    · rintro (h | ⟨j, hj, hne⟩)
      · exact Bool.noConfusion h
      · rw [hnp j, hlut0] at hne
        exact ⟨j, (hrng j).1 hj, hne⟩
    · rintro ⟨j, hj, hne⟩
      refine Or.inr ⟨j, (hrng j).2 hj, ?_⟩
      rw [hnp j, hlut0]
      exact hne

theorem Check_Palette_consistent (env : Env F) (s : State F)
    (hinv : s.render.pal.changed = false → ∀ j, s.render.pal.modified j = 0) :
    (Check_Palette env s).render.pal.changed = false →
      ∀ j, (Check_Palette env s).render.pal.modified j = 0 := by
  have hclean : ∀ j, (Check_Palette_clean s).render.pal.modified j = 0 := by
    intro j
    rw [Check_Palette_clean_pal]
    cases hc : s.render.pal.changed
    · simp only [Bool.false_eq_true, if_false]
      exact hinv hc j
    · simp
  by_cases hrange : s.render.pal.first ≤ s.render.pal.last
  · by_cases hmode : s.render.scale.outMode = scalerMode_t.scalerMode8
    · intro _ j
      rw [Check_Palette_of_nonempty env s hrange]
      show (Check_Palette_switch env (Check_Palette_clean s)).render.pal.modified j = 0
      rw [Check_Palette_switch_mode8_pal env _ (by rw [Check_Palette_clean_outMode]; exact hmode)]
      exact hclean j
    · obtain ⟨_, _, _, hmod, hch⟩ := Check_Palette_converts_spec env s hmode hrange
      intro hc j
      rw [hmod j]
      split_ifs with hj hc2
      · have : (Check_Palette env s).render.pal.changed = true := hch.2 ⟨j, hj⟩
        rw [hc] at this
        exact Bool.noConfusion this
      · rfl
      · exact hinv (by simpa using hc2) j
  · intro _ j
    rw [Check_Palette_of_empty env s (Nat.lt_of_not_le hrange)]
    exact hclean j

theorem RENDER_SetPal_consistent (e r g b : Bit8u) (s : State F)
    (hinv : s.render.pal.changed = false → ∀ j, s.render.pal.modified j = 0) :
    (RENDER_SetPal e r g b s).render.pal.changed = false →
      ∀ j, (RENDER_SetPal e r g b s).render.pal.modified j = 0 := by
  rw [RENDER_SetPal_pal]
  exact hinv

theorem RENDER_Reset_finish_consistent (cfg : Config) (s : State F) :
    (RENDER_Reset_finish cfg s).render.pal.changed = false ∧
      ∀ j, (RENDER_Reset_finish cfg s).render.pal.modified j = 0 := by
  unfold RENDER_Reset_finish
  cases cfg.C_DBP_ENABLE_SCALERCACHE <;> exact ⟨rfl, fun _ => rfl⟩

end Palette

/-! ## Aspect table builder: properties -/

section Aspect

variable {F : Type}

theorem MakeAspectTable_zero_spec :
    ∀ (n i : Nat) (tbl : Nat → Nat) (j : Nat),
      MakeAspectTable_zero n i tbl j = if i ≤ j ∧ j < i + n then 0 else tbl j := by
  intro n
  induction n with
  | zero =>
    intro i tbl j
    have : ¬ (i ≤ j ∧ j < i + 0) := by omega
    simp only [this, if_false]
    rfl
  | succ n ih =>
    intro i tbl j
    show MakeAspectTable_zero n (i + 1) (Function.update tbl i 0) j = _
    rw [ih]
    by_cases hj : j = i
    · subst hj
      have h1 : ¬ (j + 1 ≤ j ∧ j < j + 1 + n) := by omega
      have h2 : j ≤ j ∧ j < j + (n + 1) := by omega
      simp only [h1, h2, if_false, if_true, Function.update_same, and_self]
    · rw [Function.update_noteq hj]
      by_cases hr : i + 1 ≤ j ∧ j < i + 1 + n
      · have h2 : i ≤ j ∧ j < i + (n + 1) := by omega
        simp only [hr, h2, if_true, and_self]
      · have h2 : ¬ (i ≤ j ∧ j < i + (n + 1)) := by omega
        simp only [hr, h2, if_false]

theorem MakeAspectTable_counts_length (cfg : Config) (ops : DoubleOps F) (scaley : F)
    (miny : Nat) : ∀ (n : Nat) (lines : F),
      (MakeAspectTable_counts cfg ops scaley miny n lines).length = n := by
  intro n
  induction n with
  | zero => intro lines; rfl
  | succ n ih =>
    intro lines
    unfold MakeAspectTable_counts
    simp only
    split_ifs <;> simp [ih]

/-- The value `templines` of a round that starts with the accumulator `lines`
(0 when the round takes the `else` branch). -/
theorem MakeAspectTable_counts_succ (cfg : Config) (ops : DoubleOps F) (scaley : F)
    (miny n i : Nat) (a : AspectAcc F) :
    ∃ t : Nat,
      MakeAspectTable_counts cfg ops scaley miny (n + 1) a.lines =
        t :: MakeAspectTable_counts cfg ops scaley miny n
          (MakeAspectTable_body cfg ops scaley miny i a).lines ∧
      (MakeAspectTable_body cfg ops scaley miny i a).Scaler_Aspect =
        Function.update a.Scaler_Aspect i (t % 2 ^ cfg.aspectBits) ∧
      (MakeAspectTable_body cfg ops scaley miny i a).linesadded % 2 ^ cfg.bituBits =
        (a.linesadded + t) % 2 ^ cfg.bituBits ∧
      (a.linesadded < 2 ^ cfg.bituBits →
        (MakeAspectTable_body cfg ops scaley miny i a).linesadded < 2 ^ cfg.bituBits) := by
  have hpos : 0 < 2 ^ cfg.bituBits := Nat.pow_pos (by decide)
  by_cases hge : ops.ge (ops.add a.lines scaley) (ops.ofNat miny) = true
  · refine ⟨ops.toBitu cfg.bituBits (ops.add a.lines scaley) % 2 ^ cfg.bituBits, ?_, ?_, ?_, ?_⟩
    · simp [MakeAspectTable_counts, MakeAspectTable_body, hge]
    · simp [MakeAspectTable_body, hge]
    · simp [MakeAspectTable_body, hge]
    · intro _
      simp only [MakeAspectTable_body, hge, if_true]
      exact Nat.mod_lt _ hpos
  · refine ⟨0, ?_, ?_, ?_, ?_⟩
    · simp [MakeAspectTable_counts, MakeAspectTable_body, hge]
    · simp [MakeAspectTable_body, hge]
    · simp [MakeAspectTable_body, hge]
    · intro h
      simp only [MakeAspectTable_body, hge]
      exact h

theorem MakeAspectTable_loop_lt (cfg : Config) (ops : DoubleOps F) (scaley : F)
    (miny : Nat) : ∀ (n i : Nat) (a : AspectAcc F), a.linesadded < 2 ^ cfg.bituBits →
      (MakeAspectTable_loop cfg ops scaley miny n i a).linesadded < 2 ^ cfg.bituBits := by
  intro n
  induction n with
  | zero => intro i a h; exact h
  | succ n ih =>
    intro i a h
    obtain ⟨t, _, _, _, h4⟩ := MakeAspectTable_counts_succ cfg ops scaley miny n i a
    exact ih (i + 1) _ (h4 h)

theorem MakeAspectTable_loop_spec (cfg : Config) (ops : DoubleOps F) (scaley : F)
    (miny : Nat) : ∀ (n i : Nat) (a : AspectAcc F),
      (MakeAspectTable_loop cfg ops scaley miny n i a).linesadded % 2 ^ cfg.bituBits =
        (a.linesadded + (MakeAspectTable_counts cfg ops scaley miny n a.lines).sum)
          % 2 ^ cfg.bituBits ∧
      (∀ j, (MakeAspectTable_loop cfg ops scaley miny n i a).Scaler_Aspect j =
        if i ≤ j ∧ j < i + n then
          (MakeAspectTable_counts cfg ops scaley miny n a.lines).getD (j - i) 0
            % 2 ^ cfg.aspectBits
        else a.Scaler_Aspect j) := by
  intro n
  induction n with
  | zero =>
    intro i a
    refine ⟨by simp [MakeAspectTable_loop, MakeAspectTable_counts], ?_⟩
    intro j
    have : ¬ (i ≤ j ∧ j < i + 0) := by omega
    simp only [this, if_false]
    rfl
  | succ n ih =>
    intro i a
    obtain ⟨t, hc, hsa, hla, _⟩ := MakeAspectTable_counts_succ cfg ops scaley miny n i a
    obtain ⟨h1, h3⟩ := ih (i + 1) (MakeAspectTable_body cfg ops scaley miny i a)
    have hstep : MakeAspectTable_loop cfg ops scaley miny (n + 1) i a =
        MakeAspectTable_loop cfg ops scaley miny n (i + 1)
          (MakeAspectTable_body cfg ops scaley miny i a) := rfl
    rw [hstep, hc]
    refine ⟨?_, ?_⟩
    · rw [h1, List.sum_cons, Nat.add_mod, hla, ← Nat.add_mod, Nat.add_assoc]
    · intro j
      rw [h3 j, hsa]
      by_cases hj : j = i
      · subst hj
        have c1 : ¬ (j + 1 ≤ j ∧ j < j + 1 + n) := by omega
        have c2 : j ≤ j ∧ j < j + (n + 1) := by omega
        simp only [c1, c2, if_false, if_true, Function.update_same, and_self, Nat.sub_self,
          List.getD_cons_zero]
      · rw [Function.update_noteq hj]
        by_cases hr : i + 1 ≤ j ∧ j < i + 1 + n
        · have c2 : i ≤ j ∧ j < i + (n + 1) := by omega
          have c3 : j - i = (j - (i + 1)) + 1 := by omega
          simp only [hr, c2, if_true, and_self]
          rw [c3, List.getD_cons_succ]
        · have c2 : ¬ (i ≤ j ∧ j < i + (n + 1)) := by omega
          simp only [hr, c2, if_false]

theorem tableSum_add (tbl : Nat → Nat) (a b : Nat) :
    tableSum tbl (a + b) = tableSum tbl a + ((List.range b).map (fun k => tbl (a + k))).sum := by
  simp [tableSum, List.range_add, List.map_append, List.sum_append, List.map_map,
    Function.comp_def]

theorem tableSum_zero (tbl : Nat → Nat) (n : Nat) (h : ∀ i, i < n → tbl i = 0) :
    tableSum tbl n = 0 := by
  unfold tableSum
  apply List.sum_eq_zero
  intro x hx
  obtain ⟨i, hi, rfl⟩ := List.mem_map.1 hx
  exact h i (List.mem_range.1 hi)

theorem sum_getD_range (cs : List Nat) :
    ((List.range cs.length).map (fun k => cs.getD k 0)).sum = cs.sum := by
  induction cs with
  | nil => rfl
  | cons c cs ih =>
    rw [List.length_cons, List.range_succ_eq_map, List.map_cons, List.map_map, List.sum_cons,
      List.sum_cons, List.getD_cons_zero]
    congr 1

theorem MakeAspectTable_table (cfg : Config) (ops : DoubleOps F) (skip height : Nat)
    (scaley : F) (miny : Nat) (tbl : Nat → Nat) (j : Nat) :
    (MakeAspectTable cfg ops skip height scaley miny tbl).2 j =
      if skip ≤ j ∧ j < skip + ((height + skip) % 2 ^ cfg.bituBits - skip) then
        (MakeAspectTable_counts cfg ops scaley miny
          ((height + skip) % 2 ^ cfg.bituBits - skip) (ops.ofNat 0)).getD (j - skip) 0
          % 2 ^ cfg.aspectBits
      else if j < skip then 0 else tbl j := by
  unfold MakeAspectTable
  simp only
  rw [(MakeAspectTable_loop_spec cfg ops scaley miny _ skip _).2 j]
  simp only [MakeAspectTable_zero_spec, Nat.zero_le, true_and, Nat.zero_add]

theorem MakeAspectTable_total (cfg : Config) (ops : DoubleOps F) (skip height : Nat)
    (scaley : F) (miny : Nat) (tbl : Nat → Nat) :
    (MakeAspectTable cfg ops skip height scaley miny tbl).1 =
      (MakeAspectTable_counts cfg ops scaley miny
        ((height + skip) % 2 ^ cfg.bituBits - skip) (ops.ofNat 0)).sum % 2 ^ cfg.bituBits := by
  have hpos : 0 < 2 ^ cfg.bituBits := Nat.pow_pos (by decide)
  unfold MakeAspectTable
  simp only
  have h1 := (MakeAspectTable_loop_spec cfg ops scaley miny
    ((height + skip) % 2 ^ cfg.bituBits - skip) skip
    { lines := ops.ofNat 0, linesadded := 0,
      Scaler_Aspect := MakeAspectTable_zero skip 0 tbl }).1
  have h2 := MakeAspectTable_loop_lt cfg ops scaley miny
    ((height + skip) % 2 ^ cfg.bituBits - skip) skip
    { lines := ops.ofNat 0, linesadded := 0,
      Scaler_Aspect := MakeAspectTable_zero skip 0 tbl } hpos
  rw [Nat.mod_eq_of_lt h2, Nat.zero_add] at h1
  exact h1

/-- C10 as amended: every entry of the aspect table below `skip` is 0 after
`MakeAspectTable`; when `skip + height` fits a `Bitu`, the entry of line
`skip + k` is the repeat count of round `k` reduced to the width of a table
entry and the returned value is the sum of the repeat counts reduced to the
width of `Bitu`; so whenever every repeat count fits a table entry and their
sum fits a `Bitu`, the returned value equals the sum of the table entries at
indices `0 .. skip+height-1`. -/
theorem C10_MakeAspectTable_sum (cfg : Config) (ops : DoubleOps F) (skip height : Nat)
    (scaley : F) (miny : Nat) (tbl : Nat → Nat) :
    (∀ i, i < skip → (MakeAspectTable cfg ops skip height scaley miny tbl).2 i = 0) ∧
    (skip + height < 2 ^ cfg.bituBits →
      (∀ k, k < height →
        (MakeAspectTable cfg ops skip height scaley miny tbl).2 (skip + k) =
          (MakeAspectTable_counts cfg ops scaley miny height (ops.ofNat 0)).getD k 0
            % 2 ^ cfg.aspectBits) ∧
      (MakeAspectTable cfg ops skip height scaley miny tbl).1 =
        (MakeAspectTable_counts cfg ops scaley miny height (ops.ofNat 0)).sum
          % 2 ^ cfg.bituBits ∧
      ((∀ c ∈ MakeAspectTable_counts cfg ops scaley miny height (ops.ofNat 0),
          c < 2 ^ cfg.aspectBits) →
        (MakeAspectTable_counts cfg ops scaley miny height (ops.ofNat 0)).sum
          < 2 ^ cfg.bituBits →
        (MakeAspectTable cfg ops skip height scaley miny tbl).1 =
          tableSum (MakeAspectTable cfg ops skip height scaley miny tbl).2 (skip + height))) := by
  refine ⟨?_, ?_⟩
  · intro i hi
    rw [MakeAspectTable_table]
    have : ¬ (skip ≤ i ∧ i < skip + ((height + skip) % 2 ^ cfg.bituBits - skip)) := by omega
    simp only [this, if_false, hi, if_true]
  · intro hfit
    have hn : (height + skip) % 2 ^ cfg.bituBits - skip = height := by
      rw [Nat.mod_eq_of_lt (by omega)]
      omega
    have hentry : ∀ k, k < height →
        (MakeAspectTable cfg ops skip height scaley miny tbl).2 (skip + k) =
          (MakeAspectTable_counts cfg ops scaley miny height (ops.ofNat 0)).getD k 0
            % 2 ^ cfg.aspectBits := by
      intro k hk
      rw [MakeAspectTable_table, hn]
      have : skip ≤ skip + k ∧ skip + k < skip + height := by omega
      simp only [this, and_self, if_true, Nat.add_sub_cancel_left]
    have htotal := MakeAspectTable_total cfg ops skip height scaley miny tbl
    rw [hn] at htotal
    refine ⟨hentry, htotal, ?_⟩
    intro hsmall hsum
    rw [htotal, Nat.mod_eq_of_lt hsum, tableSum_add,
      tableSum_zero _ skip (fun i hi => by
        rw [MakeAspectTable_table]
        have : ¬ (skip ≤ i ∧ i < skip + ((height + skip) % 2 ^ cfg.bituBits - skip)) := by
          omega
        simp only [this, if_false, hi, if_true]),
      Nat.zero_add]
    have hlen := MakeAspectTable_counts_length cfg ops scaley miny height (ops.ofNat 0)
    rw [← sum_getD_range]
    rw [hlen]
    congr 1
    apply List.map_congr_left
    intro k hk
    have hk' : k < height := List.mem_range.1 hk
    rw [hentry k hk']
    by_cases hkl : k < (MakeAspectTable_counts cfg ops scaley miny height (ops.ofNat 0)).length
    · have hmem : (MakeAspectTable_counts cfg ops scaley miny height (ops.ofNat 0)).getD k 0
          ∈ MakeAspectTable_counts cfg ops scaley miny height (ops.ofNat 0) := by
        rw [List.getD_eq_getElem _ _ hkl]
        exact List.getElem_mem _
      exact (Nat.mod_eq_of_lt (hsmall _ hmem)).symm
    · rw [hlen] at hkl
      exact absurd hk' hkl

/-- C10, counterexample: with a 64-bit `Bitu`, exact arithmetic (every value
below is a `double` and every operation on it is exact) and, first, 8-bit
table entries, `MakeAspectTable(0, 1, 256.0, 1)` returns 256 while the one
entry it wrote holds 0; second, with table entries as wide as `Bitu`,
`MakeAspectTable(0, 2, 2^63, 1)` returns 0 while the two entries it wrote sum
to 2^64. -/
theorem C10_counterexample :
    ((MakeAspectTable plainConfig exactOps 0 1 256 1 (fun _ => 0)).1 = 256 ∧
      tableSum (MakeAspectTable plainConfig exactOps 0 1 256 1 (fun _ => 0)).2 (0 + 1) = 0) ∧
    ((MakeAspectTable wideConfig exactOps 0 2 (2 ^ 63) 1 (fun _ => 0)).1 = 0 ∧
      tableSum (MakeAspectTable wideConfig exactOps 0 2 (2 ^ 63) 1 (fun _ => 0)).2 (0 + 2)
        = 2 ^ 64) := by
  decide!

end Aspect

/-! ## Reconfiguration: properties -/

section Reconfiguration

variable {F : Type}

theorem RENDER_Reset_select_updating (cfg : Config) (s : State F) :
    (RENDER_Reset_select cfg s).2.render.updating = s.render.updating := by
  unfold RENDER_Reset_select
  simp only
  split_ifs <;> rfl

theorem RENDER_Reset_bpp_updating (cfg : Config) (gfx_flags : Nat) (s : State F) :
    (RENDER_Reset_bpp cfg gfx_flags s).2.render.updating = s.render.updating := by
  unfold RENDER_Reset_bpp
  simp only
  split_ifs <;> rfl

/-- The value of `render.updating` in the state a pass ends with, when it does
not end in `E_Exit`. -/
theorem RENDER_Reset_pass_updating (cfg : Config) (env : Env F) (b : Blocks) (s : State F) :
    (∀ s', RENDER_Reset_pass cfg env b s = Pass.gotoForcenormal s' →
      s'.render.updating = s.render.updating) ∧
    (∀ b' f x y s', RENDER_Reset_pass cfg env b s = Pass.granted b' f x y s' →
      s'.render.updating = s.render.updating) := by
  unfold RENDER_Reset_pass
  simp only
  refine ⟨?_, ?_⟩
  · intro s' h
    split_ifs at h
    all_goals
      cases h
      first
        | rfl
        | exact RENDER_Reset_bpp_updating cfg _ s
  · intro b' f x y s' h
    split_ifs at h
    all_goals
      cases h
      exact RENDER_Reset_bpp_updating cfg _ s

/-- A pass that starts with the blocks of the label `forcenormal` does not end
in another `goto forcenormal`. -/
theorem RENDER_Reset_pass_forcenormal (cfg : Config) (env : Env F) (s s' : State F) :
    RENDER_Reset_pass cfg env forcenormal s ≠ Pass.gotoForcenormal s' := by
  unfold RENDER_Reset_pass
  simp only [forcenormal, RENDER_Reset_tooLarge]
  intro h
  split_ifs at h
  all_goals simp_all

theorem RENDER_Reset_negotiate_updating (cfg : Config) (env : Env F) (b : Blocks)
    (s : State F) :
    (∀ s', RENDER_Reset_negotiate cfg env b s ≠ Pass.gotoForcenormal s') ∧
    (∀ b' f x y s', RENDER_Reset_negotiate cfg env b s = Pass.granted b' f x y s' →
      s'.render.updating = s.render.updating) := by
  unfold RENDER_Reset_negotiate
  have hp := RENDER_Reset_pass_updating cfg env b s
  cases h : RENDER_Reset_pass cfg env b s with
  | gotoForcenormal s1 =>
    refine ⟨fun s' => RENDER_Reset_pass_forcenormal cfg env s1 s', ?_⟩
    intro b' f x y s' h2
    rw [(RENDER_Reset_pass_updating cfg env forcenormal s1).2 b' f x y s' h2]
    exact hp.1 s1 h
  | E_Exit msg s1 =>
    refine ⟨?_, ?_⟩
    · intro s' h2
      cases h2
    · intro b' f x y s' h2
      cases h2
  | granted b1 f1 x1 y1 s1 =>
    refine ⟨?_, ?_⟩
    · intro s' h2
      cases h2
    · intro b' f x y s' h2
      cases h2
      exact hp.2 b1 f1 x1 y1 s1 h

theorem RENDER_Reset_size_updating (cfg : Config) (ops : DoubleOps F) (env : Env F)
    (b : Blocks) (gfx_flags xscale yscale : Nat) (s : State F) :
    (RENDER_Reset_size cfg ops env b gfx_flags xscale yscale s).2.render.updating
      = s.render.updating := by
  unfold RENDER_Reset_size
  simp only
  split_ifs <;> rfl

theorem RENDER_Reset_handlers_updating (cfg : Config) (lb : LineBlock) (s s' : State F)
    (h : RENDER_Reset_handlers cfg lb s = some s') :
    s'.render.updating = s.render.updating := by
  unfold RENDER_Reset_handlers at h
  simp only at h
  split_ifs at h
  all_goals
    injection h with h
    rw [← h]

theorem RENDER_Reset_finish_updating (cfg : Config) (s : State F) :
    (RENDER_Reset_finish cfg s).render.updating = s.render.updating ∧
    (RENDER_Reset_finish cfg s).render.active = true := by
  unfold RENDER_Reset_finish
  cases cfg.C_DBP_ENABLE_SCALERCACHE <;> exact ⟨rfl, rfl⟩

theorem RENDER_Reset_updating (cfg : Config) (ops : DoubleOps F) (env : Env F)
    (s s' : State F) (h : RENDER_Reset cfg ops env s = Except.ok s') :
    s'.render.updating = s.render.updating ∧ s'.render.active = true := by
  unfold RENDER_Reset RENDER_Reset_run RENDER_Reset_output RENDER_Reset_candidate at h
  simp only at h
  have hsel : (if cfg.C_DBP_ENABLE_SCALERS = true then RENDER_Reset_select cfg s
      else (forcenormal, s)).2.render.updating = s.render.updating := by
    split_ifs
    · exact RENDER_Reset_select_updating cfg s
    · rfl
  have hneg := RENDER_Reset_negotiate_updating cfg env
    (if cfg.C_DBP_ENABLE_SCALERS = true then RENDER_Reset_select cfg s else (forcenormal, s)).1
    (if cfg.C_DBP_ENABLE_SCALERS = true then RENDER_Reset_select cfg s else (forcenormal, s)).2
  cases hn : RENDER_Reset_negotiate cfg env
    (if cfg.C_DBP_ENABLE_SCALERS = true then RENDER_Reset_select cfg s else (forcenormal, s)).1
    (if cfg.C_DBP_ENABLE_SCALERS = true then RENDER_Reset_select cfg s else (forcenormal, s)).2
    with
  | gotoForcenormal s1 => rw [hn] at h; cases h
  | E_Exit msg s1 => rw [hn] at h; cases h
  | granted b1 f1 x1 y1 s1 =>
    rw [hn] at h
    simp only at h
    have h1 : s1.render.updating = s.render.updating :=
      (hneg.2 b1 f1 x1 y1 s1 hn).trans hsel
    have h2 := RENDER_Reset_size_updating cfg ops env b1 f1 x1 y1 s1
    split at h
    · cases h
    · rename_i outMode _
      split at h
      · cases h
      · rename_i s2 hs2
        injection h with h
        have h3 := RENDER_Reset_handlers_updating cfg _ _ s2 hs2
        have h4 := RENDER_Reset_finish_updating cfg s2
        rw [← h]
        exact ⟨h4.1.trans (h3.trans (h2.trans h1)), h4.2⟩

theorem DBPSerialize_Render_read_flags (cfg : Config) (version : Nat) (ls : Src F) (p : Pal)
    (u a : Bool) (tail : List (Field F)) (s : State F) (l : Src F) (off : Nat) (s1 : State F)
    (rest : List (Field F))
    (h : DBPSerialize_Render_read cfg version
      (Field.srcBytes ls :: Field.pal p :: Field.bool u :: Field.bool a :: tail) s
        = some (l, off, s1, rest)) :
    s1.render.updating = u ∧ s1.render.active = a ∧ s1.render.pal = p ∧ l = ls ∧
      s1.render.src = s.render.src := by
  unfold DBPSerialize_Render_read at h
  simp only [readSrc, readPal, readBool, Option.bind_eq_bind, Option.some_bind,
    Option.bind_eq_some, Prod.exists] at h
  obtain ⟨inLine, ar1, _, outLine, ar2, _, h⟩ := h
  split_ifs at h
  all_goals
    simp only [Option.bind_eq_bind, Option.bind_eq_some, Prod.exists, Option.some.injEq,
      Prod.mk.injEq] at h
    casesm* ∃ _, _, _ ∧ _
    subst_vars
    exact ⟨rfl, rfl, rfl, rfl, rfl⟩

theorem DBPSerialize_Render_load_updating [DecidableEq F] (cfg : Config) (ops : DoubleOps F)
    (env : Env F) (version : Nat) (ls : Src F) (p : Pal) (u a : Bool) (tail : List (Field F))
    (s s' : State F) (rest : List (Field F))
    (h : DBPSerialize_Render_load cfg ops env version
      (Field.srcBytes ls :: Field.pal p :: Field.bool u :: Field.bool a :: tail) s
        = Except.ok (s', rest)) :
    s'.render.updating = u := by
  unfold DBPSerialize_Render_load at h
  simp only at h
  split at h
  · cases h
  · rename_i loaded_src render_offset s1 ar hread
    have hu := (DBPSerialize_Render_read_flags cfg version ls p u a tail _ _ _ _ _ hread).1
    split_ifs at h
    · cases hr : RENDER_Reset cfg ops env
        { s1 with render := { s1.render with src := loaded_src } } with
      | error e => rw [hr] at h; cases h
      | ok s2 =>
        rw [hr] at h
        cases h
        rw [(RENDER_Reset_updating cfg ops env _ _ hr).1]
        exact hu
    · cases h
      exact hu
    · cases hr : RENDER_Reset cfg ops env s1 with
      | error e => rw [hr] at h; cases h
      | ok s2 =>
        rw [hr] at h
        cases h
        rw [(RENDER_Reset_updating cfg ops env _ _ hr).1]
        exact hu

/-- C5 as amended: `RENDER_SetSize` runs `RENDER_Halt` before `RENDER_Reset`, so
`updating` is false whenever it completes; `RENDER_Reset` itself leaves
`updating` as it finds it (and the pipeline active); the reset callback of the
backend makes the call `GFX_EndUpdate(0)` and then runs `RENDER_Reset`, without
`RENDER_Halt`, so `updating` keeps the value it had; and after a state restore
`updating` holds the value read from the record, whether or not
`RENDER_Reset` ran. -/
theorem C5_reconfiguration [DecidableEq F] (cfg : Config) (ops : DoubleOps F) (env : Env F)
    (s : State F) :
    (∀ width height bpp fps ratio dblw dblh s',
      RENDER_SetSize cfg ops env width height bpp fps ratio dblw dblh s = Except.ok s' →
      s'.render.updating = false) ∧
    (∀ s', RENDER_Reset cfg ops env s = Except.ok s' →
      s'.render.updating = s.render.updating ∧ s'.render.active = true) ∧
    (RENDER_CallBack cfg ops env GFX_CallBackFunctions_t.GFX_CallBackReset s =
        RENDER_Reset cfg ops env
          { s with calls := s.calls ++ [Call.GFX_EndUpdate ChangedLinesArg.null] } ∧
      ∀ s', RENDER_CallBack cfg ops env GFX_CallBackFunctions_t.GFX_CallBackReset s
          = Except.ok s' →
        s'.render.updating = s.render.updating) ∧
    (∀ version ls p u a tail s' rest,
      DBPSerialize_Render_load cfg ops env version
          (Field.srcBytes ls :: Field.pal p :: Field.bool u :: Field.bool a :: tail) s
        = Except.ok (s', rest) →
      s'.render.updating = u) := by
  refine ⟨?_, ?_, ⟨rfl, ?_⟩, ?_⟩
  · intro width height bpp fps ratio dblw dblh s' h
    unfold RENDER_SetSize at h
    simp only at h
    split_ifs at h
    · cases h
      rfl
    · exact (RENDER_Reset_updating cfg ops env _ _ h).1
    · exact (RENDER_Reset_updating cfg ops env _ _ h).1
  · intro s' h
    exact RENDER_Reset_updating cfg ops env s s' h
  · intro s' h
    exact (RENDER_Reset_updating cfg ops env _ _ h).1
  · intro version ls p u a tail s' rest h
    exact DBPSerialize_Render_load_updating cfg ops env version ls p u a tail s s' rest h

/-- C5, counterexample: with a transaction open (`openState`), the reset
callback of the backend completes `RENDER_Reset` and `updating` is still true;
and a state restore whose record holds another source format and a set
`updating` flag completes `RENDER_Reset` with `updating` true. No
`RENDER_Halt` preceded either run. -/
theorem C5_counterexample :
    (RENDER_CallBack plainConfig exactOps sampleEnv GFX_CallBackFunctions_t.GFX_CallBackReset
      openState).toOption.map (fun s => (s.render.updating, s.render.active))
        = some (true, true) ∧
    (DBPSerialize_Render_load plainConfig exactOps sampleEnv 5 sampleRecord
      idleState).toOption.map (fun r => (r.1.render.updating, r.1.render.src.width))
        = some (true, 640) := by
  decide!

end Reconfiguration

/-! ## Mode negotiator: properties -/

section Negotiator

variable {F : Type}

theorem bestModeCalls_append (xs ys : List (Call F)) :
    bestModeCalls (xs ++ ys) = bestModeCalls xs + bestModeCalls ys := by
  induction xs with
  | nil => simp [bestModeCalls]
  | cons x xs ih =>
    cases x <;> simp [bestModeCalls, ih]
    omega

theorem forcenormal_iff (b : Blocks) :
    (b.complexBlock = none ∧ b.simpleBlock = SimpleBlock.ScaleNormal1x) ↔ b = forcenormal := by
  cases b with
  | mk sb cb =>
    simp only [forcenormal, Blocks.mk.injEq]
    exact And.comm

theorem RENDER_Reset_bpp_calls (cfg : Config) (gfx_flags : Nat) (s : State F) :
    (RENDER_Reset_bpp cfg gfx_flags s).2.calls = s.calls := by
  unfold RENDER_Reset_bpp
  simp only
  split_ifs <;> rfl

/-- The outcome of one pass, case by case. -/
theorem RENDER_Reset_pass_eq (cfg : Config) (env : Env F) (b : Blocks) (s : State F) :
    RENDER_Reset_pass cfg env b s =
      if RENDER_Reset_tooLarge cfg b s = true then Pass.gotoForcenormal s
      else if env.GFX_GetBestMode (RENDER_Reset_asked cfg b s) = 0 then
        if b = forcenormal then
          Pass.E_Exit "Failed to create a rendering output" (RENDER_Reset_asking cfg b s)
        else Pass.gotoForcenormal (RENDER_Reset_asking cfg b s)
      else
        Pass.granted b (env.GFX_GetBestMode (RENDER_Reset_asked cfg b s))
          (RENDER_Reset_info cfg b).xscale (RENDER_Reset_info cfg b).yscale
          (RENDER_Reset_asking cfg b s) := by
  unfold RENDER_Reset_pass
  simp only [RENDER_Reset_asked, RENDER_Reset_asking, forcenormal_iff]

theorem RENDER_Reset_tooLarge_forcenormal (cfg : Config) (s : State F) :
    RENDER_Reset_tooLarge cfg forcenormal s = false := rfl

theorem RENDER_Reset_asking_calls (cfg : Config) (b : Blocks) (s : State F) :
    (RENDER_Reset_asking cfg b s).calls =
      s.calls ++ [Call.GFX_GetBestMode (RENDER_Reset_asked cfg b s)] := by
  simp only [RENDER_Reset_asking, RENDER_Reset_bpp_calls]

theorem RENDER_Reset_asking_bestModeCalls (cfg : Config) (b : Blocks) (s : State F) :
    bestModeCalls (RENDER_Reset_asking cfg b s).calls = bestModeCalls s.calls + 1 := by
  rw [RENDER_Reset_asking_calls, bestModeCalls_append]
  rfl

theorem RENDER_Reset_pass_bestModeCalls (cfg : Config) (env : Env F) (b : Blocks)
    (s : State F) :
    bestModeCalls (RENDER_Reset_pass cfg env b s).state.calls ≤ bestModeCalls s.calls + 1 := by
  rw [RENDER_Reset_pass_eq]
  split_ifs
  · exact Nat.le_succ _
  all_goals
    show bestModeCalls (RENDER_Reset_asking cfg b s).calls ≤ _
    rw [RENDER_Reset_asking_bestModeCalls]

theorem RENDER_Reset_negotiate_bestModeCalls (cfg : Config) (env : Env F) (b : Blocks)
    (s : State F) :
    bestModeCalls (RENDER_Reset_negotiate cfg env b s).state.calls
      ≤ bestModeCalls s.calls + 2 := by
  have h1 := RENDER_Reset_pass_bestModeCalls cfg env b s
  unfold RENDER_Reset_negotiate
  cases h : RENDER_Reset_pass cfg env b s with
  | gotoForcenormal s1 =>
    rw [h] at h1
    have h2 := RENDER_Reset_pass_bestModeCalls cfg env forcenormal s1
    have h1' : bestModeCalls s1.calls ≤ bestModeCalls s.calls + 1 := h1
    show bestModeCalls (RENDER_Reset_pass cfg env forcenormal s1).state.calls ≤ _
    omega
  | E_Exit msg s1 =>
    rw [h] at h1
    exact Nat.le_succ_of_le h1
  | granted b1 f1 x1 y1 s1 =>
    rw [h] at h1
    exact Nat.le_succ_of_le h1

theorem RENDER_Reset_select_calls (cfg : Config) (s : State F) :
    (RENDER_Reset_select cfg s).2.calls = s.calls := by
  unfold RENDER_Reset_select
  simp only
  split_ifs <;> rfl

theorem RENDER_Reset_size_bestModeCalls (cfg : Config) (ops : DoubleOps F) (env : Env F)
    (b : Blocks) (gfx_flags xscale yscale : Nat) (s : State F) :
    bestModeCalls (RENDER_Reset_size cfg ops env b gfx_flags xscale yscale s).2.calls
      = bestModeCalls s.calls := by
  unfold RENDER_Reset_size
  simp only
  split_ifs <;> simp [bestModeCalls_append, bestModeCalls]

theorem RENDER_Reset_handlers_calls (cfg : Config) (lb : LineBlock) (s s' : State F)
    (h : RENDER_Reset_handlers cfg lb s = some s') : s'.calls = s.calls := by
  unfold RENDER_Reset_handlers at h
  simp only at h
  split_ifs at h
  all_goals
    injection h with h
    rw [← h]

theorem RENDER_Reset_finish_calls (cfg : Config) (s : State F) :
    (RENDER_Reset_finish cfg s).calls = s.calls := by
  unfold RENDER_Reset_finish
  cases cfg.C_DBP_ENABLE_SCALERCACHE <;> rfl

/-- A completed `RENDER_Reset` is the end of the function applied to some state,
reached from a granted negotiation. -/
theorem RENDER_Reset_ok (cfg : Config) (ops : DoubleOps F) (env : Env F) (s s' : State F)
    (h : RENDER_Reset cfg ops env s = Except.ok s') :
    ∃ b f x y s1 s2,
      RENDER_Reset_negotiate cfg env
        (if cfg.C_DBP_ENABLE_SCALERS = true then RENDER_Reset_select cfg s
          else (forcenormal, s)).1
        (if cfg.C_DBP_ENABLE_SCALERS = true then RENDER_Reset_select cfg s
          else (forcenormal, s)).2 = Pass.granted b f x y s1 ∧
      s2.calls = (RENDER_Reset_size cfg ops env b f x y s1).2.calls ∧
      s' = RENDER_Reset_finish cfg s2 := by
  unfold RENDER_Reset RENDER_Reset_run RENDER_Reset_output RENDER_Reset_candidate at h
  simp only at h
  cases hn : RENDER_Reset_negotiate cfg env
    (if cfg.C_DBP_ENABLE_SCALERS = true then RENDER_Reset_select cfg s else (forcenormal, s)).1
    (if cfg.C_DBP_ENABLE_SCALERS = true then RENDER_Reset_select cfg s else (forcenormal, s)).2
    with
  | gotoForcenormal s1 => rw [hn] at h; cases h
  | E_Exit msg s1 => rw [hn] at h; cases h
  | granted b1 f1 x1 y1 s1 =>
    rw [hn] at h
    simp only at h
    split at h
    · cases h
    · split at h
      · cases h
      · rename_i s2 hs2
        injection h with h
        have hc := RENDER_Reset_handlers_calls cfg _ _ s2 hs2
        exact ⟨b1, f1, x1, y1, s1, s2, rfl, hc, h.symm⟩

theorem RENDER_Reset_bestModeCalls (cfg : Config) (ops : DoubleOps F) (env : Env F)
    (s s' : State F) (h : RENDER_Reset cfg ops env s = Except.ok s') :
    bestModeCalls s'.calls ≤ bestModeCalls s.calls + 2 := by
  obtain ⟨b, f, x, y, s1, s2, hn, hc, hs'⟩ := RENDER_Reset_ok cfg ops env s s' h
  have h1 := RENDER_Reset_negotiate_bestModeCalls cfg env
    (if cfg.C_DBP_ENABLE_SCALERS = true then RENDER_Reset_select cfg s else (forcenormal, s)).1
    (if cfg.C_DBP_ENABLE_SCALERS = true then RENDER_Reset_select cfg s else (forcenormal, s)).2
  rw [hn] at h1
  have h2 : (if cfg.C_DBP_ENABLE_SCALERS = true then RENDER_Reset_select cfg s
      else (forcenormal, s)).2.calls = s.calls := by
    split_ifs
    · exact RENDER_Reset_select_calls cfg s
    · rfl
  rw [h2] at h1
  rw [hs', RENDER_Reset_finish_calls, hc, RENDER_Reset_size_bestModeCalls]
  exact h1

theorem RENDER_Reset_tooLarge_of_limit (cfg : Config) (b : Blocks) (s : State F)
    (c : ComplexBlock) (hc : b.complexBlock = some c)
    (hlimit : s.render.src.width ≥ cfg.SCALER_COMPLEXWIDTH - 16 ∨
      s.render.src.height ≥ cfg.SCALER_COMPLEXHEIGHT - 16) :
    RENDER_Reset_tooLarge cfg b s = true := by
  unfold RENDER_Reset_tooLarge
  simp only [hc]
  split_ifs
  · rcases hlimit with h | h
    · simp [h]
    · simp [h]
  · rfl

theorem RENDER_Reset_negotiate_of_tooLarge (cfg : Config) (env : Env F) (b : Blocks)
    (s : State F) (h : RENDER_Reset_tooLarge cfg b s = true) :
    RENDER_Reset_negotiate cfg env b s = RENDER_Reset_pass cfg env forcenormal s := by
  unfold RENDER_Reset_negotiate
  rw [RENDER_Reset_pass_eq cfg env b s, if_pos h]

/-- C17: after a `RENDER_Reset` that completes, the dirty range is the whole
palette (`first = 0`, `last = 255`), the palette-changed flag and every
modified flag are clear, `clearCache` is set when the dirty-line cache is
compiled in, the output write pointer is null and the pipeline is active. -/
theorem C17_Reset_final_state (cfg : Config) (ops : DoubleOps F) (env : Env F)
    (s s' : State F) (h : RENDER_Reset cfg ops env s = Except.ok s') :
    s'.render.pal.first = 0 ∧ s'.render.pal.last = 255 ∧
    s'.render.pal.changed = false ∧ (∀ j, s'.render.pal.modified j = 0) ∧
    (cfg.C_DBP_ENABLE_SCALERCACHE = true → s'.render.scale.clearCache = true) ∧
    s'.render.scale.outWrite = 0 ∧ s'.render.active = true := by
  obtain ⟨b, f, x, y, s1, s2, _, _, hs'⟩ := RENDER_Reset_ok cfg ops env s s' h
  rw [hs']
  unfold RENDER_Reset_finish
  cases hc : cfg.C_DBP_ENABLE_SCALERCACHE
  · exact ⟨rfl, rfl, rfl, fun _ => rfl, fun h => Bool.noConfusion h, rfl, rfl⟩
  · exact ⟨rfl, rfl, rfl, fun _ => rfl, fun _ => rfl, rfl, rfl⟩

theorem RENDER_Reset_op_other (cfg : Config) (op : scalerOperation_t) (k : Nat) (b : Blocks)
    (h2 : k ≠ 2) (h3 : k ≠ 3) : RENDER_Reset_op cfg op k b = b := by
  unfold RENDER_Reset_op
  cases op <;> simp [h2, h3]

theorem RENDER_Reset_select_size (cfg : Config) (s : State F) :
    (RENDER_Reset_select cfg s).2.render.scale.size = clampedSize cfg s ∧
    (RENDER_Reset_select cfg s).2.render.src = s.render.src := by
  unfold RENDER_Reset_select clampedSize
  simp only
  split_ifs <;> exact ⟨rfl, rfl⟩

theorem RENDER_Reset_select_blocks (cfg : Config) (s : State F) :
    (RENDER_Reset_select cfg s).1 =
      if ((s.render.src.dblh && s.render.src.dblw) ||
          (s.render.scale.forced && !s.render.src.dblh && !s.render.src.dblw)) = true then
        requestedBlocks cfg s.render.scale.op (clampedSize cfg s)
      else if s.render.src.dblw = true then
        if mulBitu cfg s.render.src.width (cfg.simpleInfo SimpleBlock.ScaleNormalDw).xscale
            > cfg.SCALER_MAXLINE_WIDTH then forcenormal
        else { simpleBlock := SimpleBlock.ScaleNormalDw, complexBlock := none }
      else if s.render.src.dblh = true then
        { simpleBlock := SimpleBlock.ScaleNormalDh, complexBlock := none }
      else forcenormal := by
  unfold RENDER_Reset_select clampedSize requestedBlocks normalBlock
  simp only
  split_ifs <;> rfl

theorem RENDER_Reset_negotiate_forcenormal (cfg : Config) (env : Env F) (s : State F) :
    RENDER_Reset_negotiate cfg env forcenormal s = RENDER_Reset_pass cfg env forcenormal s := by
  unfold RENDER_Reset_negotiate
  cases h : RENDER_Reset_pass cfg env forcenormal s with
  | gotoForcenormal s1 => exact absurd h (RENDER_Reset_pass_forcenormal cfg env s s1)
  | E_Exit msg s1 => rfl
  | granted b1 f1 x1 y1 s1 => rfl

/-- The function `RENDER_Reset` is the run from the statement
`if (complexBlock)` with the candidate blocks. -/
theorem RENDER_Reset_eq_run (cfg : Config) (ops : DoubleOps F) (env : Env F) (s : State F) :
    RENDER_Reset cfg ops env s =
      RENDER_Reset_run cfg ops env (RENDER_Reset_candidate cfg s).1
        (RENDER_Reset_candidate cfg s).2 := rfl

/-- The jumps of a run of `RENDER_Reset` from the statement `if (complexBlock)`:
a complex block that cannot be used and a refusal of `GFX_GetBestMode` for
blocks other than those of the label `forcenormal` both continue as a run with
the blocks of the label; a refusal for the blocks of the label is `E_Exit`. -/
theorem RENDER_Reset_run_eq (cfg : Config) (ops : DoubleOps F) (env : Env F) (b : Blocks)
    (s : State F) :
    RENDER_Reset_run cfg ops env b s =
      if RENDER_Reset_tooLarge cfg b s = true then RENDER_Reset_run cfg ops env forcenormal s
      else if env.GFX_GetBestMode (RENDER_Reset_asked cfg b s) = 0 then
        if b = forcenormal then Except.error "Failed to create a rendering output"
        else RENDER_Reset_run cfg ops env forcenormal (RENDER_Reset_asking cfg b s)
      else
        RENDER_Reset_output cfg ops env b (env.GFX_GetBestMode (RENDER_Reset_asked cfg b s))
          (RENDER_Reset_info cfg b).xscale (RENDER_Reset_info cfg b).yscale
          (RENDER_Reset_asking cfg b s) := by
  have hrun : ∀ t : State F, RENDER_Reset_run cfg ops env forcenormal t =
      match RENDER_Reset_pass cfg env forcenormal t with
      | Pass.gotoForcenormal _ => Except.error "goto forcenormal"
      | Pass.E_Exit msg _ => Except.error msg
      | Pass.granted b gfx_flags xscale yscale s =>
        RENDER_Reset_output cfg ops env b gfx_flags xscale yscale s := by
    intro t
    unfold RENDER_Reset_run
    rw [RENDER_Reset_negotiate_forcenormal]
  by_cases ht : RENDER_Reset_tooLarge cfg b s = true
  · rw [if_pos ht, hrun]
    unfold RENDER_Reset_run
    rw [RENDER_Reset_negotiate_of_tooLarge cfg env b s ht]
  · rw [if_neg ht]
    by_cases hz : env.GFX_GetBestMode (RENDER_Reset_asked cfg b s) = 0
    · rw [if_pos hz]
      by_cases hb : b = forcenormal
      · rw [if_pos hb]
        unfold RENDER_Reset_run RENDER_Reset_negotiate
        rw [RENDER_Reset_pass_eq, if_neg ht, if_pos hz, if_pos hb]
      · rw [if_neg hb, hrun]
        unfold RENDER_Reset_run RENDER_Reset_negotiate
        rw [RENDER_Reset_pass_eq cfg env b s, if_neg ht, if_pos hz, if_neg hb]
    · rw [if_neg hz]
      unfold RENDER_Reset_run RENDER_Reset_negotiate
      rw [RENDER_Reset_pass_eq, if_neg ht, if_neg hz]

theorem RENDER_Reset_candidate_fields (cfg : Config) (s : State F) :
    (RENDER_Reset_candidate cfg s).2.calls = s.calls ∧
    (RENDER_Reset_candidate cfg s).2.render.src = s.render.src := by
  unfold RENDER_Reset_candidate
  split_ifs
  · exact ⟨RENDER_Reset_select_calls cfg s, (RENDER_Reset_select_size cfg s).2⟩
  · exact ⟨rfl, rfl⟩

/-- The state after the selection of `RENDER_Reset_select`: only
`render.scale.size` has changed, to the limited magnification. -/
theorem RENDER_Reset_select_snd (cfg : Config) (s : State F) :
    (RENDER_Reset_select cfg s).2 =
      { s with render := { s.render with scale := { s.render.scale with
        size := clampedSize cfg s } } } := by
  unfold RENDER_Reset_select clampedSize
  simp only
  split_ifs <;> rfl

theorem RENDER_Reset_op_simple (cfg : Config) (op : scalerOperation_t) (k : Nat) (b : Blocks)
    (h : (RENDER_Reset_op cfg op k b).simpleBlock = SimpleBlock.ScaleNormal1x) :
    b.simpleBlock = SimpleBlock.ScaleNormal1x := by
  unfold RENDER_Reset_op at h
  split at h
  · cases op
    all_goals
      simp only at h
      first
        | exact h
        | (split_ifs at h
           all_goals exact h)
  · exact h

/-- The blocks of a scaler at a magnification are those of the label
`forcenormal` exactly when the magnification is neither 2 nor 3. -/
theorem requestedBlocks_eq_forcenormal (cfg : Config) (op : scalerOperation_t) (k : Nat) :
    requestedBlocks cfg op k = forcenormal ↔ k ≠ 2 ∧ k ≠ 3 := by
  constructor
  · intro h
    have hs : (requestedBlocks cfg op k).simpleBlock = SimpleBlock.ScaleNormal1x := by
      rw [h]; rfl
    have hn : normalBlock k = SimpleBlock.ScaleNormal1x :=
      RENDER_Reset_op_simple cfg op k _ hs
    unfold normalBlock at hn
    split_ifs at hn with h2 h3
    exact ⟨h2, h3⟩
  · rintro ⟨h2, h3⟩
    unfold requestedBlocks
    rw [RENDER_Reset_op_other cfg _ _ _ h2 h3]
    simp [normalBlock, h2, h3, forcenormal]

end Negotiator

/-! ## Aspect table builder in exact arithmetic -/

section ExactAspect

theorem exactOps_ofNat_zero : exactOps.ofNat 0 = (0 : ℚ) := by
  simp [exactOps]

/-- One round in exact arithmetic from a remainder `r` with `miny ≤ r + scale`:
the repeat count is the integer part of `r + scale`, the new remainder its
fractional part. -/
theorem exact_round (cfg : Config) (scale r : ℚ) (miny : Nat)
    (hge : (miny : ℚ) ≤ r + scale)
    (hfit : ⌊r + scale⌋ < (2 : ℤ) ^ cfg.bituBits) :
    exactOps.ge (exactOps.add r scale) (exactOps.ofNat miny) = true ∧
    exactOps.toBitu cfg.bituBits (exactOps.add r scale) % 2 ^ cfg.bituBits
      = ⌊r + scale⌋.toNat ∧
    exactOps.sub (exactOps.add r scale) (exactOps.ofNat ⌊r + scale⌋.toNat)
      = Int.fract (r + scale) := by
  have hnn : (0 : ℚ) ≤ r + scale := le_trans (Nat.cast_nonneg miny) hge
  have hfl : 0 ≤ ⌊r + scale⌋ := Int.floor_nonneg.2 hnn
  have hlt : ⌊r + scale⌋.toNat < 2 ^ cfg.bituBits := by
    have : ((⌊r + scale⌋.toNat : ℕ) : ℤ) < ((2 ^ cfg.bituBits : ℕ) : ℤ) := by
      rw [Int.toNat_of_nonneg hfl]
      push_cast
      exact hfit
    exact_mod_cast this
  refine ⟨?_, ?_, ?_⟩
  · simp [exactOps, hge]
  · simp only [exactOps]
    rw [Nat.mod_mod, Nat.mod_eq_of_lt hlt]
  · simp only [exactOps]
    have : ((⌊r + scale⌋.toNat : ℕ) : ℚ) = ((⌊r + scale⌋ : ℤ) : ℚ) := by
      have h := Int.toNat_of_nonneg hfl
      exact_mod_cast congrArg (fun z : ℤ => (z : ℚ)) h
    rw [this]
    rfl

theorem exact_floor_bounds (scale r : ℚ) (h0 : 0 ≤ r) (h1 : r < 1) :
    ⌊scale⌋ ≤ ⌊r + scale⌋ ∧ ⌊r + scale⌋ ≤ ⌊scale⌋ + 1 := by
  refine ⟨Int.floor_mono (by linarith), ?_⟩
  have : ⌊r + scale⌋ ≤ ⌊scale + 1⌋ := Int.floor_mono (by linarith)
  rwa [Int.floor_add_one] at this

theorem exact_counts_step (cfg : Config) (scale r : ℚ) (miny n : Nat)
    (hge : (miny : ℚ) ≤ r + scale)
    (hfit : ⌊r + scale⌋ < (2 : ℤ) ^ cfg.bituBits) :
    MakeAspectTable_counts cfg exactOps scale miny (n + 1) r =
      ⌊r + scale⌋.toNat ::
        MakeAspectTable_counts cfg exactOps scale miny n (Int.fract (r + scale)) := by
  obtain ⟨h1, h2, h3⟩ := exact_round cfg scale r miny hge hfit
  show (if exactOps.ge (exactOps.add r scale) (exactOps.ofNat miny) = true then _ else _) = _
  rw [if_pos h1]
  simp only [h2, h3]

theorem exact_body_lines (cfg : Config) (scale : ℚ) (miny i : Nat) (a : AspectAcc ℚ)
    (hge : (miny : ℚ) ≤ a.lines + scale)
    (hfit : ⌊a.lines + scale⌋ < (2 : ℤ) ^ cfg.bituBits) :
    (MakeAspectTable_body cfg exactOps scale miny i a).lines = Int.fract (a.lines + scale) := by
  obtain ⟨h1, h2, h3⟩ := exact_round cfg scale a.lines miny hge hfit
  unfold MakeAspectTable_body
  simp only [h1, if_true, h2, h3]

/-- The repeat counts of `n` rounds in exact arithmetic from a remainder `r` in
`[0,1)`: each is the integer part of the scale or one more, and they sum to
the integer part of `r + n * scale`. -/
theorem exact_counts_spec (cfg : Config) (scale : ℚ) (miny : Nat)
    (hscale : (miny : ℚ) ≤ scale)
    (hw : ⌊scale⌋ + 1 < (2 : ℤ) ^ cfg.bituBits) :
    ∀ (n : Nat) (r : ℚ), 0 ≤ r → r < 1 →
      (∀ c ∈ MakeAspectTable_counts cfg exactOps scale miny n r,
        (c : ℤ) = ⌊scale⌋ ∨ (c : ℤ) = ⌊scale⌋ + 1) ∧
      (((MakeAspectTable_counts cfg exactOps scale miny n r).sum : ℕ) : ℤ)
        = ⌊r + n * scale⌋ := by
  intro n
  induction n with
  | zero =>
    intro r h0 h1
    refine ⟨by simp [MakeAspectTable_counts], ?_⟩
    simp only [MakeAspectTable_counts, List.sum_nil, Nat.cast_zero, zero_mul, add_zero]
    exact (Int.floor_eq_zero_iff.2 ⟨h0, h1⟩).symm
  | succ n ih =>
    intro r h0 h1
    obtain ⟨hb1, hb2⟩ := exact_floor_bounds scale r h0 h1
    have hge : (miny : ℚ) ≤ r + scale := by linarith
    have hfit : ⌊r + scale⌋ < (2 : ℤ) ^ cfg.bituBits := lt_of_le_of_lt hb2 hw
    have hnn : 0 ≤ ⌊r + scale⌋ :=
      Int.floor_nonneg.2 (le_trans (Nat.cast_nonneg miny) hge)
    rw [exact_counts_step cfg scale r miny n hge hfit]
    obtain ⟨ih1, ih2⟩ := ih (Int.fract (r + scale)) (Int.fract_nonneg _) (Int.fract_lt_one _)
    refine ⟨?_, ?_⟩
    · intro c hc
      rcases List.mem_cons.1 hc with rfl | hc
      · rw [Int.toNat_of_nonneg hnn]
        omega
      · exact ih1 c hc
    · rw [List.sum_cons, Nat.cast_add, ih2, Int.toNat_of_nonneg hnn]
      have : Int.fract (r + scale) + (n : ℚ) * scale
          = (r + ((n + 1 : ℕ) : ℚ) * scale) - ((⌊r + scale⌋ : ℤ) : ℚ) := by
        unfold Int.fract
        push_cast
        ring
      rw [this, Int.floor_sub_int]
      ring

/-- The remainder carried after `n` rounds in exact arithmetic from a remainder
in `[0,1)`. -/
theorem exact_loop_lines (cfg : Config) (scale : ℚ) (miny : Nat)
    (hscale : (miny : ℚ) ≤ scale)
    (hw : ⌊scale⌋ + 1 < (2 : ℤ) ^ cfg.bituBits) :
    ∀ (n i : Nat) (a : AspectAcc ℚ), 0 ≤ a.lines → a.lines < 1 →
      (MakeAspectTable_loop cfg exactOps scale miny n i a).lines
        = Int.fract (a.lines + n * scale) := by
  intro n
  induction n with
  | zero =>
    intro i a h0 h1
    simp only [MakeAspectTable_loop, Nat.cast_zero, zero_mul, add_zero]
    exact (Int.fract_eq_self.2 ⟨h0, h1⟩).symm
  | succ n ih =>
    intro i a h0 h1
    obtain ⟨hb1, hb2⟩ := exact_floor_bounds scale a.lines h0 h1
    have hge : (miny : ℚ) ≤ a.lines + scale := by linarith
    have hfit : ⌊a.lines + scale⌋ < (2 : ℤ) ^ cfg.bituBits := lt_of_le_of_lt hb2 hw
    have hb := exact_body_lines cfg scale miny i a hge hfit
    show (MakeAspectTable_loop cfg exactOps scale miny n (i + 1)
      (MakeAspectTable_body cfg exactOps scale miny i a)).lines = _
    rw [ih (i + 1) _ (by rw [hb]; exact Int.fract_nonneg _) (by rw [hb]; exact Int.fract_lt_one _),
      hb]
    have : Int.fract (a.lines + scale) + (n : ℚ) * scale
        = (a.lines + ((n + 1 : ℕ) : ℚ) * scale) - ((⌊a.lines + scale⌋ : ℤ) : ℚ) := by
      unfold Int.fract
      push_cast
      ring
    rw [this, Int.fract_sub_int]

theorem exact_rounds (cfg : Config) (skip height : Nat)
    (hfit : skip + height < 2 ^ cfg.bituBits) :
    (height + skip) % 2 ^ cfg.bituBits - skip = height := by
  rw [Nat.mod_eq_of_lt (by omega)]
  omega

/-- The value `MakeAspectTable` returns in exact arithmetic. -/
theorem exact_MakeAspectTable_total (cfg : Config) (skip height miny : Nat) (scale : ℚ)
    (tbl : Nat → Nat) (hscale : (miny : ℚ) ≤ scale)
    (hw : ⌊scale⌋ + 1 < (2 : ℤ) ^ cfg.bituBits)
    (htot : ⌊(height : ℚ) * scale⌋ < (2 : ℤ) ^ cfg.bituBits)
    (hfit : skip + height < 2 ^ cfg.bituBits) :
    (((MakeAspectTable cfg exactOps skip height scale miny tbl).1 : ℕ) : ℤ)
      = ⌊(height : ℚ) * scale⌋ := by
  have hsum := (exact_counts_spec cfg scale miny hscale hw height 0 le_rfl zero_lt_one).2
  rw [zero_add] at hsum
  rw [MakeAspectTable_total, exact_rounds cfg skip height hfit, exactOps_ofNat_zero]
  have hlt : (MakeAspectTable_counts cfg exactOps scale miny height 0).sum
      < 2 ^ cfg.bituBits := by
    have : (((MakeAspectTable_counts cfg exactOps scale miny height 0).sum : ℕ) : ℤ)
        < ((2 ^ cfg.bituBits : ℕ) : ℤ) := by
      rw [hsum]
      push_cast
      exact htot
    exact_mod_cast this
  rw [Nat.mod_eq_of_lt hlt]
  exact hsum

/-- The entry `MakeAspectTable` writes for line `skip + k` in exact
arithmetic. -/
theorem exact_MakeAspectTable_entry (cfg : Config) (skip height miny : Nat) (scale : ℚ)
    (tbl : Nat → Nat) (hscale : (miny : ℚ) ≤ scale)
    (hw : ⌊scale⌋ + 1 < (2 : ℤ) ^ cfg.bituBits)
    (ha : ⌊scale⌋ + 1 < (2 : ℤ) ^ cfg.aspectBits)
    (hfit : skip + height < 2 ^ cfg.bituBits) (k : Nat) (hk : k < height) :
    (((MakeAspectTable cfg exactOps skip height scale miny tbl).2 (skip + k) : ℕ) : ℤ)
        = ⌊scale⌋ ∨
    (((MakeAspectTable cfg exactOps skip height scale miny tbl).2 (skip + k) : ℕ) : ℤ)
        = ⌊scale⌋ + 1 := by
  have hcs := (exact_counts_spec cfg scale miny hscale hw height 0 le_rfl zero_lt_one).1
  have hlen := MakeAspectTable_counts_length cfg exactOps scale miny height (0 : ℚ)
  rw [MakeAspectTable_table, exact_rounds cfg skip height hfit, exactOps_ofNat_zero]
  have hin : skip ≤ skip + k ∧ skip + k < skip + height := by omega
  simp only [hin, and_self, if_true, Nat.add_sub_cancel_left]
  have hkl : k < (MakeAspectTable_counts cfg exactOps scale miny height 0).length := by
    rw [hlen]; exact hk
  have hmem : (MakeAspectTable_counts cfg exactOps scale miny height 0).getD k 0
      ∈ MakeAspectTable_counts cfg exactOps scale miny height 0 := by
    rw [List.getD_eq_getElem _ _ hkl]
    exact List.getElem_mem _
  have hc := hcs _ hmem
  have hsmall : (MakeAspectTable_counts cfg exactOps scale miny height 0).getD k 0
      < 2 ^ cfg.aspectBits := by
    have : (((MakeAspectTable_counts cfg exactOps scale miny height 0).getD k 0 : ℕ) : ℤ)
        < ((2 ^ cfg.aspectBits : ℕ) : ℤ) := by
      push_cast
      rcases hc with hc | hc <;> rw [hc] <;> omega
    exact_mod_cast this
  rw [Nat.mod_eq_of_lt hsmall]
  exact hc

/-- C11 as amended: in exact arithmetic, for a scale at least the minimum
threshold, with the integer part of the scale plus one fitting a `Bitu` and a
table entry, and `skip + height` and the integer part of `height * scale`
fitting a `Bitu`: the remainder carried after any number `k` of lines is the
fractional part of `k * scale`, in `[0,1)`; every line from `skip` on receives
the integer part of the scale or one more, which is not zero when the minimum
threshold is at least 1; and `MakeAspectTable` returns the integer part of
`height * scale`. -/
theorem C11_no_drift (cfg : Config) (skip height miny : Nat) (scale : ℚ) (tbl : Nat → Nat)
    (hscale : (miny : ℚ) ≤ scale)
    (hw : ⌊scale⌋ + 1 < (2 : ℤ) ^ cfg.bituBits)
    (ha : ⌊scale⌋ + 1 < (2 : ℤ) ^ cfg.aspectBits)
    (htot : ⌊(height : ℚ) * scale⌋ < (2 : ℤ) ^ cfg.bituBits)
    (hfit : skip + height < 2 ^ cfg.bituBits) :
    (∀ (k i : Nat) (tbl0 : Nat → Nat),
      (MakeAspectTable_loop cfg exactOps scale miny k i
        { lines := exactOps.ofNat 0, linesadded := 0, Scaler_Aspect := tbl0 }).lines
          = Int.fract ((k : ℚ) * scale) ∧
      0 ≤ (MakeAspectTable_loop cfg exactOps scale miny k i
        { lines := exactOps.ofNat 0, linesadded := 0, Scaler_Aspect := tbl0 }).lines ∧
      (MakeAspectTable_loop cfg exactOps scale miny k i
        { lines := exactOps.ofNat 0, linesadded := 0, Scaler_Aspect := tbl0 }).lines < 1) ∧
    (∀ k, k < height →
      (((MakeAspectTable cfg exactOps skip height scale miny tbl).2 (skip + k) : ℕ) : ℤ)
          = ⌊scale⌋ ∨
      (((MakeAspectTable cfg exactOps skip height scale miny tbl).2 (skip + k) : ℕ) : ℤ)
          = ⌊scale⌋ + 1) ∧
    (1 ≤ miny → ∀ k, k < height →
      (MakeAspectTable cfg exactOps skip height scale miny tbl).2 (skip + k) ≠ 0) ∧
    (((MakeAspectTable cfg exactOps skip height scale miny tbl).1 : ℕ) : ℤ)
      = ⌊(height : ℚ) * scale⌋ := by
  refine ⟨?_, ?_, ?_, ?_⟩
  · intro k i tbl0
    have h := exact_loop_lines cfg scale miny hscale hw k i
      { lines := exactOps.ofNat 0, linesadded := 0, Scaler_Aspect := tbl0 }
      (by simp [exactOps]) (by simp [exactOps])
    simp only [exactOps_ofNat_zero, zero_add] at h
    simp only [exactOps_ofNat_zero]
    rw [h]
    exact ⟨rfl, Int.fract_nonneg _, Int.fract_lt_one _⟩
  · intro k hk
    exact exact_MakeAspectTable_entry cfg skip height miny scale tbl hscale hw ha hfit k hk
  · intro hmin k hk he
    have h1 : (1 : ℚ) ≤ scale := le_trans (by exact_mod_cast hmin) hscale
    have hfl : 1 ≤ ⌊scale⌋ := Int.le_floor.2 (by exact_mod_cast h1)
    have h := exact_MakeAspectTable_entry cfg skip height miny scale tbl hscale hw ha hfit k hk
    rw [he] at h
    rcases h with h | h
    · simp only [Nat.cast_zero] at h; omega
    · simp only [Nat.cast_zero] at h; omega
  · exact exact_MakeAspectTable_total cfg skip height miny scale tbl hscale hw htot hfit

/-- C11, counterexample: in exact arithmetic with a 64-bit `Bitu`, first, with
minimum threshold 0 and scale 1/2 (a scale at least the threshold) the first
line receives the repeat count 0; second, with minimum threshold 1 and scale
2^63 two lines return 0 instead of 2^64, the integer part of
`height * scale`. -/
theorem C11_counterexample :
    (((0 : ℕ) : ℚ) ≤ 1 / 2 ∧
      (MakeAspectTable plainConfig exactOps 0 1 (1 / 2) 0 (fun _ => 7)).2 0 = 0) ∧
    (((1 : ℕ) : ℚ) ≤ 2 ^ 63 ∧
      (MakeAspectTable wideConfig exactOps 0 2 (2 ^ 63) 1 (fun _ => 7)).1 = 0 ∧
      ⌊((2 : ℕ) : ℚ) * 2 ^ 63⌋ = 2 ^ 64) := by
  refine ⟨⟨by norm_num, by decide!⟩, by norm_num, by decide!, ?_⟩
  have : ((2 : ℕ) : ℚ) * 2 ^ 63 = ((2 ^ 64 : ℤ) : ℚ) := by norm_num
  rw [this, Int.floor_intCast]

end ExactAspect

/-! ## End-to-end negotiation of a 320x200 source -/

section EndToEnd

theorem RENDER_Reset_bpp_fields {F : Type} (cfg : Config) (gfx_flags : Nat) (s : State F) :
    (RENDER_Reset_bpp cfg gfx_flags s).2.render.src.width = s.render.src.width ∧
    (RENDER_Reset_bpp cfg gfx_flags s).2.render.src.height = s.render.src.height ∧
    (RENDER_Reset_bpp cfg gfx_flags s).2.render.src.bpp = s.render.src.bpp ∧
    (RENDER_Reset_bpp cfg gfx_flags s).2.render.src.ratio = s.render.src.ratio ∧
    (RENDER_Reset_bpp cfg gfx_flags s).2.render.aspect = s.render.aspect := by
  unfold RENDER_Reset_bpp
  simp only
  split_ifs <;> exact ⟨rfl, rfl, rfl, rfl, rfl⟩

theorem RENDER_Reset_size_fields {F : Type} (cfg : Config) (ops : DoubleOps F) (env : Env F)
    (b : Blocks) (gfx_flags xscale yscale : Nat) (s : State F) :
    (RENDER_Reset_size cfg ops env b gfx_flags xscale yscale s).2.render = s.render := by
  unfold RENDER_Reset_size
  simp only
  split_ifs <;> rfl

end EndToEnd

/-! ## Mode negotiator: the whole run -/

section Run

variable {F : Type}

theorem RENDER_Reset_handlers_some (cfg : Config) (lb : LineBlock) (s s' : State F)
    (h : RENDER_Reset_handlers cfg lb s = some s') :
    (∃ row, s'.render.scale.lineHandler = LineHandler.line lb row s.render.scale.outMode) ∧
    s'.render.scale.complexHandler = s.render.scale.complexHandler ∧
    s'.render.scale.outMode = s.render.scale.outMode ∧
    s'.render.scale.size = s.render.scale.size := by
  unfold RENDER_Reset_handlers at h
  simp only at h
  split_ifs at h
  all_goals
    injection h with h
    rw [← h]
    exact ⟨⟨_, rfl⟩, rfl, rfl, rfl⟩

theorem RENDER_Reset_handlers_isSome (cfg : Config) (lb : LineBlock) (s : State F) :
    (∃ s', RENDER_Reset_handlers cfg lb s = some s') ↔
      (s.render.src.bpp = 8 ∨ s.render.src.bpp = 15 ∨ s.render.src.bpp = 16 ∨
        s.render.src.bpp = 32) := by
  unfold RENDER_Reset_handlers
  simp only
  by_cases h1 : s.render.src.bpp = 8
  · rw [if_pos h1]
    exact ⟨fun _ => Or.inl h1, fun _ => ⟨_, rfl⟩⟩
  rw [if_neg h1]
  by_cases h2 : s.render.src.bpp = 15
  · rw [if_pos h2]
    exact ⟨fun _ => Or.inr (Or.inl h2), fun _ => ⟨_, rfl⟩⟩
  rw [if_neg h2]
  by_cases h3 : s.render.src.bpp = 16
  · rw [if_pos h3]
    exact ⟨fun _ => Or.inr (Or.inr (Or.inl h3)), fun _ => ⟨_, rfl⟩⟩
  rw [if_neg h3]
  by_cases h4 : s.render.src.bpp = 32
  · rw [if_pos h4]
    exact ⟨fun _ => Or.inr (Or.inr (Or.inr h4)), fun _ => ⟨_, rfl⟩⟩
  rw [if_neg h4]
  constructor
  · rintro ⟨s', h⟩
    cases h
  · rintro (h | h | h | h)
    · exact absurd h h1
    · exact absurd h h2
    · exact absurd h h3
    · exact absurd h h4

theorem RENDER_Reset_finish_scale (cfg : Config) (s : State F) :
    (RENDER_Reset_finish cfg s).render.scale.lineHandler = s.render.scale.lineHandler ∧
    (RENDER_Reset_finish cfg s).render.scale.complexHandler = s.render.scale.complexHandler ∧
    (RENDER_Reset_finish cfg s).render.scale.outMode = s.render.scale.outMode ∧
    (RENDER_Reset_finish cfg s).render.scale.size = s.render.scale.size := by
  unfold RENDER_Reset_finish
  cases cfg.C_DBP_ENABLE_SCALERCACHE <;> exact ⟨rfl, rfl, rfl, rfl⟩

/-- What a completed end of `RENDER_Reset` has bound: the output mode selected
from the flags `GFX_SetSize` returned, the line handler of the line block
selected for the blocks `b`, and the complex handler selected with it. -/
theorem RENDER_Reset_output_ok (cfg : Config) (ops : DoubleOps F) (env : Env F) (b : Blocks)
    (f x y : Nat) (s s' : State F)
    (h : RENDER_Reset_output cfg ops env b f x y s = Except.ok s') :
    ∃ m row, RENDER_Reset_outMode cfg (RENDER_Reset_size cfg ops env b f x y s).1 = some m ∧
      s'.render.scale.outMode = m ∧
      s'.render.scale.lineHandler = LineHandler.line
        (RENDER_Reset_lineBlock cfg b (RENDER_Reset_size cfg ops env b f x y s).1 m).1 row m ∧
      s'.render.scale.complexHandler =
        (RENDER_Reset_lineBlock cfg b (RENDER_Reset_size cfg ops env b f x y s).1 m).2 ∧
      s'.render.scale.size = s.render.scale.size := by
  unfold RENDER_Reset_output at h
  simp only at h
  cases hm : RENDER_Reset_outMode cfg (RENDER_Reset_size cfg ops env b f x y s).1 with
  | none => rw [hm] at h; cases h
  | some m =>
    rw [hm] at h
    simp only at h
    split at h
    · cases h
    · rename_i s2 hs2
      injection h with h
      obtain ⟨⟨row, h1⟩, h2, h3, h4⟩ := RENDER_Reset_handlers_some cfg _ _ s2 hs2
      obtain ⟨f1, f2, f3, f4⟩ := RENDER_Reset_finish_scale cfg s2
      have hsz : (RENDER_Reset_size cfg ops env b f x y s).2.render.scale.size
          = s.render.scale.size := by
        rw [RENDER_Reset_size_fields]
      refine ⟨m, row, rfl, ?_, ?_, ?_, ?_⟩
      · rw [← h, f3, h3]
      · rw [← h, f1, h1]
      · rw [← h, f2, h2]
      · rw [← h, f4, h4]
        exact hsz

/-- The end of `RENDER_Reset` completes exactly when the flags `GFX_SetSize`
returned name an output mode the build can bind and the source depth is 8,
15, 16 or 32. -/
theorem RENDER_Reset_output_complete (cfg : Config) (ops : DoubleOps F) (env : Env F)
    (b : Blocks) (f x y : Nat) (s : State F) :
    (∃ s', RENDER_Reset_output cfg ops env b f x y s = Except.ok s') ↔
      RENDER_Reset_outMode cfg (RENDER_Reset_size cfg ops env b f x y s).1 ≠ none ∧
      (s.render.src.bpp = 8 ∨ s.render.src.bpp = 15 ∨ s.render.src.bpp = 16 ∨
        s.render.src.bpp = 32) := by
  unfold RENDER_Reset_output
  simp only
  cases hm : RENDER_Reset_outMode cfg (RENDER_Reset_size cfg ops env b f x y s).1 with
  | none =>
    simp only [ne_eq, not_true_eq_false, false_and, iff_false]
    rintro ⟨s', h⟩
    cases h
  | some m =>
    simp only [ne_eq, not_false_eq_true, true_and, reduceCtorEq]
    have hb := RENDER_Reset_handlers_isSome cfg
      (RENDER_Reset_lineBlock cfg b (RENDER_Reset_size cfg ops env b f x y s).1 m).1
      { (RENDER_Reset_size cfg ops env b f x y s).2 with render :=
        { (RENDER_Reset_size cfg ops env b f x y s).2.render with scale :=
          { (RENDER_Reset_size cfg ops env b f x y s).2.render.scale with
            outMode := m
            complexHandler :=
              (RENDER_Reset_lineBlock cfg b (RENDER_Reset_size cfg ops env b f x y s).1 m).2 } } }
    have hbpp : (RENDER_Reset_size cfg ops env b f x y s).2.render.src.bpp = s.render.src.bpp := by
      rw [RENDER_Reset_size_fields]
    simp only [hbpp] at hb
    rw [← hb]
    constructor
    · rintro ⟨s', h⟩
      split at h
      · cases h
      · rename_i s2 hs2
        exact ⟨s2, hs2⟩
    · rintro ⟨s2, hs2⟩
      refine ⟨RENDER_Reset_finish cfg s2, ?_⟩
      have : RENDER_Reset_handlers cfg
          (RENDER_Reset_lineBlock cfg b (RENDER_Reset_size cfg ops env b f x y s).1 m).1
          { (RENDER_Reset_size cfg ops env b f x y s).2 with render :=
            { (RENDER_Reset_size cfg ops env b f x y s).2.render with scale :=
              { (RENDER_Reset_size cfg ops env b f x y s).2.render.scale with
                outMode := m
                complexHandler :=
                  (RENDER_Reset_lineBlock cfg b
                    (RENDER_Reset_size cfg ops env b f x y s).1 m).2 } } } = some s2 := hs2
      simp only [this]

theorem RENDER_Reset_lineBlock_simple (cfg : Config) (b : Blocks) (f : Nat) (m : scalerMode_t)
    (h : b.complexBlock = none) :
    RENDER_Reset_lineBlock cfg b f m = (LineBlock.Linear b.simpleBlock, LineHandler.null) ∨
    RENDER_Reset_lineBlock cfg b f m = (LineBlock.Random b.simpleBlock, LineHandler.null) := by
  unfold RENDER_Reset_lineBlock
  rw [h]
  simp only [ite_self]
  split_ifs
  · exact Or.inl rfl
  · exact Or.inr rfl

theorem RENDER_Reset_bpp_scale (cfg : Config) (gfx_flags : Nat) (s : State F) :
    (RENDER_Reset_bpp cfg gfx_flags s).2.render.scale = s.render.scale := by
  unfold RENDER_Reset_bpp
  simp only
  split_ifs <;> rfl

/-- The member `render.scale` in the state a pass ends with, when it does
not end in `E_Exit`. -/
theorem RENDER_Reset_pass_scale (cfg : Config) (env : Env F) (b : Blocks) (s : State F) :
    (∀ s', RENDER_Reset_pass cfg env b s = Pass.gotoForcenormal s' →
      s'.render.scale = s.render.scale) ∧
    (∀ b' f x y s', RENDER_Reset_pass cfg env b s = Pass.granted b' f x y s' →
      s'.render.scale = s.render.scale) := by
  unfold RENDER_Reset_pass
  simp only
  refine ⟨?_, ?_⟩
  · intro s' h
    split_ifs at h
    all_goals
      cases h
      first
        | rfl
        | exact RENDER_Reset_bpp_scale cfg _ s
  · intro b' f x y s' h
    split_ifs at h
    all_goals
      cases h
      exact RENDER_Reset_bpp_scale cfg _ s

theorem RENDER_Reset_negotiate_scale (cfg : Config) (env : Env F) (b : Blocks)
    (s : State F) :
    (∀ s', RENDER_Reset_negotiate cfg env b s ≠ Pass.gotoForcenormal s') ∧
    (∀ b' f x y s', RENDER_Reset_negotiate cfg env b s = Pass.granted b' f x y s' →
      s'.render.scale = s.render.scale) := by
  unfold RENDER_Reset_negotiate
  have hp := RENDER_Reset_pass_scale cfg env b s
  cases h : RENDER_Reset_pass cfg env b s with
  | gotoForcenormal s1 =>
    refine ⟨fun s' => RENDER_Reset_pass_forcenormal cfg env s1 s', ?_⟩
    intro b' f x y s' h2
    rw [(RENDER_Reset_pass_scale cfg env forcenormal s1).2 b' f x y s' h2]
    exact hp.1 s1 h
  | E_Exit msg s1 =>
    refine ⟨?_, ?_⟩
    · intro s' h2
      cases h2
    · intro b' f x y s' h2
      cases h2
  | granted b1 f1 x1 y1 s1 =>
    refine ⟨?_, ?_⟩
    · intro s' h2
      cases h2
    · intro b' f x y s' h2
      cases h2
      exact hp.2 b1 f1 x1 y1 s1 h

/-- A run with the blocks of the label `forcenormal`: `E_Exit` when
`GFX_GetBestMode` returns 0 for their flags, the end of the function with
those blocks otherwise. No jump occurs. -/
theorem RENDER_Reset_run_forcenormal (cfg : Config) (ops : DoubleOps F) (env : Env F)
    (s : State F) :
    RENDER_Reset_run cfg ops env forcenormal s =
      if env.GFX_GetBestMode (RENDER_Reset_asked cfg forcenormal s) = 0 then
        Except.error "Failed to create a rendering output"
      else
        RENDER_Reset_output cfg ops env forcenormal
          (env.GFX_GetBestMode (RENDER_Reset_asked cfg forcenormal s))
          (RENDER_Reset_info cfg forcenormal).xscale (RENDER_Reset_info cfg forcenormal).yscale
          (RENDER_Reset_asking cfg forcenormal s) := by
  rw [RENDER_Reset_run_eq cfg ops env forcenormal s,
    if_neg (by rw [RENDER_Reset_tooLarge_forcenormal]; exact Bool.false_ne_true)]
  by_cases hz : env.GFX_GetBestMode (RENDER_Reset_asked cfg forcenormal s) = 0
  · rw [if_pos hz, if_pos hz, if_pos rfl]
  · rw [if_neg hz, if_neg hz]

theorem RENDER_Reset_asking_render (cfg : Config) (b : Blocks) (s : State F) :
    (RENDER_Reset_asking cfg b s).render.src.bpp = s.render.src.bpp ∧
    (RENDER_Reset_asking cfg b s).render.scale = s.render.scale := by
  have h1 := (RENDER_Reset_bpp_fields cfg (RENDER_Reset_info cfg b).gfxFlags s).2.2.1
  have h2 := RENDER_Reset_bpp_scale cfg (RENDER_Reset_info cfg b).gfxFlags s
  exact ⟨h1, h2⟩

/-- A completed run from the statement `if (complexBlock)` leaves
`render.scale.size` as it was. -/
theorem RENDER_Reset_run_size (cfg : Config) (ops : DoubleOps F) (env : Env F) (b : Blocks)
    (s s' : State F) (h : RENDER_Reset_run cfg ops env b s = Except.ok s') :
    s'.render.scale.size = s.render.scale.size := by
  unfold RENDER_Reset_run at h
  have hneg := (RENDER_Reset_negotiate_scale cfg env b s).2
  cases hn : RENDER_Reset_negotiate cfg env b s with
  | gotoForcenormal s1 => rw [hn] at h; cases h
  | E_Exit msg s1 => rw [hn] at h; cases h
  | granted b1 f1 x1 y1 s1 =>
    rw [hn] at h
    simp only at h
    obtain ⟨m, row, _, _, _, _, hsz⟩ := RENDER_Reset_output_ok cfg ops env b1 f1 x1 y1 s1 s' h
    rw [hsz, hneg b1 f1 x1 y1 s1 hn]

/-- A completed run with the blocks of the label `forcenormal` has bound the
line handler of `ScaleNormal1x` and no complex handler. -/
theorem RENDER_Reset_run_forcenormal_ok (cfg : Config) (ops : DoubleOps F) (env : Env F)
    (s s' : State F) (h : RENDER_Reset_run cfg ops env forcenormal s = Except.ok s') :
    s'.render.scale.complexHandler = LineHandler.null ∧
    ∃ row,
      s'.render.scale.lineHandler = LineHandler.line
          (LineBlock.Linear SimpleBlock.ScaleNormal1x) row s'.render.scale.outMode ∨
      s'.render.scale.lineHandler = LineHandler.line
          (LineBlock.Random SimpleBlock.ScaleNormal1x) row s'.render.scale.outMode := by
  rw [RENDER_Reset_run_forcenormal] at h
  split_ifs at h
  obtain ⟨m, row, _, h2, h3, h4, _⟩ := RENDER_Reset_output_ok cfg ops env _ _ _ _ _ s' h
  rcases RENDER_Reset_lineBlock_simple cfg forcenormal
    (RENDER_Reset_size cfg ops env forcenormal
      (env.GFX_GetBestMode (RENDER_Reset_asked cfg forcenormal s))
      (RENDER_Reset_info cfg forcenormal).xscale (RENDER_Reset_info cfg forcenormal).yscale
      (RENDER_Reset_asking cfg forcenormal s)).1 m rfl with hl | hl
  · rw [hl] at h3 h4
    exact ⟨h4, row, Or.inl (by rw [h3, h2]; rfl)⟩
  · rw [hl] at h3 h4
    exact ⟨h4, row, Or.inr (by rw [h3, h2]; rfl)⟩

/-- C16: when `GFX_GetBestMode` returns 0 for the candidate blocks of
`RENDER_Reset`, then `RENDER_Reset` ends in `E_Exit` if the candidate is the
identity (simple 1x, no complex block), and otherwise it is the run repeated
with the blocks of the label `forcenormal`, which ends in `E_Exit` when
`GFX_GetBestMode` returns 0 again and goes on to `GFX_SetSize` with the
identity blocks when it does not; a run with the blocks of the label never
jumps, and a candidate with a complex block that cannot be used goes to that
run without a `GFX_GetBestMode` call. So the negotiation of every run, and the call record of every completed
`RENDER_Reset`, holds at most two `GFX_GetBestMode` calls more than before. -/
theorem C16_GetBestMode_failure (cfg : Config) (ops : DoubleOps F) (env : Env F)
    (s : State F) :
    (RENDER_Reset_tooLarge cfg (RENDER_Reset_candidate cfg s).1
        (RENDER_Reset_candidate cfg s).2 = false →
      env.GFX_GetBestMode (RENDER_Reset_asked cfg (RENDER_Reset_candidate cfg s).1
        (RENDER_Reset_candidate cfg s).2) = 0 →
      ((RENDER_Reset_candidate cfg s).1 = forcenormal →
        RENDER_Reset cfg ops env s = Except.error "Failed to create a rendering output") ∧
      ((RENDER_Reset_candidate cfg s).1 ≠ forcenormal →
        RENDER_Reset cfg ops env s =
          RENDER_Reset_run cfg ops env forcenormal
            (RENDER_Reset_asking cfg (RENDER_Reset_candidate cfg s).1
              (RENDER_Reset_candidate cfg s).2))) ∧
    (RENDER_Reset_tooLarge cfg (RENDER_Reset_candidate cfg s).1
        (RENDER_Reset_candidate cfg s).2 = true →
      RENDER_Reset cfg ops env s =
        RENDER_Reset_run cfg ops env forcenormal (RENDER_Reset_candidate cfg s).2) ∧
    (∀ t : State F,
      (env.GFX_GetBestMode (RENDER_Reset_asked cfg forcenormal t) = 0 →
        RENDER_Reset_run cfg ops env forcenormal t
          = Except.error "Failed to create a rendering output") ∧
      (env.GFX_GetBestMode (RENDER_Reset_asked cfg forcenormal t) ≠ 0 →
        RENDER_Reset_run cfg ops env forcenormal t =
          RENDER_Reset_output cfg ops env forcenormal
            (env.GFX_GetBestMode (RENDER_Reset_asked cfg forcenormal t))
            (RENDER_Reset_info cfg forcenormal).xscale
            (RENDER_Reset_info cfg forcenormal).yscale
            (RENDER_Reset_asking cfg forcenormal t))) ∧
    bestModeCalls (RENDER_Reset_negotiate cfg env (RENDER_Reset_candidate cfg s).1
      (RENDER_Reset_candidate cfg s).2).state.calls ≤ bestModeCalls s.calls + 2 ∧
    (∀ s', RENDER_Reset cfg ops env s = Except.ok s' →
      bestModeCalls s'.calls ≤ bestModeCalls s.calls + 2) := by
  refine ⟨?_, ?_, ?_, ?_, fun s' h => RENDER_Reset_bestModeCalls cfg ops env s s' h⟩
  rotate_left
  · intro ht
    rw [RENDER_Reset_eq_run, RENDER_Reset_run_eq, if_pos ht]
  rotate_right
  · intro hl hz
    have hrun := RENDER_Reset_run_eq cfg ops env (RENDER_Reset_candidate cfg s).1
      (RENDER_Reset_candidate cfg s).2
    rw [if_neg (by rw [hl]; exact Bool.false_ne_true), if_pos hz] at hrun
    refine ⟨?_, ?_⟩
    · intro hb
      rw [if_pos hb] at hrun
      rw [RENDER_Reset_eq_run, hrun]
    · intro hb
      rw [if_neg hb] at hrun
      rw [RENDER_Reset_eq_run, hrun]
  · intro t
    have hrun := RENDER_Reset_run_forcenormal cfg ops env t
    refine ⟨?_, ?_⟩
    · intro hz
      rw [hrun, if_pos hz]
    · intro hz
      rw [hrun, if_neg hz]
  · have h := RENDER_Reset_negotiate_bestModeCalls cfg env (RENDER_Reset_candidate cfg s).1
      (RENDER_Reset_candidate cfg s).2
    rw [(RENDER_Reset_candidate_fields cfg s).1] at h
    exact h

/-- C13 as amended: when the candidate of `RENDER_Reset` has a complex block
and the source width is at least `SCALER_COMPLEXWIDTH - 16` or the source
height at least `SCALER_COMPLEXHEIGHT - 16`, `RENDER_Reset` is the run with the
blocks of the label `forcenormal` (simple 1x, no complex block) from the state
after the selection, in which no call has been recorded. It ends in `E_Exit`
when `GFX_GetBestMode` returns 0 for the flags of those blocks; when it
completes, the line handler of `ScaleNormal1x` and no complex handler are
bound; and it completes exactly when `GFX_GetBestMode` accepts those flags,
`GFX_SetSize` returns flags with an output mode the build can bind, and the
source depth is 8, 15, 16 or 32. -/
theorem C13_complex_over_limit (cfg : Config) (ops : DoubleOps F) (env : Env F) (s : State F)
    (c : ComplexBlock) (hc : (RENDER_Reset_candidate cfg s).1.complexBlock = some c)
    (hlimit : s.render.src.width ≥ cfg.SCALER_COMPLEXWIDTH - 16 ∨
      s.render.src.height ≥ cfg.SCALER_COMPLEXHEIGHT - 16) :
    RENDER_Reset cfg ops env s =
      RENDER_Reset_run cfg ops env forcenormal (RENDER_Reset_candidate cfg s).2 ∧
    (RENDER_Reset_candidate cfg s).2.calls = s.calls ∧
    (env.GFX_GetBestMode (RENDER_Reset_asked cfg forcenormal (RENDER_Reset_candidate cfg s).2)
        = 0 →
      RENDER_Reset cfg ops env s = Except.error "Failed to create a rendering output") ∧
    (∀ s', RENDER_Reset cfg ops env s = Except.ok s' →
      s'.render.scale.complexHandler = LineHandler.null ∧
      ∃ row,
        s'.render.scale.lineHandler = LineHandler.line
            (LineBlock.Linear SimpleBlock.ScaleNormal1x) row s'.render.scale.outMode ∨
        s'.render.scale.lineHandler = LineHandler.line
            (LineBlock.Random SimpleBlock.ScaleNormal1x) row s'.render.scale.outMode) ∧
    ((∃ s', RENDER_Reset cfg ops env s = Except.ok s') ↔
      env.GFX_GetBestMode (RENDER_Reset_asked cfg forcenormal (RENDER_Reset_candidate cfg s).2)
        ≠ 0 ∧
      RENDER_Reset_outMode cfg
        (RENDER_Reset_size cfg ops env forcenormal
          (env.GFX_GetBestMode
            (RENDER_Reset_asked cfg forcenormal (RENDER_Reset_candidate cfg s).2))
          (RENDER_Reset_info cfg forcenormal).xscale
          (RENDER_Reset_info cfg forcenormal).yscale
          (RENDER_Reset_asking cfg forcenormal (RENDER_Reset_candidate cfg s).2)).1 ≠ none ∧
      (s.render.src.bpp = 8 ∨ s.render.src.bpp = 15 ∨ s.render.src.bpp = 16 ∨
        s.render.src.bpp = 32)) := by
  obtain ⟨hcalls, hsrc⟩ := RENDER_Reset_candidate_fields cfg s
  have ht : RENDER_Reset_tooLarge cfg (RENDER_Reset_candidate cfg s).1
      (RENDER_Reset_candidate cfg s).2 = true :=
    RENDER_Reset_tooLarge_of_limit cfg _ _ c hc (by rw [hsrc]; exact hlimit)
  have hrun : RENDER_Reset cfg ops env s =
      RENDER_Reset_run cfg ops env forcenormal (RENDER_Reset_candidate cfg s).2 := by
    rw [RENDER_Reset_eq_run, RENDER_Reset_run_eq, if_pos ht]
  have hf := RENDER_Reset_run_forcenormal cfg ops env (RENDER_Reset_candidate cfg s).2
  refine ⟨hrun, hcalls, ?_, ?_, ?_⟩
  · intro hz
    rw [hrun, hf, if_pos hz]
  · intro s' h
    rw [hrun] at h
    exact RENDER_Reset_run_forcenormal_ok cfg ops env _ s' h
  · rw [hrun, hf]
    by_cases hz : env.GFX_GetBestMode
        (RENDER_Reset_asked cfg forcenormal (RENDER_Reset_candidate cfg s).2) = 0
    · rw [if_pos hz]
      constructor
      · rintro ⟨s', h⟩
        cases h
      · rintro ⟨h, _⟩
        exact absurd hz h
    · rw [if_neg hz, RENDER_Reset_output_complete,
        (RENDER_Reset_asking_render cfg forcenormal (RENDER_Reset_candidate cfg s).2).1, hsrc]
      constructor
      · rintro ⟨h1, h2⟩
        exact ⟨hz, h1, h2⟩
      · rintro ⟨_, h1, h2⟩
        exact ⟨h1, h2⟩

/-- C13 as stated fails where the backend accepts the flags of the complex
scaler and not those of the identity: with `hq2x` forced and the backend
`pickyEnv`, `RENDER_Reset` completes for the source 320x200 with the complex
handler of `ScaleHQ2x` bound, and for the source 320x600, whose height is
above `SCALER_COMPLEXHEIGHT - 16`, it ends in `E_Exit`. -/
theorem C13_counterexample :
    (RENDER_Reset_candidate scalersConfig hqState).1.complexBlock
      = some ComplexBlock.ScaleHQ2x ∧
    hqState.render.src.height ≥ scalersConfig.SCALER_COMPLEXHEIGHT - 16 ∧
    (match RENDER_Reset scalersConfig exactOps pickyEnv hqState with
      | Except.error msg => msg
      | Except.ok _ => "") = "Failed to create a rendering output" ∧
    (RENDER_Reset scalersConfig exactOps pickyEnv hqSmallState).toOption.map
      (fun s' => s'.render.scale.complexHandler)
      = some (LineHandler.complexRandom ComplexBlock.ScaleHQ2x scalerMode_t.scalerMode15) := by
  decide!

theorem RENDER_Reset_candidate_scalers (cfg : Config) (s : State F)
    (hs : cfg.C_DBP_ENABLE_SCALERS = true) :
    RENDER_Reset_candidate cfg s =
      ((RENDER_Reset_select cfg s).1,
        { s with render := { s.render with scale := { s.render.scale with
          size := clampedSize cfg s } } }) := by
  unfold RENDER_Reset_candidate
  rw [if_pos hs, ← RENDER_Reset_select_snd]

theorem RENDER_Reset_candidate_plain (cfg : Config) (s : State F)
    (hs : cfg.C_DBP_ENABLE_SCALERS = false) :
    RENDER_Reset_candidate cfg s = (forcenormal, s) := by
  unfold RENDER_Reset_candidate
  rw [hs]
  rfl

/-- The run `RENDER_Reset` makes in a build with `C_DBP_ENABLE_SCALERS`: the
blocks selected, and the state with the magnification limited. -/
theorem RENDER_Reset_scalers (cfg : Config) (ops : DoubleOps F) (env : Env F) (s : State F)
    (hs : cfg.C_DBP_ENABLE_SCALERS = true) :
    RENDER_Reset cfg ops env s =
      RENDER_Reset_run cfg ops env (RENDER_Reset_select cfg s).1
        { s with render := { s.render with scale := { s.render.scale with
          size := clampedSize cfg s } } } := by
  rw [RENDER_Reset_eq_run, RENDER_Reset_candidate_scalers cfg s hs]

/-- C15 as amended: in a build with `C_DBP_ENABLE_SCALERS`, when
`SCALER_MAXLINE_WIDTH / width` is smaller than the requested magnification,
`RENDER_Reset` lowers `render.scale.size` to that quotient, and it stays there
in every completed run; where the requested scaler is the candidate (source
both double-width and double-height, or scaler forced and source neither) the
run is made with the scaler at the lowered magnification, which is the
identity if and only if the quotient is neither 2 nor 3. In a build without
`C_DBP_ENABLE_SCALERS` the run is made with the identity and
`render.scale.size` is not changed. -/
theorem C15_size_limit (cfg : Config) (ops : DoubleOps F) (env : Env F) (s : State F) :
    (cfg.C_DBP_ENABLE_SCALERS = true →
      cfg.SCALER_MAXLINE_WIDTH / s.render.src.width < s.render.scale.size →
      (RENDER_Reset_candidate cfg s).2 =
        { s with render := { s.render with scale := { s.render.scale with
          size := cfg.SCALER_MAXLINE_WIDTH / s.render.src.width } } } ∧
      (∀ s', RENDER_Reset cfg ops env s = Except.ok s' →
        s'.render.scale.size = cfg.SCALER_MAXLINE_WIDTH / s.render.src.width) ∧
      ((s.render.src.dblw = true ∧ s.render.src.dblh = true) ∨
          (s.render.scale.forced = true ∧ s.render.src.dblw = false ∧
            s.render.src.dblh = false) →
        RENDER_Reset cfg ops env s =
          RENDER_Reset_run cfg ops env
            (requestedBlocks cfg s.render.scale.op
              (cfg.SCALER_MAXLINE_WIDTH / s.render.src.width))
            { s with render := { s.render with scale := { s.render.scale with
              size := cfg.SCALER_MAXLINE_WIDTH / s.render.src.width } } }) ∧
      (requestedBlocks cfg s.render.scale.op (cfg.SCALER_MAXLINE_WIDTH / s.render.src.width)
          = forcenormal ↔
        cfg.SCALER_MAXLINE_WIDTH / s.render.src.width ≠ 2 ∧
        cfg.SCALER_MAXLINE_WIDTH / s.render.src.width ≠ 3)) ∧
    (cfg.C_DBP_ENABLE_SCALERS = false →
      RENDER_Reset cfg ops env s = RENDER_Reset_run cfg ops env forcenormal s ∧
      ∀ s', RENDER_Reset cfg ops env s = Except.ok s' →
        s'.render.scale.size = s.render.scale.size) := by
  refine ⟨fun hs hsmall => ?_, fun hs => ?_⟩
  · have hcl : clampedSize cfg s = cfg.SCALER_MAXLINE_WIDTH / s.render.src.width := by
      unfold clampedSize
      rw [if_pos hsmall]
    have hr := RENDER_Reset_scalers cfg ops env s hs
    have hcand := RENDER_Reset_candidate_scalers cfg s hs
    rw [hcl] at hr hcand
    refine ⟨?_, ?_, ?_, requestedBlocks_eq_forcenormal cfg _ _⟩
    · rw [hcand]
    · intro s' h
      rw [hr] at h
      exact RENDER_Reset_run_size cfg ops env _ _ s' h
    · intro h
      rw [hr, RENDER_Reset_select_blocks cfg s, hcl]
      rcases h with ⟨h1, h2⟩ | ⟨h1, h2, h3⟩
      · simp [h1, h2]
      · simp [h1, h2, h3]
  · have hr : RENDER_Reset cfg ops env s = RENDER_Reset_run cfg ops env forcenormal s := by
      rw [RENDER_Reset_eq_run, RENDER_Reset_candidate_plain cfg s hs]
    refine ⟨hr, ?_⟩
    intro s' h
    rw [hr] at h
    exact RENDER_Reset_run_size cfg ops env _ _ s' h

/-- C15 as stated fails in a build with the scalers: with `normal3x` forced on
a source 320 wide and a line width limit of 800 the usable magnification is 2,
below the requested 3, the candidate is `ScaleNormal2x`, and `RENDER_Reset`
completes with the line handler of `ScaleNormal2x` bound and the
magnification 2. -/
theorem C15_counterexample :
    scalersConfig.SCALER_MAXLINE_WIDTH / normal3xState.render.src.width
      < normal3xState.render.scale.size ∧
    (RENDER_Reset_candidate scalersConfig normal3xState).1
      = { simpleBlock := SimpleBlock.ScaleNormal2x, complexBlock := none } ∧
    (RENDER_Reset_candidate scalersConfig normal3xState).1 ≠ forcenormal ∧
    (RENDER_Reset scalersConfig exactOps sampleEnv normal3xState).toOption.map
      (fun s' => (s'.render.scale.lineHandler, s'.render.scale.size))
      = some (LineHandler.line (LineBlock.Random SimpleBlock.ScaleNormal2x) 0
          scalerMode_t.scalerMode8, 2) := by
  decide!

end Run

/-! ## State serializer: properties -/

section Serializer

variable {F : Type}

theorem readSrc_eq_some (ar : List (Field F)) (v : Src F) (rest : List (Field F))
    (h : readSrc ar = some (v, rest)) : ar = Field.srcBytes v :: rest := by
  cases ar with
  | nil => simp [readSrc] at h
  | cons f t =>
    cases f <;> simp [readSrc] at h
    rw [h.1, h.2]

theorem readPal_eq_some (ar : List (Field F)) (v : Pal) (rest : List (Field F))
    (h : readPal ar = some (v, rest)) : ar = Field.pal v :: rest := by
  cases ar with
  | nil => simp [readPal] at h
  | cons f t =>
    cases f <;> simp [readPal] at h
    rw [h.1, h.2]

theorem readBool_eq_some (ar : List (Field F)) (v : Bool) (rest : List (Field F))
    (h : readBool ar = some (v, rest)) : ar = Field.bool v :: rest := by
  cases ar with
  | nil => simp [readBool] at h
  | cons f t =>
    cases f <;> simp [readBool] at h
    rw [h.1, h.2]

theorem readBitu_eq_some (ar : List (Field F)) (v : Nat) (rest : List (Field F))
    (h : readBitu ar = some (v, rest)) : ar = Field.bitu v :: rest := by
  cases ar with
  | nil => simp [readBitu] at h
  | cons f t =>
    cases f <;> simp [readBitu] at h
    rw [h.1, h.2]

theorem readBit32u_eq_some (ar : List (Field F)) (v : Nat) (rest : List (Field F))
    (h : readBit32u ar = some (v, rest)) : ar = Field.bit32u v :: rest := by
  cases ar with
  | nil => simp [readBit32u] at h
  | cons f t =>
    cases f <;> simp [readBit32u] at h
    rw [h.1, h.2]

/-- A record that is read successfully starts with the source format block,
the palette, two `bool` items and two `Bitu` items. -/
theorem DBPSerialize_Render_read_shape (cfg : Config) (version : Nat) (ar : List (Field F))
    (s : State F) (r : Src F × Nat × State F × List (Field F))
    (h : DBPSerialize_Render_read cfg version ar s = some r) :
    ∃ ls p u a tail,
      ar = Field.srcBytes ls :: Field.pal p :: Field.bool u :: Field.bool a :: tail := by
  unfold DBPSerialize_Render_read at h
  obtain ⟨⟨ls, r1⟩, h1, h⟩ := Option.bind_eq_some.mp h
  obtain ⟨⟨p, r2⟩, h2, h⟩ := Option.bind_eq_some.mp h
  obtain ⟨⟨u, r3⟩, h3, h⟩ := Option.bind_eq_some.mp h
  obtain ⟨⟨a, r4⟩, h4, _⟩ := Option.bind_eq_some.mp h
  rw [readSrc_eq_some _ _ _ h1, readPal_eq_some _ _ _ h2, readBool_eq_some _ _ _ h3,
    readBool_eq_some _ _ _ h4]
  exact ⟨_, _, _, _, _, rfl⟩

/-- What a successful read of a record leaves untouched. -/
theorem DBPSerialize_Render_read_src (cfg : Config) (version : Nat) (ar : List (Field F))
    (s : State F) (l : Src F) (off : Nat) (s1 : State F) (rest : List (Field F))
    (h : DBPSerialize_Render_read cfg version ar s = some (l, off, s1, rest)) :
    s1.render.src = s.render.src := by
  obtain ⟨ls, p, u, a, tail, rfl⟩ := DBPSerialize_Render_read_shape cfg version ar s _ h
  exact (DBPSerialize_Render_read_flags cfg version ls p u a tail s l off s1 rest h).2.2.2.2

/-- A successful read changes neither the call record nor `render.src`. -/
theorem DBPSerialize_Render_read_calls (cfg : Config) (version : Nat) (ar : List (Field F))
    (s : State F) (l : Src F) (off : Nat) (s1 : State F) (rest : List (Field F))
    (h : DBPSerialize_Render_read cfg version ar s = some (l, off, s1, rest)) :
    s1.calls = s.calls := by
  obtain ⟨ls, p, u, a, tail, rfl⟩ := DBPSerialize_Render_read_shape cfg version ar s _ h
  unfold DBPSerialize_Render_read at h
  simp only [readSrc, readPal, readBool, Option.bind_eq_bind, Option.some_bind,
    Option.bind_eq_some, Prod.exists] at h
  obtain ⟨inLine, ar1, _, outLine, ar2, _, h⟩ := h
  split_ifs at h
  all_goals
    simp only [Option.bind_eq_bind, Option.bind_eq_some, Prod.exists, Option.some.injEq,
      Prod.mk.injEq] at h
    casesm* ∃ _, _, _ ∧ _
    subst_vars
    rfl

/-- The restore of a record whose source format block equals the live
`render.src`. -/
theorem DBPSerialize_Render_load_same [DecidableEq F] (cfg : Config) (ops : DoubleOps F)
    (env : Env F) (version : Nat) (ar : List (Field F)) (s : State F) (l : Src F) (off : Nat)
    (s1 : State F) (rest : List (Field F))
    (hread : DBPSerialize_Render_read cfg version ar
      { s with calls := s.calls ++ [Call.GFX_GetPixels] } = some (l, off, s1, rest))
    (hsame : l = s.render.src) :
    DBPSerialize_Render_load cfg ops env version ar s =
      if env.GFX_GetPixels.1 ≠ 0 ∧ off ≠ 0 ∧
          off < mulBitu cfg (mulBitu cfg s.render.src.width 4) s.render.src.height then
        Except.ok ({ s1 with render := { s1.render with scale := { s1.render.scale with
          outWrite := env.GFX_GetPixels.1 + off } } }, rest)
      else (RENDER_Reset cfg ops env s1).map (fun t => (t, rest)) := by
  have hsrc0 := DBPSerialize_Render_read_src cfg version ar
    { s with calls := s.calls ++ [Call.GFX_GetPixels] } l off s1 rest hread
  have hsrc : s1.render.src = s.render.src := hsrc0
  unfold DBPSerialize_Render_load
  simp only [hread]
  rw [if_neg (by rw [hsrc, hsame]; exact not_not.mpr rfl), hsrc]

/-- C18, amended: on a restore whose record reads successfully with a source
format block equal to the live one, the write pointer is set to the buffer base
plus the saved offset, with no call after `GFX_GetPixels`, exactly when the
backend offers a pixel buffer and the saved offset is non-zero and below
width×4×height, the product being computed in `Bitu` arithmetic; in every
other case, offset 0 included, `RENDER_Reset` runs on the state the record was
read into. -/
theorem C18_restore_same_format [DecidableEq F] (cfg : Config) (ops : DoubleOps F)
    (env : Env F) (version : Nat) (ar : List (Field F)) (s : State F) (l : Src F) (off : Nat)
    (s1 : State F) (rest : List (Field F))
    (hread : DBPSerialize_Render_read cfg version ar
      { s with calls := s.calls ++ [Call.GFX_GetPixels] } = some (l, off, s1, rest))
    (hsame : l = s.render.src) :
    (env.GFX_GetPixels.1 ≠ 0 ∧ off ≠ 0 ∧
        off < mulBitu cfg (mulBitu cfg s.render.src.width 4) s.render.src.height →
      ∃ s', DBPSerialize_Render_load cfg ops env version ar s = Except.ok (s', rest) ∧
        s'.render.scale.outWrite = env.GFX_GetPixels.1 + off ∧
        s'.calls = s.calls ++ [Call.GFX_GetPixels]) ∧
    (¬ (env.GFX_GetPixels.1 ≠ 0 ∧ off ≠ 0 ∧
        off < mulBitu cfg (mulBitu cfg s.render.src.width 4) s.render.src.height) →
      DBPSerialize_Render_load cfg ops env version ar s =
        (RENDER_Reset cfg ops env s1).map (fun t => (t, rest))) := by
  have h := DBPSerialize_Render_load_same cfg ops env version ar s l off s1 rest hread hsame
  refine ⟨fun hc => ?_, fun hc => ?_⟩
  · rw [if_pos hc] at h
    have hcalls := DBPSerialize_Render_read_calls cfg version ar
      { s with calls := s.calls ++ [Call.GFX_GetPixels] } l off s1 rest hread
    exact ⟨_, h, rfl, hcalls⟩
  · rw [if_neg hc] at h
    exact h

/-- C18 as stated fails at offset 0, which lies in [0, width×4×height): with
the pixel buffer of `sampleEnv` and the source format of `idleState`, restoring
`zeroOffsetRecord` runs the reconfiguration (two backend calls after
`GFX_GetPixels`, the whole palette marked dirty) and leaves a null write
pointer instead of the buffer base 4096. -/
theorem C18_counterexample :
    sampleEnv.GFX_GetPixels.1 = 4096 ∧
    (0 : Nat) < mulBitu plainConfig (mulBitu plainConfig idleState.render.src.width 4)
      idleState.render.src.height ∧
    (DBPSerialize_Render_load plainConfig exactOps sampleEnv 5 zeroOffsetRecord
        idleState).toOption.map
      (fun r => (r.1.render.scale.outWrite, r.1.calls.length, r.1.render.pal.first,
        r.1.render.pal.last)) = some (0, 3, 0, 255) := by
  decide!

/-- C20, amended: with the cache disabled and a version of 5 or more, the
record `DBPSerialize_Render` writes is, in this order: the source format block,
the palette block, the updating flag, the active flag, the input-scanline
counter, the output-scanline counter and the write-pointer offset. -/
theorem C20_record_layout (cfg : Config) (env : Env F) (version uninit : Nat) (s : State F)
    (hc : cfg.C_DBP_ENABLE_SCALERCACHE = false) (hv : 5 ≤ version) :
    (DBPSerialize_Render_save cfg env version uninit s).1 =
      [Field.srcBytes s.render.src, Field.pal s.render.pal, Field.bool s.render.updating,
        Field.bool s.render.active, Field.bitu s.render.scale.inLine,
        Field.bitu s.render.scale.outLine, Field.bit32u (render_offset_init cfg env s)] := by
  have h5 : ¬ version < 5 := by omega
  unfold DBPSerialize_Render_save
  simp only [hc, h5, and_false, Bool.not_false, if_true, if_false, List.cons_append,
    List.nil_append, List.append_nil]
  rfl

/-- C20 as stated fails on the order of the two flags: for `initState`
(updating set, active clear) the record of version 5 holds the `bool` items
true, false, that is updating before active. -/
theorem C20_counterexample :
    initState.render.active = false ∧ initState.render.updating = true ∧
    boolFields (DBPSerialize_Render_save plainConfig sampleEnv 5 0 initState).1
      = [true, false] := by
  decide!

end Serializer

/-! ## Frames, size changes and the cache entry handler: properties -/

section Frames

variable {F : Type}

theorem RENDER_Reset_select_format (cfg : Config) (s : State F) :
    (RENDER_Reset_select cfg s).2.render.src.format = s.render.src.format := by
  unfold RENDER_Reset_select
  simp only
  split_ifs <;> rfl

theorem RENDER_Reset_bpp_format (cfg : Config) (gfx_flags : Nat) (s : State F) :
    (RENDER_Reset_bpp cfg gfx_flags s).2.render.src.format = s.render.src.format := by
  unfold RENDER_Reset_bpp
  simp only
  split_ifs <;> rfl

/-- The source format in the state a pass ends with, when it does
not end in `E_Exit`. -/
theorem RENDER_Reset_pass_format (cfg : Config) (env : Env F) (b : Blocks) (s : State F) :
    (∀ s', RENDER_Reset_pass cfg env b s = Pass.gotoForcenormal s' →
      s'.render.src.format = s.render.src.format) ∧
    (∀ b' f x y s', RENDER_Reset_pass cfg env b s = Pass.granted b' f x y s' →
      s'.render.src.format = s.render.src.format) := by
  unfold RENDER_Reset_pass
  simp only
  refine ⟨?_, ?_⟩
  · intro s' h
    split_ifs at h
    all_goals
      cases h
      first
        | rfl
        | exact RENDER_Reset_bpp_format cfg _ s
  · intro b' f x y s' h
    split_ifs at h
    all_goals
      cases h
      exact RENDER_Reset_bpp_format cfg _ s

theorem RENDER_Reset_negotiate_format (cfg : Config) (env : Env F) (b : Blocks)
    (s : State F) :
    (∀ s', RENDER_Reset_negotiate cfg env b s ≠ Pass.gotoForcenormal s') ∧
    (∀ b' f x y s', RENDER_Reset_negotiate cfg env b s = Pass.granted b' f x y s' →
      s'.render.src.format = s.render.src.format) := by
  unfold RENDER_Reset_negotiate
  have hp := RENDER_Reset_pass_format cfg env b s
  cases h : RENDER_Reset_pass cfg env b s with
  | gotoForcenormal s1 =>
    refine ⟨fun s' => RENDER_Reset_pass_forcenormal cfg env s1 s', ?_⟩
    intro b' f x y s' h2
    rw [(RENDER_Reset_pass_format cfg env forcenormal s1).2 b' f x y s' h2]
    exact hp.1 s1 h
  | E_Exit msg s1 =>
    refine ⟨?_, ?_⟩
    · intro s' h2
      cases h2
    · intro b' f x y s' h2
      cases h2
  | granted b1 f1 x1 y1 s1 =>
    refine ⟨?_, ?_⟩
    · intro s' h2
      cases h2
    · intro b' f x y s' h2
      cases h2
      exact hp.2 b1 f1 x1 y1 s1 h

theorem RENDER_Reset_size_format (cfg : Config) (ops : DoubleOps F) (env : Env F)
    (b : Blocks) (gfx_flags xscale yscale : Nat) (s : State F) :
    (RENDER_Reset_size cfg ops env b gfx_flags xscale yscale s).2.render.src.format
      = s.render.src.format := by
  unfold RENDER_Reset_size
  simp only
  split_ifs <;> rfl

theorem RENDER_Reset_handlers_format (cfg : Config) (lb : LineBlock) (s s' : State F)
    (h : RENDER_Reset_handlers cfg lb s = some s') :
    s'.render.src.format = s.render.src.format := by
  unfold RENDER_Reset_handlers at h
  simp only at h
  split_ifs at h
  all_goals
    injection h with h
    rw [← h]

theorem RENDER_Reset_finish_format (cfg : Config) (s : State F) :
    (RENDER_Reset_finish cfg s).render.src.format = s.render.src.format ∧
    (RENDER_Reset_finish cfg s).render.active = true := by
  unfold RENDER_Reset_finish
  cases cfg.C_DBP_ENABLE_SCALERCACHE <;> exact ⟨rfl, rfl⟩

theorem RENDER_Reset_format (cfg : Config) (ops : DoubleOps F) (env : Env F)
    (s s' : State F) (h : RENDER_Reset cfg ops env s = Except.ok s') :
    s'.render.src.format = s.render.src.format ∧ s'.render.active = true := by
  unfold RENDER_Reset RENDER_Reset_run RENDER_Reset_output RENDER_Reset_candidate at h
  simp only at h
  have hsel : (if cfg.C_DBP_ENABLE_SCALERS = true then RENDER_Reset_select cfg s
      else (forcenormal, s)).2.render.src.format = s.render.src.format := by
    split_ifs
    · exact RENDER_Reset_select_format cfg s
    · rfl
  have hneg := RENDER_Reset_negotiate_format cfg env
    (if cfg.C_DBP_ENABLE_SCALERS = true then RENDER_Reset_select cfg s else (forcenormal, s)).1
    (if cfg.C_DBP_ENABLE_SCALERS = true then RENDER_Reset_select cfg s else (forcenormal, s)).2
  cases hn : RENDER_Reset_negotiate cfg env
    (if cfg.C_DBP_ENABLE_SCALERS = true then RENDER_Reset_select cfg s else (forcenormal, s)).1
    (if cfg.C_DBP_ENABLE_SCALERS = true then RENDER_Reset_select cfg s else (forcenormal, s)).2
    with
  | gotoForcenormal s1 => rw [hn] at h; cases h
  | E_Exit msg s1 => rw [hn] at h; cases h
  | granted b1 f1 x1 y1 s1 =>
    rw [hn] at h
    simp only at h
    have h1 : s1.render.src.format = s.render.src.format :=
      (hneg.2 b1 f1 x1 y1 s1 hn).trans hsel
    have h2 := RENDER_Reset_size_format cfg ops env b1 f1 x1 y1 s1
    split at h
    · cases h
    · rename_i outMode _
      split at h
      · cases h
      · rename_i s2 hs2
        injection h with h
        have h3 := RENDER_Reset_handlers_format cfg _ _ s2 hs2
        have h4 := RENDER_Reset_finish_format cfg s2
        rw [← h]
        exact ⟨h4.1.trans (h3.trans (h2.trans h1)), h4.2⟩

/-- C21: `RENDER_EndUpdate(abort)` with no transaction open returns the state
it was called in, for both values of `abort`: `render`, the bound draw handler
`RENDER_DrawLine` and the record of calls are unchanged. -/
theorem C21_EndUpdate_idle (cfg : Config) (env : Env F) (abort : Bool) (s : State F)
    (h : s.render.updating = false) :
    RENDER_EndUpdate cfg env abort s = s ∧
    (RENDER_EndUpdate cfg env abort s).RENDER_DrawLine = s.RENDER_DrawLine ∧
    (RENDER_EndUpdate cfg env abort s).calls = s.calls := by
  have h1 : RENDER_EndUpdate cfg env abort s = s := by
    simp [RENDER_EndUpdate, h]
  rw [h1]
  exact ⟨rfl, rfl, rfl⟩

theorem RENDER_SetSize_rejected (cfg : Config) (ops : DoubleOps F) (env : Env F)
    (width height bpp : Nat) (fps ratio : F) (dblw dblh : Bool) (s : State F)
    (h : width = 0 ∨ height = 0 ∨ width > cfg.SCALER_MAXWIDTH ∨
      height > cfg.SCALER_MAXHEIGHT) :
    RENDER_SetSize cfg ops env width height bpp fps ratio dblw dblh s
      = Except.ok (RENDER_Halt s) := by
  unfold RENDER_SetSize
  simp only
  rw [if_pos]
  simp only [Bool.or_eq_true, decide_eq_true_eq]
  rcases h with h | h | h | h
  · exact Or.inl (Or.inl (Or.inl h))
  · exact Or.inl (Or.inl (Or.inr h))
  · exact Or.inl (Or.inr h)
  · exact Or.inr h

theorem RENDER_SetSize_accepted (cfg : Config) (ops : DoubleOps F) (env : Env F)
    (width height bpp : Nat) (fps ratio : F) (dblw dblh : Bool) (s : State F)
    (h : ¬ (width = 0 ∨ height = 0 ∨ width > cfg.SCALER_MAXWIDTH ∨
      height > cfg.SCALER_MAXHEIGHT)) :
    RENDER_SetSize cfg ops env width height bpp fps ratio dblw dblh s
      = RENDER_Reset cfg ops env (RENDER_SetSize_stored ops width height bpp fps ratio
          dblw dblh s) := by
  unfold RENDER_SetSize
  simp only
  rw [if_neg]
  · rfl
  · simp only [Bool.or_eq_true, decide_eq_true_eq]
    intro h2
    apply h
    rcases h2 with ((h2 | h2) | h2) | h2
    · exact Or.inl h2
    · exact Or.inr (Or.inl h2)
    · exact Or.inr (Or.inr (Or.inl h2))
    · exact Or.inr (Or.inr (Or.inr h2))

/-- C23: `RENDER_SetSize` with a width or height that is zero or above
`SCALER_MAXWIDTH` / `SCALER_MAXHEIGHT` ends after `RENDER_Halt`: the stored
source format is unchanged, the only call recorded is the `GFX_EndUpdate(0)`
of `RENDER_Halt` (no `GFX_GetBestMode`, no `GFX_SetSize`), and the pipeline is
inactive with no transaction open. A completed `RENDER_SetSize` that was not
rejected stores the width and height it was given, so whenever the stored
format differs from the one before, its width and height are positive and
within the two limits; and a call that is not rejected runs `RENDER_Reset` on
a state whose stored width and height are the ones given, positive and within
the two limits. -/
theorem C23_SetSize_limits (cfg : Config) (ops : DoubleOps F) (env : Env F)
    (width height bpp : Nat) (fps ratio : F) (dblw dblh : Bool) (s : State F) :
    ((width = 0 ∨ height = 0 ∨ width > cfg.SCALER_MAXWIDTH ∨
        height > cfg.SCALER_MAXHEIGHT) →
      ∃ s', RENDER_SetSize cfg ops env width height bpp fps ratio dblw dblh s = Except.ok s' ∧
        s'.render.src = s.render.src ∧
        s'.calls = s.calls ++ [Call.GFX_EndUpdate ChangedLinesArg.null] ∧
        s'.render.active = false ∧ s'.render.updating = false) ∧
    (∀ s', RENDER_SetSize cfg ops env width height bpp fps ratio dblw dblh s = Except.ok s' →
      s'.render.src.format ≠ s.render.src.format →
      s'.render.src.width = width ∧ s'.render.src.height = height ∧
      0 < s'.render.src.width ∧ s'.render.src.width ≤ cfg.SCALER_MAXWIDTH ∧
      0 < s'.render.src.height ∧ s'.render.src.height ≤ cfg.SCALER_MAXHEIGHT) ∧
    (¬ (width = 0 ∨ height = 0 ∨ width > cfg.SCALER_MAXWIDTH ∨
        height > cfg.SCALER_MAXHEIGHT) →
      RENDER_SetSize cfg ops env width height bpp fps ratio dblw dblh s =
        RENDER_Reset cfg ops env
          (RENDER_SetSize_stored ops width height bpp fps ratio dblw dblh s) ∧
      (RENDER_SetSize_stored ops width height bpp fps ratio dblw dblh s).render.src.width
        = width ∧
      (RENDER_SetSize_stored ops width height bpp fps ratio dblw dblh s).render.src.height
        = height ∧
      0 < width ∧ width ≤ cfg.SCALER_MAXWIDTH ∧
      0 < height ∧ height ≤ cfg.SCALER_MAXHEIGHT) := by
  refine ⟨fun h => ⟨RENDER_Halt s, RENDER_SetSize_rejected cfg ops env width height bpp fps
    ratio dblw dblh s h, rfl, rfl, rfl, rfl⟩, ?_, ?_⟩
  rotate_left
  · intro h
    refine ⟨RENDER_SetSize_accepted cfg ops env width height bpp fps ratio dblw dblh s h,
      rfl, rfl, ?_, ?_, ?_, ?_⟩ <;> omega
  intro s' hok hne
  by_cases h : width = 0 ∨ height = 0 ∨ width > cfg.SCALER_MAXWIDTH ∨
      height > cfg.SCALER_MAXHEIGHT
  · rw [RENDER_SetSize_rejected cfg ops env width height bpp fps ratio dblw dblh s h] at hok
    cases hok
    exact absurd rfl hne
  · rw [RENDER_SetSize_accepted cfg ops env width height bpp fps ratio dblw dblh s h] at hok
    have hf := (RENDER_Reset_format cfg ops env _ s' hok).1
    have hw : s'.render.src.width = width := congrArg Src.width hf
    have hh : s'.render.src.height = height := congrArg Src.height hf
    rw [hw, hh]
    refine ⟨rfl, rfl, ?_, ?_, ?_, ?_⟩ <;> omega

theorem startUpdateCalls_append (xs ys : List (Call F)) :
    startUpdateCalls (xs ++ ys) = startUpdateCalls xs + startUpdateCalls ys := by
  induction xs with
  | nil => simp [startUpdateCalls]
  | cons c xs ih =>
    cases c <;> simp [startUpdateCalls, ih]
    omega

theorem endUpdateCalls_append (xs ys : List (Call F)) :
    endUpdateCalls (xs ++ ys) = endUpdateCalls xs + endUpdateCalls ys := by
  induction xs with
  | nil => simp [endUpdateCalls]
  | cons c xs ih =>
    cases c <;> simp [endUpdateCalls, ih]
    omega

theorem onlyPalette_refl (s : State F) : onlyPalette s s :=
  ⟨s.render.pal, [], by simp, rfl, rfl⟩

theorem onlyPalette_trans (s t u : State F) (h1 : onlyPalette s t) (h2 : onlyPalette t u) :
    onlyPalette s u := by
  obtain ⟨p1, c1, rfl, a1, b1⟩ := h1
  obtain ⟨p2, c2, rfl, a2, b2⟩ := h2
  refine ⟨p2, c1 ++ c2, ?_, ?_, ?_⟩
  · simp only [List.append_assoc]
  · rw [startUpdateCalls_append, a1, a2]
  · rw [endUpdateCalls_append, b1, b2]

theorem Check_Palette_body_onlyPalette (env : Env F) (bits i : Nat) (s : State F) :
    onlyPalette s (Check_Palette_body env bits i s) := by
  unfold Check_Palette_body
  simp only
  split_ifs
  · exact ⟨_, _, rfl, rfl, rfl⟩
  · exact ⟨s.render.pal, _, rfl, rfl, rfl⟩

theorem Check_Palette_loop_onlyPalette (env : Env F) (bits : Nat) :
    ∀ (n i : Nat) (s : State F), onlyPalette s (Check_Palette_loop env bits n i s) := by
  intro n
  induction n with
  | zero => intro i s; exact onlyPalette_refl s
  | succ n ih =>
    intro i s
    exact onlyPalette_trans _ _ _ (Check_Palette_body_onlyPalette env bits i s) (ih (i + 1) _)

theorem Check_Palette_onlyPalette (env : Env F) (s : State F) :
    onlyPalette s (Check_Palette env s) := by
  have hclean : onlyPalette s (Check_Palette_clean s) := by
    rw [Check_Palette_clean_eq]
    exact ⟨_, [], by rw [List.append_nil], rfl, rfl⟩
  have hswitch : ∀ t : State F, onlyPalette t (Check_Palette_switch env t) := by
    intro t
    unfold Check_Palette_switch
    split
    · exact ⟨t.render.pal, _, rfl, rfl, rfl⟩
    · exact Check_Palette_loop_onlyPalette env 16 _ _ t
    · exact Check_Palette_loop_onlyPalette env 16 _ _ t
    · exact Check_Palette_loop_onlyPalette env 32 _ _ t
  unfold Check_Palette
  simp only
  split_ifs
  · exact hclean
  · refine onlyPalette_trans _ _ _ hclean (onlyPalette_trans _ _ _ (hswitch _) ?_)
    exact ⟨_, [], by rw [List.append_nil], rfl, rfl⟩

/-- What the statements of `RENDER_StartUpdate` before the buffer is acquired
leave in the state. -/
theorem RENDER_StartUpdate_prepare_eq (cfg : Config) (env : Env F) (s : State F) :
    ∃ pal cs, startUpdateCalls cs = 0 ∧ endUpdateCalls cs = 0 ∧
      RENDER_StartUpdate_prepare cfg env s =
        { s with
          render := { s.render with
            frameskip := { s.render.frameskip with count := 0 }
            pal := pal
            scale := { s.render.scale with
              inLine := 0
              outLine := 0
              cacheRead :=
                if cfg.C_DBP_ENABLE_SCALERCACHE then scalerSourceCache
                else s.render.scale.cacheRead
              outWrite := 0
              outPitch := 0 } }
          Scaler_ChangedLines :=
            if cfg.C_DBP_ENABLE_SCALERCACHE then Function.update s.Scaler_ChangedLines 0 0
            else s.Scaler_ChangedLines
          Scaler_ChangedLineIndex :=
            if cfg.C_DBP_ENABLE_SCALERCACHE then 0 else s.Scaler_ChangedLineIndex
          calls := s.calls ++ cs } := by
  have hpal : ∀ t : State F, onlyPalette t
      (if t.render.scale.inMode = scalerMode_t.scalerMode8 then Check_Palette env t else t) := by
    intro t
    split_ifs
    · exact Check_Palette_onlyPalette env t
    · exact onlyPalette_refl t
  obtain ⟨pal, cs, heq, h1, h2⟩ := hpal
    { s with render := { s.render with frameskip := { s.render.frameskip with count := 0 } } }
  refine ⟨pal, cs, h1, h2, ?_⟩
  unfold RENDER_StartUpdate_prepare
  simp only
  rw [heq]
  cases cfg.C_DBP_ENABLE_SCALERCACHE <;> rfl

theorem RENDER_StartUpdate_prepare_fields (cfg : Config) (env : Env F) (s : State F) :
    (RENDER_StartUpdate_prepare cfg env s).render.frameskip
      = { s.render.frameskip with count := 0 } ∧
    (RENDER_StartUpdate_prepare cfg env s).render.active = s.render.active ∧
    (RENDER_StartUpdate_prepare cfg env s).render.updating = s.render.updating ∧
    (RENDER_StartUpdate_prepare cfg env s).RENDER_DrawLine = s.RENDER_DrawLine ∧
    (RENDER_StartUpdate_prepare cfg env s).render.scale.outWrite = 0 ∧
    (RENDER_StartUpdate_prepare cfg env s).render.scale.outPitch = 0 ∧
    startUpdateCalls (RENDER_StartUpdate_prepare cfg env s).calls = startUpdateCalls s.calls ∧
    endUpdateCalls (RENDER_StartUpdate_prepare cfg env s).calls = endUpdateCalls s.calls := by
  obtain ⟨pal, cs, h1, h2, heq⟩ := RENDER_StartUpdate_prepare_eq cfg env s
  rw [heq]
  refine ⟨rfl, rfl, rfl, rfl, rfl, rfl, ?_, ?_⟩
  · show startUpdateCalls (s.calls ++ cs) = _
    rw [startUpdateCalls_append, h1]
    rfl
  · show endUpdateCalls (s.calls ++ cs) = _
    rw [endUpdateCalls_append, h2]
    rfl

theorem RENDER_StartUpdate_prepare_cache (cfg : Config) (env : Env F) (s : State F)
    (hc : cfg.C_DBP_ENABLE_SCALERCACHE = true) :
    (RENDER_StartUpdate_prepare cfg env s).render.scale.inLine = 0 ∧
    (RENDER_StartUpdate_prepare cfg env s).render.scale.outLine = 0 ∧
    (RENDER_StartUpdate_prepare cfg env s).render.scale.cacheRead = scalerSourceCache ∧
    (RENDER_StartUpdate_prepare cfg env s).render.scale.cachePitch
      = s.render.scale.cachePitch ∧
    (RENDER_StartUpdate_prepare cfg env s).render.scale.clearCache
      = s.render.scale.clearCache ∧
    (RENDER_StartUpdate_prepare cfg env s).render.src = s.render.src ∧
    (RENDER_StartUpdate_prepare cfg env s).Scaler_ChangedLines 0 = 0 ∧
    (RENDER_StartUpdate_prepare cfg env s).Scaler_Aspect = s.Scaler_Aspect := by
  obtain ⟨pal, cs, h1, h2, heq⟩ := RENDER_StartUpdate_prepare_eq cfg env s
  rw [heq]
  refine ⟨rfl, rfl, ?_, rfl, rfl, rfl, ?_, rfl⟩
  · show (if cfg.C_DBP_ENABLE_SCALERCACHE = true then scalerSourceCache
      else s.render.scale.cacheRead) = scalerSourceCache
    rw [if_pos hc]
  · show (if cfg.C_DBP_ENABLE_SCALERCACHE = true then Function.update s.Scaler_ChangedLines 0 0
      else s.Scaler_ChangedLines) 0 = 0
    rw [if_pos hc]
    exact Function.update_same _ _ _

theorem set_fullFrame_fields (cfg : Config) (v : Bool) (s : State F) :
    (set_fullFrame cfg v s).render.frameskip = s.render.frameskip ∧
    (set_fullFrame cfg v s).render.active = s.render.active ∧
    (set_fullFrame cfg v s).render.scale = s.render.scale ∧
    (set_fullFrame cfg v s).render.src = s.render.src ∧
    (set_fullFrame cfg v s).RENDER_DrawLine = s.RENDER_DrawLine ∧
    (set_fullFrame cfg v s).Scaler_ChangedLines = s.Scaler_ChangedLines ∧
    (set_fullFrame cfg v s).Scaler_Aspect = s.Scaler_Aspect ∧
    (set_fullFrame cfg v s).calls = s.calls := by
  unfold set_fullFrame
  split <;> exact ⟨rfl, rfl, rfl, rfl, rfl, rfl, rfl, rfl⟩

/-- The statements of `RENDER_StartUpdate` that acquire the buffer leave the
frame-skip state and `active` as they are. -/
theorem RENDER_StartUpdate_bind_frameskip (cfg : Config) (env : Env F) (s : State F) :
    (RENDER_StartUpdate_bind cfg env s).2.render.frameskip = s.render.frameskip ∧
    (RENDER_StartUpdate_bind cfg env s).2.render.active = s.render.active := by
  unfold RENDER_StartUpdate_bind
  simp only [RENDER_StartUpdate_open, call_GFX_StartUpdate]
  split_ifs <;>
    first
      | exact ⟨rfl, rfl⟩
      | exact ⟨(set_fullFrame_fields cfg _ _).1, (set_fullFrame_fields cfg _ _).2.1⟩

/-- With a backend that grants every buffer, the statements of
`RENDER_StartUpdate` that acquire the buffer end in `return true`. -/
theorem RENDER_StartUpdate_bind_granted (cfg : Config) (env : Env F) (s : State F)
    (hgrant : ∀ p q, (env.GFX_StartUpdate p q).1 = true) :
    (RENDER_StartUpdate_bind cfg env s).1 = true := by
  unfold RENDER_StartUpdate_bind
  simp only [RENDER_StartUpdate_open, call_GFX_StartUpdate, hgrant, Bool.not_true,
    Bool.false_eq_true, if_false]
  split_ifs <;> rfl

theorem RENDER_EndUpdate_frameskip (cfg : Config) (env : Env F) (abort : Bool) (s : State F) :
    (RENDER_EndUpdate cfg env abort s).render.frameskip = s.render.frameskip := by
  unfold RENDER_EndUpdate
  simp only [call_GFX_EndUpdate]
  split_ifs <;> simp [RENDER_EndUpdate_capture_render]

theorem RENDER_EndUpdate_updating (cfg : Config) (env : Env F) (abort : Bool) (s : State F) :
    (RENDER_EndUpdate cfg env abort s).render.updating = false := by
  unfold RENDER_EndUpdate
  cases h : s.render.updating
  · simp [h]
  · simp

/-- One frame with a backend that grants every buffer, from a state with the
pipeline active, no transaction open and the counter at most the maximum:
`RENDER_StartUpdate` returns true exactly when the counter has reached the
maximum, and the counter is then 0, and one more otherwise. -/
theorem frameAttempt_spec (cfg : Config) (env : Env F) (abort : Bool) (s : State F)
    (hgrant : ∀ p q, (env.GFX_StartUpdate p q).1 = true)
    (hact : s.render.active = true) (hupd : s.render.updating = false) :
    (frameAttempt cfg env abort s).1 =
      decide (¬ s.render.frameskip.count < s.render.frameskip.max) ∧
    (RENDER_StartUpdate cfg env s).2.render.frameskip.count =
      (if s.render.frameskip.count < s.render.frameskip.max then s.render.frameskip.count + 1
        else 0) ∧
    (frameAttempt cfg env abort s).2.render.frameskip.count =
      (if s.render.frameskip.count < s.render.frameskip.max then s.render.frameskip.count + 1
        else 0) ∧
    (frameAttempt cfg env abort s).2.render.frameskip.max = s.render.frameskip.max ∧
    (frameAttempt cfg env abort s).2.render.active = true ∧
    (frameAttempt cfg env abort s).2.render.updating = false := by
  by_cases hlt : s.render.frameskip.count < s.render.frameskip.max
  · have h1 : RENDER_StartUpdate cfg env s =
        (false, { s with render := { s.render with frameskip := { s.render.frameskip with
          count := s.render.frameskip.count + 1 } } }) := by
      simp [RENDER_StartUpdate, hact, hupd, hlt]
    unfold frameAttempt
    simp only [h1, Bool.false_eq_true, if_false, hlt, if_true, not_true_eq_false,
      decide_False]
    exact ⟨trivial, trivial, trivial, trivial, hact, hupd⟩
  · have h1 : RENDER_StartUpdate cfg env s =
        RENDER_StartUpdate_bind cfg env (RENDER_StartUpdate_prepare cfg env s) := by
      simp [RENDER_StartUpdate, hact, hupd, hlt]
    have hp := RENDER_StartUpdate_prepare_fields cfg env s
    have hb := RENDER_StartUpdate_bind_frameskip cfg env (RENDER_StartUpdate_prepare cfg env s)
    have hg := RENDER_StartUpdate_bind_granted cfg env (RENDER_StartUpdate_prepare cfg env s)
      hgrant
    have hfs : (RENDER_StartUpdate cfg env s).2.render.frameskip
        = { s.render.frameskip with count := 0 } := by
      rw [h1, hb.1, hp.1]
    unfold frameAttempt
    simp only [h1, hg, if_true, hlt, if_false, not_false_eq_true, decide_True]
    rw [h1] at hfs
    refine ⟨trivial, ?_, ?_, ?_, ?_, ?_⟩
    · rw [hfs]
    · rw [RENDER_EndUpdate_frameskip, hfs]
    · rw [RENDER_EndUpdate_frameskip, hfs]
    · rw [RENDER_EndUpdate_active, hb.2, hp.2.1, hact]
    · exact RENDER_EndUpdate_updating cfg env abort _

theorem frameAttempts_spec (cfg : Config) (env : Env F)
    (hgrant : ∀ p q, (env.GFX_StartUpdate p q).1 = true) :
    ∀ (aborts : List Bool) (s : State F),
      s.render.active = true → s.render.updating = false →
      s.render.frameskip.count ≤ s.render.frameskip.max →
      (frameAttempts cfg env aborts s).1 =
        (List.range aborts.length).map
          (fun j => decide ((s.render.frameskip.max + 1) ∣ (s.render.frameskip.count + j + 1))) ∧
      (frameAttempts cfg env aborts s).2.render.frameskip.count ≤ s.render.frameskip.max ∧
      (frameAttempts cfg env aborts s).2.render.frameskip.max = s.render.frameskip.max ∧
      (frameAttempts cfg env aborts s).2.render.active = true ∧
      (frameAttempts cfg env aborts s).2.render.updating = false := by
  intro aborts
  induction aborts with
  | nil =>
    intro s hact hupd hle
    exact ⟨rfl, hle, rfl, hact, hupd⟩
  | cons a aborts ih =>
    intro s hact hupd hle
    obtain ⟨h1, _, h3, h4, h5, h6⟩ := frameAttempt_spec cfg env a s hgrant hact hupd
    have hle2 : (frameAttempt cfg env a s).2.render.frameskip.count
        ≤ (frameAttempt cfg env a s).2.render.frameskip.max := by
      rw [h3, h4]
      split_ifs <;> omega
    obtain ⟨i1, i2, i3, i4, i5⟩ := ih (frameAttempt cfg env a s).2 h5 h6 hle2
    simp only [frameAttempts]
    refine ⟨?_, ?_, ?_, i4, i5⟩
    · rw [i1, h1, h3, h4, List.length_cons, List.range_succ_eq_map, List.map_cons,
        List.map_map]
      congr 1
      · by_cases hlt : s.render.frameskip.count < s.render.frameskip.max
        · have hnd : ¬ (s.render.frameskip.max + 1 ∣ s.render.frameskip.count + 0 + 1) := by
            intro hd
            have := Nat.le_of_dvd (by omega) hd
            omega
          simp [hlt, hnd]
        · have heq : s.render.frameskip.count = s.render.frameskip.max := by omega
          simp [hlt, heq]
      · apply List.map_congr_left
        intro j _
        by_cases hlt : s.render.frameskip.count < s.render.frameskip.max
        · simp only [hlt, if_true, Function.comp]
          have : s.render.frameskip.count + 1 + j + 1 = s.render.frameskip.count + (j + 1) + 1 := by
            omega
          rw [this]
        · have heq : s.render.frameskip.count = s.render.frameskip.max := by omega
          simp only [hlt, if_false, Function.comp]
          have : s.render.frameskip.count + (j + 1) + 1
              = (0 + j + 1) + (s.render.frameskip.max + 1) := by omega
          rw [this]
          exact decide_eq_decide.mpr Nat.dvd_add_self_right.symm
    · rw [h4] at i2
      exact i2
    · rw [i3, h4]

/-- C22: from a state with the pipeline active, no transaction open and the
frame-skip counter 0, with a backend that grants every buffer, in a sequence
of frames in which every `RENDER_StartUpdate` that returns true is followed by
`RENDER_EndUpdate`, the k-th `RENDER_StartUpdate` returns true exactly when k
is a multiple of `render.frameskip.max + 1`; the maximum stays as it is, and
the counter is at most the maximum after every frame and after the
`RENDER_StartUpdate` of the next one. -/
theorem C22_frameskip_throttle (cfg : Config) (env : Env F) (s : State F) (aborts : List Bool)
    (hgrant : ∀ p q, (env.GFX_StartUpdate p q).1 = true)
    (hact : s.render.active = true) (hupd : s.render.updating = false)
    (hcount : s.render.frameskip.count = 0) :
    (frameAttempts cfg env aborts s).1 =
      (List.range aborts.length).map
        (fun j => decide ((s.render.frameskip.max + 1) ∣ (j + 1))) ∧
    (frameAttempts cfg env aborts s).2.render.frameskip.max = s.render.frameskip.max ∧
    (frameAttempts cfg env aborts s).2.render.frameskip.count ≤ s.render.frameskip.max ∧
    (RENDER_StartUpdate cfg env (frameAttempts cfg env aborts s).2).2.render.frameskip.count
      ≤ s.render.frameskip.max := by
  obtain ⟨h1, h2, h3, h4, h5⟩ := frameAttempts_spec cfg env hgrant aborts s hact hupd
    (by rw [hcount]; exact Nat.zero_le _)
  refine ⟨?_, h3, h2, ?_⟩
  · rw [h1]
    apply List.map_congr_left
    intro j _
    rw [hcount, Nat.zero_add]
  · have h6 := (frameAttempt_spec cfg env false _ hgrant h4 h5).2.1
    rw [h6, h3]
    split_ifs <;> omega

/-- The statements of `RENDER_StartUpdate` that acquire the buffer, when the
backend refuses it. -/
theorem RENDER_StartUpdate_bind_refused (cfg : Config) (env : Env F) (s : State F)
    (href : (env.GFX_StartUpdate s.render.scale.outWrite s.render.scale.outPitch).1 = false)
    (hcall : startUpdateCalls (RENDER_StartUpdate_bind cfg env s).2.calls
      ≠ startUpdateCalls s.calls) :
    (RENDER_StartUpdate_bind cfg env s).1 = false ∧
    (RENDER_StartUpdate_bind cfg env s).2.render.updating = s.render.updating ∧
    (RENDER_StartUpdate_bind cfg env s).2.RENDER_DrawLine = s.RENDER_DrawLine := by
  unfold RENDER_StartUpdate_bind at hcall ⊢
  simp only [RENDER_StartUpdate_open, call_GFX_StartUpdate, href, Bool.not_false,
    if_true] at hcall ⊢
  split_ifs at hcall ⊢
  · exact ⟨rfl, rfl, rfl⟩
  · exact ⟨rfl, rfl, rfl⟩
  · exact ⟨rfl, rfl, rfl⟩
  · exfalso
    apply hcall
    show startUpdateCalls (set_fullFrame cfg _ _).calls = _
    rw [(set_fullFrame_fields cfg _ _).2.2.2.2.2.2.2]

theorem RENDER_StartUpdate_refused (cfg : Config) (env : Env F) (s : State F)
    (href : (env.GFX_StartUpdate 0 0).1 = false)
    (hcall : startUpdateCalls (RENDER_StartUpdate cfg env s).2.calls
      ≠ startUpdateCalls s.calls) :
    (RENDER_StartUpdate cfg env s).1 = false ∧
    (RENDER_StartUpdate cfg env s).2.render.updating = false ∧
    (RENDER_StartUpdate cfg env s).2.RENDER_DrawLine = s.RENDER_DrawLine := by
  unfold RENDER_StartUpdate at hcall ⊢
  split_ifs at hcall ⊢ with h1 h2 h3
  · exact absurd rfl hcall
  · exact absurd rfl hcall
  · exact absurd rfl hcall
  · have hp := RENDER_StartUpdate_prepare_fields cfg env s
    have hb := RENDER_StartUpdate_bind_refused cfg env (RENDER_StartUpdate_prepare cfg env s)
      (by rw [hp.2.2.2.2.1, hp.2.2.2.2.2.1]; exact href)
      (by rw [hp.2.2.2.2.2.2.1]; exact hcall)
    refine ⟨hb.1, ?_, ?_⟩
    · rw [hb.2.1, hp.2.2.1]
      simpa using h1
    · rw [hb.2.2, hp.2.2.2.1]

theorem RENDER_StartLineHandler_refused (cfg : Config) (env : Env F) (memory : Nat → Nat)
    (line : Option (Nat → Nat)) (s : State F)
    (href : (env.GFX_StartUpdate s.render.scale.outWrite s.render.scale.outPitch).1 = false)
    (hcall : startUpdateCalls (RENDER_StartLineHandler cfg env memory line s).1.calls
      ≠ startUpdateCalls s.calls) :
    RENDER_StartLineHandler cfg env memory line s =
      ({ (call_GFX_StartUpdate env s).2 with
        RENDER_DrawLine := LineHandler.RENDER_EmptyLineHandler }, none) := by
  unfold RENDER_StartLineHandler at hcall ⊢
  simp only at hcall ⊢
  split_ifs at hcall ⊢ with h1 h2
  · rfl
  · exfalso
    apply h2
    simp only [call_GFX_StartUpdate, href, Bool.not_false]
  · exact absurd rfl hcall

theorem drawLines_empty (cfg : Config) (env : Env F) (memory : Nat → Nat) :
    ∀ (lines : List (Option (Nat → Nat))) (s : State F),
      s.RENDER_DrawLine = LineHandler.RENDER_EmptyLineHandler →
      drawLines cfg env memory lines s = (s, []) := by
  intro lines
  induction lines with
  | nil => intro s _; rfl
  | cons line lines ih =>
    intro s h
    have h1 : call_RENDER_DrawLine cfg env memory line s = (s, none) := by
      unfold call_RENDER_DrawLine
      rw [h]
    simp only [drawLines, h1, ih s h]
    rfl

/-- C24: when `GFX_StartUpdate` refuses the buffer, first, a
`RENDER_StartUpdate` that called it returns false, leaves `updating` false and
does not rebind `RENDER_DrawLine`; second, a `RENDER_StartLineHandler` that
called it binds `RENDER_EmptyLineHandler`, calls no handler of the scaler
library, leaves in the write pointer what the backend call left there (it is
not advanced) and leaves the cache cursor, the line counters and the changed
lines as they were, and every later `RENDER_DrawLine` call in the frame does
nothing. -/
theorem C24_buffer_refused (cfg : Config) (env : Env F) (memory : Nat → Nat) (s : State F)
    (line : Option (Nat → Nat)) :
    ((env.GFX_StartUpdate 0 0).1 = false →
      startUpdateCalls (RENDER_StartUpdate cfg env s).2.calls ≠ startUpdateCalls s.calls →
      (RENDER_StartUpdate cfg env s).1 = false ∧
      (RENDER_StartUpdate cfg env s).2.render.updating = false ∧
      (RENDER_StartUpdate cfg env s).2.RENDER_DrawLine = s.RENDER_DrawLine) ∧
    ((env.GFX_StartUpdate s.render.scale.outWrite s.render.scale.outPitch).1 = false →
      startUpdateCalls (RENDER_StartLineHandler cfg env memory line s).1.calls
        ≠ startUpdateCalls s.calls →
      (RENDER_StartLineHandler cfg env memory line s).2 = none ∧
      (RENDER_StartLineHandler cfg env memory line s).1.RENDER_DrawLine
        = LineHandler.RENDER_EmptyLineHandler ∧
      (RENDER_StartLineHandler cfg env memory line s).1.render.scale.outWrite
        = (env.GFX_StartUpdate s.render.scale.outWrite s.render.scale.outPitch).2.1 ∧
      (RENDER_StartLineHandler cfg env memory line s).1.render.scale.cacheRead
        = s.render.scale.cacheRead ∧
      (RENDER_StartLineHandler cfg env memory line s).1.render.scale.inLine
        = s.render.scale.inLine ∧
      (RENDER_StartLineHandler cfg env memory line s).1.render.scale.outLine
        = s.render.scale.outLine ∧
      (RENDER_StartLineHandler cfg env memory line s).1.Scaler_ChangedLines
        = s.Scaler_ChangedLines ∧
      (RENDER_StartLineHandler cfg env memory line s).1.render.updating
        = s.render.updating ∧
      ∀ lines, drawLines cfg env memory lines
          (RENDER_StartLineHandler cfg env memory line s).1
        = ((RENDER_StartLineHandler cfg env memory line s).1, [])) := by
  refine ⟨fun href hcall => RENDER_StartUpdate_refused cfg env s href hcall, ?_⟩
  intro href hcall
  rw [RENDER_StartLineHandler_refused cfg env memory line s href hcall]
  exact ⟨rfl, rfl, rfl, rfl, rfl, rfl, rfl, rfl,
    fun lines => drawLines_empty cfg env memory lines _ rfl⟩

theorem RENDER_StartLineHandler_differs_cached (cfg : Config) (src memory : Nat → Nat)
    (cache : Nat) :
    ∀ x i, (∀ j, j < x → src (i + j) = memory (cache + (i + j) * cfg.sizeofBitu)) →
      RENDER_StartLineHandler_differs cfg src memory cache x i = false := by
  intro x
  induction x with
  | zero => intro i _; rfl
  | succ x ih =>
    intro i h
    have h0 := h 0 (Nat.succ_pos x)
    rw [Nat.add_zero] at h0
    unfold RENDER_StartLineHandler_differs
    rw [if_neg (not_not.mpr h0)]
    apply ih
    intro j hj
    have := h (j + 1) (Nat.succ_lt_succ hj)
    rw [show i + (j + 1) = i + 1 + j by omega] at this
    exact this

/-- The handler `RENDER_StartLineHandler` for a null line, or for a line that
equals its cached copy. -/
theorem RENDER_StartLineHandler_cached (cfg : Config) (env : Env F) (memory : Nat → Nat)
    (line : Option (Nat → Nat)) (s : State F)
    (h : ∀ src, line = some src →
      lineCached cfg memory s.render.src.start s.render.scale.cacheRead src) :
    RENDER_StartLineHandler cfg env memory line s
      = (RENDER_StartLineHandler_advance cfg s, none) := by
  unfold RENDER_StartLineHandler
  simp only
  rw [if_neg]
  cases line with
  | none => simp
  | some src =>
    simp only [Bool.not_eq_true]
    apply RENDER_StartLineHandler_differs_cached
    intro j hj
    rw [Nat.zero_add]
    exact h src rfl j hj

theorem runCounts_zero (cfg : Config) (aspect : Nat → Nat) (a : Nat) :
    runCounts cfg aspect a 0 = 0 := rfl

theorem runCounts_succ (cfg : Config) (aspect : Nat → Nat) (a n : Nat) :
    runCounts cfg aspect a (n + 1) =
      aspect (a % 2 ^ cfg.bituBits) + runCounts cfg aspect ((a + 1) % 2 ^ cfg.bituBits) n := by
  unfold runCounts
  rw [List.range_succ_eq_map, List.map_cons, List.sum_cons, List.map_map, Nat.add_zero]
  congr 2
  apply List.map_congr_left
  intro i _
  simp only [Function.comp]
  rw [Nat.mod_add_mod]
  congr 2
  omega

theorem runCounts_tableSum (cfg : Config) (aspect : Nat → Nat) (n : Nat)
    (h : n ≤ 2 ^ cfg.bituBits) : runCounts cfg aspect 0 n = tableSum aspect n := by
  unfold runCounts tableSum
  congr 1
  apply List.map_congr_left
  intro i hi
  rw [Nat.zero_add, Nat.mod_eq_of_lt (lt_of_lt_of_le (List.mem_range.mp hi) h)]

/-- The calls `RENDER_DrawLine` for lines that all equal their cached copies,
from a state in which `RENDER_StartLineHandler` is bound. -/
theorem drawLines_cached (cfg : Config) (env : Env F) (memory : Nat → Nat) :
    ∀ (lines : List (Option (Nat → Nat))) (t : State F),
      t.RENDER_DrawLine = LineHandler.RENDER_StartLineHandler →
      t.render.scale.inLine < 2 ^ cfg.bituBits →
      t.render.scale.outLine < 2 ^ cfg.bituBits →
      t.Scaler_ChangedLines 0 < 2 ^ cfg.changedBits →
      (∀ i src, lines[i]? = some (some src) →
        lineCached cfg memory t.render.src.start
          (t.render.scale.cacheRead + i * t.render.scale.cachePitch) src) →
      (drawLines cfg env memory lines t).2 = [] ∧
      (drawLines cfg env memory lines t).1.calls = t.calls ∧
      (drawLines cfg env memory lines t).1.RENDER_DrawLine
        = LineHandler.RENDER_StartLineHandler ∧
      (drawLines cfg env memory lines t).1.render.updating = t.render.updating ∧
      (drawLines cfg env memory lines t).1.render.scale.outWrite = t.render.scale.outWrite ∧
      (drawLines cfg env memory lines t).1.render.scale.cacheRead
        = t.render.scale.cacheRead + lines.length * t.render.scale.cachePitch ∧
      (drawLines cfg env memory lines t).1.render.scale.inLine
        = (t.render.scale.inLine + lines.length) % 2 ^ cfg.bituBits ∧
      (drawLines cfg env memory lines t).1.render.scale.outLine
        = (t.render.scale.outLine + lines.length) % 2 ^ cfg.bituBits ∧
      (drawLines cfg env memory lines t).1.Scaler_ChangedLines 0
        = (t.Scaler_ChangedLines 0 +
            runCounts cfg t.Scaler_Aspect t.render.scale.inLine lines.length)
          % 2 ^ cfg.changedBits := by
  intro lines
  induction lines with
  | nil =>
    intro t hd hi ho hc _
    refine ⟨rfl, rfl, hd, rfl, rfl, ?_, ?_, ?_, ?_⟩
    · simp [drawLines]
    · simp only [drawLines, List.length_nil, Nat.add_zero]
      exact (Nat.mod_eq_of_lt hi).symm
    · simp only [drawLines, List.length_nil, Nat.add_zero]
      exact (Nat.mod_eq_of_lt ho).symm
    · simp only [drawLines, List.length_nil, runCounts_zero, Nat.add_zero]
      exact (Nat.mod_eq_of_lt hc).symm
  | cons line lines ih =>
    intro t hd hi ho hc hl
    have hpos : 0 < 2 ^ cfg.bituBits := Nat.pow_pos (by decide)
    have hposc : 0 < 2 ^ cfg.changedBits := Nat.pow_pos (by decide)
    have h1 : call_RENDER_DrawLine cfg env memory line t
        = (RENDER_StartLineHandler_advance cfg t, none) := by
      unfold call_RENDER_DrawLine
      rw [hd]
      apply RENDER_StartLineHandler_cached
      intro src hsrc
      have := hl 0 src (by rw [hsrc, List.getElem?_cons_zero])
      rw [Nat.zero_mul, Nat.add_zero] at this
      exact this
    have hcl : (RENDER_StartLineHandler_advance cfg t).Scaler_ChangedLines 0
        = (t.Scaler_ChangedLines 0 + t.Scaler_Aspect t.render.scale.inLine)
          % 2 ^ cfg.changedBits := by
      show Function.update t.Scaler_ChangedLines 0 _ 0 = _
      exact Function.update_same _ _ _
    obtain ⟨i1, i2, i3, i4, i5, i6, i7, i8, i9⟩ := ih (RENDER_StartLineHandler_advance cfg t) hd
      (Nat.mod_lt _ hpos) (Nat.mod_lt _ hpos) (by rw [hcl]; exact Nat.mod_lt _ hposc)
      (by
        intro i src hsrc
        have := hl (i + 1) src (by rw [List.getElem?_cons_succ]; exact hsrc)
        show lineCached cfg memory t.render.src.start
          (t.render.scale.cacheRead + t.render.scale.cachePitch + i * t.render.scale.cachePitch)
          src
        rw [show t.render.scale.cacheRead + t.render.scale.cachePitch
            + i * t.render.scale.cachePitch
          = t.render.scale.cacheRead + (i + 1) * t.render.scale.cachePitch by
            rw [Nat.add_mul, Nat.one_mul]; omega]
        exact this)
    simp only [drawLines, h1, Option.toList, List.nil_append, List.length_cons]
    refine ⟨i1, i2, i3, i4, i5, ?_, ?_, ?_, ?_⟩
    · rw [i6]
      show t.render.scale.cacheRead + t.render.scale.cachePitch
        + lines.length * t.render.scale.cachePitch = _
      rw [Nat.add_mul, Nat.one_mul]
      omega
    · rw [i7]
      show ((t.render.scale.inLine + 1) % 2 ^ cfg.bituBits + lines.length) % 2 ^ cfg.bituBits = _
      rw [Nat.mod_add_mod]
      congr 1
      omega
    · rw [i8]
      show ((t.render.scale.outLine + 1) % 2 ^ cfg.bituBits + lines.length) % 2 ^ cfg.bituBits
        = _
      rw [Nat.mod_add_mod]
      congr 1
      omega
    · rw [i9, hcl, runCounts_succ, Nat.mod_eq_of_lt hi]
      show ((t.Scaler_ChangedLines 0 + t.Scaler_Aspect t.render.scale.inLine)
          % 2 ^ cfg.changedBits
        + runCounts cfg t.Scaler_Aspect ((t.render.scale.inLine + 1) % 2 ^ cfg.bituBits)
          lines.length) % 2 ^ cfg.changedBits = _
      rw [Nat.mod_add_mod, Nat.add_assoc]

/-- The statements of `RENDER_StartUpdate` that bind the draw handler, in a
build with the dirty-line cache, with no cache clear pending and the palette
unchanged: no buffer is acquired and `RENDER_StartLineHandler` is bound. -/
theorem RENDER_StartUpdate_bind_entry (cfg : Config) (env : Env F) (s : State F)
    (hc : cfg.C_DBP_ENABLE_SCALERCACHE = true)
    (hclear : s.render.scale.clearCache = false) (hpal : s.render.pal.changed = false) :
    (RENDER_StartUpdate_bind cfg env s).1 = true ∧
    (RENDER_StartUpdate_bind cfg env s).2.RENDER_DrawLine
      = LineHandler.RENDER_StartLineHandler ∧
    (RENDER_StartUpdate_bind cfg env s).2.render.scale = s.render.scale ∧
    (RENDER_StartUpdate_bind cfg env s).2.render.src = s.render.src ∧
    (RENDER_StartUpdate_bind cfg env s).2.render.updating = true ∧
    (RENDER_StartUpdate_bind cfg env s).2.Scaler_ChangedLines = s.Scaler_ChangedLines ∧
    (RENDER_StartUpdate_bind cfg env s).2.Scaler_Aspect = s.Scaler_Aspect ∧
    (RENDER_StartUpdate_bind cfg env s).2.calls = s.calls := by
  unfold RENDER_StartUpdate_bind
  simp only [hc, hclear, hpal, Bool.not_true, Bool.false_eq_true, if_false,
    RENDER_StartUpdate_open]
  obtain ⟨_, _, f3, f4, f5, f6, f7, f8⟩ := set_fullFrame_fields cfg
    (cfg.C_DBP_ENABLE_CAPTURE && env.capturing)
    { s with RENDER_DrawLine := LineHandler.RENDER_StartLineHandler }
  exact ⟨trivial, f5, f3, f4, trivial, f6, f7, f8⟩

theorem RENDER_EndUpdate_capture_counts (cfg : Config) (env : Env F) (s : State F) :
    startUpdateCalls (RENDER_EndUpdate_capture cfg env s).calls = startUpdateCalls s.calls ∧
    endUpdateCalls (RENDER_EndUpdate_capture cfg env s).calls = endUpdateCalls s.calls ∧
    (RENDER_EndUpdate_capture cfg env s).Scaler_ChangedLines = s.Scaler_ChangedLines := by
  unfold RENDER_EndUpdate_capture
  split
  · refine ⟨?_, ?_, rfl⟩
    · show startUpdateCalls (s.calls ++ _) = _
      rw [startUpdateCalls_append]
      rfl
    · show endUpdateCalls (s.calls ++ _) = _
      rw [endUpdateCalls_append]
      rfl
  · exact ⟨rfl, rfl, rfl⟩

/-- The function `RENDER_EndUpdate` on an open transaction with a null write
pointer: no `GFX_EndUpdate` call, and the scaler state is left as it is. -/
theorem RENDER_EndUpdate_null (cfg : Config) (env : Env F) (abort : Bool) (s : State F)
    (hu : s.render.updating = true) (hw : s.render.scale.outWrite = 0) :
    (RENDER_EndUpdate cfg env abort s).render.scale = s.render.scale ∧
    (RENDER_EndUpdate cfg env abort s).Scaler_ChangedLines = s.Scaler_ChangedLines ∧
    startUpdateCalls (RENDER_EndUpdate cfg env abort s).calls = startUpdateCalls s.calls ∧
    endUpdateCalls (RENDER_EndUpdate cfg env abort s).calls = endUpdateCalls s.calls := by
  have hr := RENDER_EndUpdate_capture_render cfg env
    { s with RENDER_DrawLine := LineHandler.RENDER_EmptyLineHandler }
  have hcnt := RENDER_EndUpdate_capture_counts cfg env
    { s with RENDER_DrawLine := LineHandler.RENDER_EmptyLineHandler }
  have hw2 : (RENDER_EndUpdate_capture cfg env
      { s with RENDER_DrawLine := LineHandler.RENDER_EmptyLineHandler }).render.scale.outWrite
        = 0 := by
    rw [hr]; exact hw
  unfold RENDER_EndUpdate
  simp only [hu, Bool.not_true, Bool.false_eq_true, if_false, hw2, ne_eq, not_true_eq_false]
  exact ⟨by rw [hr], hcnt.2.2, hcnt.1, hcnt.2.1⟩

/-- A frame of a build with the dirty-line cache that starts with no cache
clear pending and the palette unchanged, and in which every line drawn is
null or equals its cached copy. -/
theorem frame_cached (cfg : Config) (env : Env F) (memory : Nat → Nat) (abort : Bool)
    (lines : List (Option (Nat → Nat))) (s : State F)
    (hc : cfg.C_DBP_ENABLE_SCALERCACHE = true)
    (hact : s.render.active = true) (hupd : s.render.updating = false)
    (hcnt : ¬ s.render.frameskip.count < s.render.frameskip.max)
    (hclear : s.render.scale.clearCache = false)
    (hpal : (RENDER_StartUpdate_prepare cfg env s).render.pal.changed = false)
    (hl : ∀ i src, lines[i]? = some (some src) →
      lineCached cfg memory s.render.src.start
        (scalerSourceCache + i * s.render.scale.cachePitch) src) :
    (RENDER_StartUpdate cfg env s).1 = true ∧
    (RENDER_StartUpdate cfg env s).2.RENDER_DrawLine = LineHandler.RENDER_StartLineHandler ∧
    (drawLines cfg env memory lines (RENDER_StartUpdate cfg env s).2).2 = [] ∧
    startUpdateCalls (RENDER_EndUpdate cfg env abort
      (drawLines cfg env memory lines (RENDER_StartUpdate cfg env s).2).1).calls
        = startUpdateCalls s.calls ∧
    endUpdateCalls (RENDER_EndUpdate cfg env abort
      (drawLines cfg env memory lines (RENDER_StartUpdate cfg env s).2).1).calls
        = endUpdateCalls s.calls ∧
    (RENDER_EndUpdate cfg env abort
      (drawLines cfg env memory lines (RENDER_StartUpdate cfg env s).2).1).render.scale.inLine
        = lines.length % 2 ^ cfg.bituBits ∧
    (RENDER_EndUpdate cfg env abort
      (drawLines cfg env memory lines (RENDER_StartUpdate cfg env s).2).1).render.scale.outLine
        = lines.length % 2 ^ cfg.bituBits ∧
    (RENDER_EndUpdate cfg env abort
      (drawLines cfg env memory lines (RENDER_StartUpdate cfg env s).2).1).render.scale.cacheRead
        = scalerSourceCache + lines.length * s.render.scale.cachePitch ∧
    (RENDER_EndUpdate cfg env abort
      (drawLines cfg env memory lines (RENDER_StartUpdate cfg env s).2).1).Scaler_ChangedLines 0
        = runCounts cfg s.Scaler_Aspect 0 lines.length % 2 ^ cfg.changedBits := by
  have h1 : RENDER_StartUpdate cfg env s =
      RENDER_StartUpdate_bind cfg env (RENDER_StartUpdate_prepare cfg env s) := by
    simp [RENDER_StartUpdate, hact, hupd, hcnt]
  obtain ⟨p1, p2, p3, p4, p5, p6, p7, p8⟩ := RENDER_StartUpdate_prepare_fields cfg env s
  obtain ⟨q1, q2, q3, q4, q5, q6, q7, q8⟩ := RENDER_StartUpdate_prepare_cache cfg env s hc
  obtain ⟨b1, b2, b3, b4, b5, b6, b7, b8⟩ := RENDER_StartUpdate_bind_entry cfg env
    (RENDER_StartUpdate_prepare cfg env s) hc (by rw [q5]; exact hclear) hpal
  rw [h1]
  have hpos : 0 < 2 ^ cfg.bituBits := Nat.pow_pos (by decide)
  have hposc : 0 < 2 ^ cfg.changedBits := Nat.pow_pos (by decide)
  obtain ⟨d1, d2, d3, d4, d5, d6, d7, d8, d9⟩ := drawLines_cached cfg env memory lines
    (RENDER_StartUpdate_bind cfg env (RENDER_StartUpdate_prepare cfg env s)).2 b2
    (by rw [b3, q1]; exact hpos) (by rw [b3, q2]; exact hpos)
    (by rw [b6, q7]; exact hposc)
    (by
      intro i src hsrc
      rw [b4, b3, q6, q3, q4]
      exact hl i src hsrc)
  obtain ⟨e1, e2, e3, e4⟩ := RENDER_EndUpdate_null cfg env abort
    (drawLines cfg env memory lines
      (RENDER_StartUpdate_bind cfg env (RENDER_StartUpdate_prepare cfg env s)).2).1
    (by rw [d4, b5]) (by rw [d5, b3, p5])
  refine ⟨b1, b2, d1, ?_, ?_, ?_, ?_, ?_, ?_⟩
  · rw [e3, d2, b8, p7]
  · rw [e4, d2, b8, p8]
  · rw [e1, d7, b3, q1, Nat.zero_add]
  · rw [e1, d8, b3, q2, Nat.zero_add]
  · rw [e1, d6, b3, q3, q4]
  · rw [e2, d9, b6, q7, b7, q8, b3, q1, Nat.zero_add]

/-- C25, amended: in a build with the dirty-line cache, for a frame begun with
the pipeline active, no cache clear pending and the palette unchanged, in which
each of the k lines drawn (k below 2^`bituBits`) is null or equals its cached
copy: `RENDER_StartUpdate` binds `RENDER_StartLineHandler`, no handler of the
scaler library is called, and up to the end of `RENDER_EndUpdate` no
`GFX_StartUpdate` and no `GFX_EndUpdate` call is made; afterwards the two line
counters are k, the cache cursor is `&scalerSourceCache` + k × `cachePitch`,
and the changed-line run `Scaler_ChangedLines[0]` is the sum of
`Scaler_Aspect[0..k-1]` reduced to the width of an entry of
`Scaler_ChangedLines`, which is the sum itself when that fits an entry. -/
theorem C25_unchanged_frame (cfg : Config) (env : Env F) (memory : Nat → Nat) (abort : Bool)
    (lines : List (Option (Nat → Nat))) (s : State F)
    (hc : cfg.C_DBP_ENABLE_SCALERCACHE = true)
    (hact : s.render.active = true) (hupd : s.render.updating = false)
    (hcnt : ¬ s.render.frameskip.count < s.render.frameskip.max)
    (hclear : s.render.scale.clearCache = false)
    (hpal : (RENDER_StartUpdate_prepare cfg env s).render.pal.changed = false)
    (hl : ∀ i src, lines[i]? = some (some src) →
      lineCached cfg memory s.render.src.start
        (scalerSourceCache + i * s.render.scale.cachePitch) src)
    (hk : lines.length < 2 ^ cfg.bituBits) :
    (RENDER_StartUpdate cfg env s).1 = true ∧
    (RENDER_StartUpdate cfg env s).2.RENDER_DrawLine = LineHandler.RENDER_StartLineHandler ∧
    (drawLines cfg env memory lines (RENDER_StartUpdate cfg env s).2).2 = [] ∧
    startUpdateCalls (RENDER_EndUpdate cfg env abort
      (drawLines cfg env memory lines (RENDER_StartUpdate cfg env s).2).1).calls
        = startUpdateCalls s.calls ∧
    endUpdateCalls (RENDER_EndUpdate cfg env abort
      (drawLines cfg env memory lines (RENDER_StartUpdate cfg env s).2).1).calls
        = endUpdateCalls s.calls ∧
    (RENDER_EndUpdate cfg env abort
      (drawLines cfg env memory lines (RENDER_StartUpdate cfg env s).2).1).render.scale.inLine
        = lines.length ∧
    (RENDER_EndUpdate cfg env abort
      (drawLines cfg env memory lines (RENDER_StartUpdate cfg env s).2).1).render.scale.outLine
        = lines.length ∧
    (RENDER_EndUpdate cfg env abort
      (drawLines cfg env memory lines (RENDER_StartUpdate cfg env s).2).1).render.scale.cacheRead
        = scalerSourceCache + lines.length * s.render.scale.cachePitch ∧
    (RENDER_EndUpdate cfg env abort
      (drawLines cfg env memory lines (RENDER_StartUpdate cfg env s).2).1).Scaler_ChangedLines 0
        = tableSum s.Scaler_Aspect lines.length % 2 ^ cfg.changedBits ∧
    (tableSum s.Scaler_Aspect lines.length < 2 ^ cfg.changedBits →
      (RENDER_EndUpdate cfg env abort
        (drawLines cfg env memory lines (RENDER_StartUpdate cfg env s).2).1).Scaler_ChangedLines 0
          = tableSum s.Scaler_Aspect lines.length) := by
  obtain ⟨h1, h2, h3, h4, h5, h6, h7, h8, h9⟩ :=
    frame_cached cfg env memory abort lines s hc hact hupd hcnt hclear hpal hl
  rw [runCounts_tableSum cfg _ _ (Nat.le_of_lt hk)] at h9
  rw [Nat.mod_eq_of_lt hk] at h6 h7
  exact ⟨h1, h2, h3, h4, h5, h6, h7, h8, h9, fun hfit => by rw [h9, Nat.mod_eq_of_lt hfit]⟩

/-- C25 as stated fails when the sum of the repeat counts does not fit an
entry of `Scaler_ChangedLines`: with 16-bit entries and the repeat count 255
for every line, after a frame of 258 lines that all equal their cached copies
the changed-line run is 254, and the sum of the repeat counts of lines 0..257
is 65790. -/
theorem C25_counterexample :
    (RENDER_StartUpdate cacheConfig sampleEnv tallState).2.RENDER_DrawLine
      = LineHandler.RENDER_StartLineHandler ∧
    (RENDER_EndUpdate cacheConfig sampleEnv false
      (drawLines cacheConfig sampleEnv (fun _ => 0)
        (List.replicate 258 (some (fun _ => 0)))
        (RENDER_StartUpdate cacheConfig sampleEnv tallState).2).1).Scaler_ChangedLines 0
      = 254 ∧
    tableSum tallState.Scaler_Aspect 258 = 65790 := by
  have h := frame_cached cacheConfig sampleEnv (fun _ => 0) false
    (List.replicate 258 (some (fun _ => 0))) tallState rfl rfl rfl (by decide) rfl
    (by decide!)
    (by
      intro i src hsrc
      rw [List.getElem?_replicate] at hsrc
      split_ifs at hsrc
      cases hsrc
      intro j _
      rfl)
  have hsum : tableSum tallState.Scaler_Aspect 258 = 65790 := by
    decide!
  refine ⟨h.2.1, ?_, hsum⟩
  rw [h.2.2.2.2.2.2.2.2, List.length_replicate,
    runCounts_tableSum cacheConfig _ 258 (by decide!), hsum]
  decide!

theorem call_RENDER_DrawLine_active (cfg : Config) (env : Env F) (memory : Nat → Nat)
    (line : Option (Nat → Nat)) (s : State F) :
    (call_RENDER_DrawLine cfg env memory line s).1.render.active = s.render.active := by
  unfold call_RENDER_DrawLine
  split
  · rfl
  · unfold RENDER_StartLineHandler
    simp only [call_GFX_StartUpdate]
    split_ifs <;> rfl
  · rfl

/-- The calls of `FrameOp` leave an inactive pipeline inactive, and every
`RENDER_StartUpdate` among them returns false. -/
theorem runOps_inactive (cfg : Config) (ops : DoubleOps F) (env : Env F)
    (memory : Nat → Nat) (fs : List FrameOp) :
    ∀ s : State F, s.render.active = false →
      (∀ b ∈ (runOps cfg ops env memory fs s).1, b = false) ∧
        (runOps cfg ops env memory fs s).2.render.active = false := by
  induction fs with
  | nil => intro s h; simp [runOps, h]
  | cons op fs ih =>
    intro s h
    cases op with
    | startUpdate =>
      have h1 := RENDER_StartUpdate_of_inactive cfg env s h
      have := ih s h
      simp only [runOps, h1]
      refine ⟨?_, this.2⟩
      intro b hb
      rcases List.mem_cons.1 hb with rfl | hb
      · rfl
      · exact this.1 b hb
    | endUpdate abort =>
      simp only [runOps]
      exact ih _ (by rw [RENDER_EndUpdate_active]; exact h)
    | drawLine line =>
      simp only [runOps]
      exact ih _ (by rw [call_RENDER_DrawLine_active]; exact h)
    | setPal e r g b =>
      simp only [runOps]
      exact ih _ (by rw [RENDER_SetPal_active]; exact h)
    | halt =>
      simp only [runOps]
      exact ih _ (RENDER_Halt_active s)
    | callBackStop =>
      simp only [runOps, RENDER_CallBack]
      exact ih _ (RENDER_Halt_active s)
    | callBackRedraw =>
      simp only [runOps, RENDER_CallBack]
      split_ifs
      · exact ih _ h
      · exact ih _ h
    | save version uninit =>
      simp only [runOps]
      exact ih _ h

/-- A restore into a state whose source format equals the one of the record,
with a pixel buffer and a saved offset that is not 0 and below the product
width×4×height: no `RENDER_Reset` runs, and `active` and `updating` are the
flags of the record. -/
theorem DBPSerialize_Render_load_pointer [DecidableEq F] (cfg : Config) (ops : DoubleOps F)
    (env : Env F) (version : Nat) (p : Pal) (u a : Bool) (tail : List (Field F))
    (s : State F) (l : Src F) (off : Nat) (s1 : State F) (rest : List (Field F))
    (hread : DBPSerialize_Render_read cfg version
      (Field.srcBytes s.render.src :: Field.pal p :: Field.bool u :: Field.bool a :: tail)
      { s with calls := s.calls ++ [Call.GFX_GetPixels] } = some (l, off, s1, rest))
    (hvalid : env.GFX_GetPixels.1 ≠ 0 ∧ off ≠ 0 ∧
      off < mulBitu cfg (mulBitu cfg s.render.src.width 4) s.render.src.height) :
    ∃ s', DBPSerialize_Render_load cfg ops env version
        (Field.srcBytes s.render.src :: Field.pal p :: Field.bool u :: Field.bool a :: tail) s
          = Except.ok (s', rest) ∧
      s'.render.active = a ∧ s'.render.updating = u ∧
      s'.calls = s.calls ++ [Call.GFX_GetPixels] := by
  obtain ⟨h1, h2, _, h4, _⟩ := DBPSerialize_Render_read_flags cfg version s.render.src p u a
    tail _ l off s1 rest hread
  have hcalls := DBPSerialize_Render_read_calls cfg version _
    { s with calls := s.calls ++ [Call.GFX_GetPixels] } l off s1 rest hread
  have h := DBPSerialize_Render_load_same cfg ops env version _ s l off s1 rest hread h4
  rw [if_pos hvalid] at h
  exact ⟨_, h, h2, h1, hcalls⟩

/-- C4 as amended: from every state `RENDER_Halt` binds
`RENDER_EmptyLineHandler`, makes exactly one backend call, `GFX_EndUpdate` with
the null pointer, and leaves `active` and `updating` false; after it every
`RENDER_StartUpdate` returns false, also across any further calls of
`RENDER_StartUpdate`, `RENDER_EndUpdate`, `RENDER_DrawLine`, `RENDER_SetPal`,
`RENDER_Halt`, the stop and redraw callbacks and state saves, and the pipeline
stays inactive. A state restore into the halted state whose record has the
same source format and a valid offset runs no `RENDER_Reset` and sets `active`
to the flag of the record. -/
theorem C4_Halt [DecidableEq F] (cfg : Config) (ops : DoubleOps F) (env : Env F)
    (memory : Nat → Nat) (s : State F) (fs : List FrameOp) :
    (RENDER_Halt s).RENDER_DrawLine = LineHandler.RENDER_EmptyLineHandler ∧
    (RENDER_Halt s).calls = s.calls ++ [Call.GFX_EndUpdate ChangedLinesArg.null] ∧
    (RENDER_Halt s).render.active = false ∧
    (RENDER_Halt s).render.updating = false ∧
    RENDER_StartUpdate cfg env (RENDER_Halt s) = (false, RENDER_Halt s) ∧
    (∀ b ∈ (runOps cfg ops env memory fs (RENDER_Halt s)).1, b = false) ∧
    (runOps cfg ops env memory fs (RENDER_Halt s)).2.render.active = false ∧
    (∀ (version : Nat) (p : Pal) (u a : Bool) (tail : List (Field F)) (l : Src F) (off : Nat)
      (s1 : State F) (rest : List (Field F)),
      DBPSerialize_Render_read cfg version
        (Field.srcBytes s.render.src :: Field.pal p :: Field.bool u :: Field.bool a :: tail)
        { RENDER_Halt s with calls := (RENDER_Halt s).calls ++ [Call.GFX_GetPixels] }
          = some (l, off, s1, rest) →
      env.GFX_GetPixels.1 ≠ 0 ∧ off ≠ 0 ∧
        off < mulBitu cfg (mulBitu cfg s.render.src.width 4) s.render.src.height →
      ∃ s', DBPSerialize_Render_load cfg ops env version
          (Field.srcBytes s.render.src :: Field.pal p :: Field.bool u :: Field.bool a :: tail)
          (RENDER_Halt s) = Except.ok (s', rest) ∧
        s'.render.active = a ∧ s'.render.updating = u ∧
        s'.calls = (RENDER_Halt s).calls ++ [Call.GFX_GetPixels]) :=
  ⟨rfl, rfl, rfl, rfl, RENDER_StartUpdate_of_inactive cfg env _ rfl,
    (runOps_inactive cfg ops env memory fs _ rfl).1,
    (runOps_inactive cfg ops env memory fs _ rfl).2,
    fun version p u a tail l off s1 rest hread hvalid =>
      DBPSerialize_Render_load_pointer cfg ops env version p u a tail (RENDER_Halt s) l off s1
        rest hread hvalid⟩

/-- C4 as stated fails for a state restore: after `RENDER_Halt` on `idleState`,
restoring `offsetRecord` (same source format, offset 1280, active flag set)
makes no `GFX_GetBestMode` and no `GFX_SetSize` call, so no `RENDER_Reset`
runs, and the next `RENDER_StartUpdate` returns true. -/
theorem C4_counterexample :
    haltedState.render.active = false ∧
    (DBPSerialize_Render_load plainConfig exactOps sampleEnv 5 offsetRecord
        haltedState).toOption.map
      (fun r => (r.1.render.active, r.1.calls.length,
        (RENDER_StartUpdate plainConfig sampleEnv r.1).1))
      = some (true, 2, true) ∧
    haltedState.calls.length = 1 := by
  decide!

end Frames

/-! ## The theorems at concrete inputs -/

section Witnesses

/-- C1 at `idleState`: the first `RENDER_StartUpdate` succeeds and the second
one fails. -/
theorem C1_witness :
    (RENDER_StartUpdate plainConfig sampleEnv idleState).1 = true ∧
    RENDER_StartUpdate plainConfig refusingEnv (RENDER_StartUpdate plainConfig sampleEnv idleState).2
      = (false, (RENDER_StartUpdate plainConfig sampleEnv idleState).2) :=
  ⟨by decide, C1_second_StartUpdate_fails plainConfig sampleEnv refusingEnv idleState (by decide)⟩

/-- C2 at `openState`, where a transaction is open: the call returns false and
the state is unchanged. -/
theorem C2_witness :
    (RENDER_StartUpdate plainConfig sampleEnv openState).1 = false ∧
    (RENDER_StartUpdate plainConfig sampleEnv openState).2 = openState :=
  ⟨(C2_StartUpdate_rejects plainConfig sampleEnv openState).1 (Or.inl rfl),
    (C2_StartUpdate_rejects plainConfig sampleEnv openState).2.1 (Or.inl rfl)⟩

/-- C3 at the transaction `RENDER_StartUpdate` opens from `idleState`: the
buffer was acquired, and `RENDER_EndUpdate(false)` closes the transaction and
binds the empty strategy. -/
theorem C3_witness :
    (RENDER_StartUpdate plainConfig sampleEnv idleState).2.render.updating = true ∧
    (RENDER_EndUpdate plainConfig sampleEnv false
      (RENDER_StartUpdate plainConfig sampleEnv idleState).2).render.updating = false ∧
    (RENDER_EndUpdate plainConfig sampleEnv false
      (RENDER_StartUpdate plainConfig sampleEnv idleState).2).RENDER_DrawLine
        = LineHandler.RENDER_EmptyLineHandler :=
  ⟨(C3_EndUpdate_commits_once plainConfig sampleEnv sampleEnv false).1 idleState (by decide),
    ((C3_EndUpdate_commits_once plainConfig sampleEnv sampleEnv false).2
      (RENDER_StartUpdate plainConfig sampleEnv idleState).2 (by decide)).2.2.1,
    ((C3_EndUpdate_commits_once plainConfig sampleEnv sampleEnv false).2
      (RENDER_StartUpdate plainConfig sampleEnv idleState).2 (by decide)).2.2.2⟩

/-- C4 at `idleState`: after the halt, the calls of a frame all leave the
pipeline inactive, and restoring `offsetRecord`, whose active flag is set,
leaves the pipeline active without a reconfiguration. -/
theorem C4_witness :
    (∀ b ∈ (runOps plainConfig exactOps sampleEnv (fun _ => 0)
        [FrameOp.startUpdate, FrameOp.drawLine none, FrameOp.endUpdate false,
          FrameOp.callBackRedraw, FrameOp.startUpdate] (RENDER_Halt idleState)).1,
      b = false) ∧
    ∃ s', DBPSerialize_Render_load plainConfig exactOps sampleEnv 5 offsetRecord
        (RENDER_Halt idleState) = Except.ok (s', []) ∧
      s'.render.active = true ∧ s'.render.updating = false ∧
      s'.calls = (RENDER_Halt idleState).calls ++ [Call.GFX_GetPixels] :=
  ⟨(C4_Halt plainConfig exactOps sampleEnv (fun _ => 0) idleState
      [FrameOp.startUpdate, FrameOp.drawLine none, FrameOp.endUpdate false,
        FrameOp.callBackRedraw, FrameOp.startUpdate]).2.2.2.2.2.1,
    (C4_Halt plainConfig exactOps sampleEnv (fun _ => 0) idleState []).2.2.2.2.2.2.2
      5 idleState.render.pal false true [Field.bitu 0, Field.bitu 0, Field.bit32u 1280]
      idleState.render.src 1280 _ [] rfl (by decide)⟩

/-- C6 at the three calls of `sampleWrites` from `idleState`: the range is
not empty afterwards and covers entry 9. -/
theorem C6_witness :
    idleState.render.pal.first = 256 ∧ idleState.render.pal.last = 0 ∧
    (∀ w ∈ sampleWrites, (setPalAll sampleWrites idleState).render.pal.first ≤ w.entry.val ∧
      w.entry.val ≤ (setPalAll sampleWrites idleState).render.pal.last) :=
  ⟨rfl, rfl, (C6_SetPal_widens sampleWrites idleState rfl rfl).1⟩

/-- C10 at `MakeAspectTable(1, 2, 1.2, 1)`: the two repeat counts are 1 and 1,
and the returned value is the sum of the three table entries. -/
theorem C10_witness :
    (MakeAspectTable plainConfig exactOps 1 2 (6 / 5) 1 (fun _ => 7)).1 =
      tableSum (MakeAspectTable plainConfig exactOps 1 2 (6 / 5) 1 (fun _ => 7)).2 (1 + 2) :=
  ((C10_MakeAspectTable_sum plainConfig exactOps 1 2 (6 / 5) 1 (fun _ => 7)).2
    (by decide)).2.2 (by decide!) (by decide!)

/-- C11 at `MakeAspectTable(0, 2, 1.2, 1)`: the returned value is ⌊2×1.2⌋ and
each of the two lines gets ⌊1.2⌋ or ⌊1.2⌋+1 repeats. -/
theorem C11_witness :
    (((1 : ℕ) : ℚ) ≤ 6 / 5 ∧ (0 : ℕ) + 2 < 2 ^ plainConfig.bituBits) ∧
    (((MakeAspectTable plainConfig exactOps 0 2 (6 / 5) 1 (fun _ => 7)).1 : ℕ) : ℤ)
      = ⌊((2 : ℕ) : ℚ) * (6 / 5)⌋ ∧
    (∀ k, k < 2 →
      (((MakeAspectTable plainConfig exactOps 0 2 (6 / 5) 1 (fun _ => 7)).2 (0 + k) : ℕ) : ℤ)
          = ⌊(6 / 5 : ℚ)⌋ ∨
      (((MakeAspectTable plainConfig exactOps 0 2 (6 / 5) 1 (fun _ => 7)).2 (0 + k) : ℕ) : ℤ)
          = ⌊(6 / 5 : ℚ)⌋ + 1) :=
  ⟨⟨by decide!, by decide⟩,
    (C11_no_drift plainConfig 0 2 1 (6 / 5) (fun _ => 7) (by decide!) (by decide!) (by decide!)
      (by decide!) (by decide)).2.2.2,
    (C11_no_drift plainConfig 0 2 1 (6 / 5) (fun _ => 7) (by decide!) (by decide!) (by decide!)
      (by decide!) (by decide)).2.1⟩

/-- C13 at `hqState` (320x600, `hq2x` forced, complex limit 800x600) with the
backend `sampleEnv`: the run is the run with the identity blocks, and it
completes with the line handler of `ScaleNormal1x`. -/
theorem C13_witness :
    ((RENDER_Reset_candidate scalersConfig hqState).1.complexBlock
        = some ComplexBlock.ScaleHQ2x ∧
      hqState.render.src.height ≥ scalersConfig.SCALER_COMPLEXHEIGHT - 16) ∧
    RENDER_Reset scalersConfig exactOps sampleEnv hqState =
      RENDER_Reset_run scalersConfig exactOps sampleEnv forcenormal
        (RENDER_Reset_candidate scalersConfig hqState).2 ∧
    (RENDER_Reset scalersConfig exactOps sampleEnv hqState).toOption.map
      (fun s' => s'.render.scale.lineHandler)
      = some (LineHandler.line (LineBlock.Random SimpleBlock.ScaleNormal1x) 0
          scalerMode_t.scalerMode8) :=
  ⟨⟨by decide!, by decide⟩,
    (C13_complex_over_limit scalersConfig exactOps sampleEnv hqState ComplexBlock.ScaleHQ2x
      (by decide!) (Or.inr (by decide))).1,
    by decide!⟩

/-- C15 at `normal3xState` (width 320, line limit 800, `normal3x` requested) in
a build with the scalers: every completed run leaves the magnification
800/320. -/
theorem C15_witness :
    (scalersConfig.C_DBP_ENABLE_SCALERS = true ∧
      scalersConfig.SCALER_MAXLINE_WIDTH / normal3xState.render.src.width
        < normal3xState.render.scale.size) ∧
    (∀ s', RENDER_Reset scalersConfig exactOps sampleEnv normal3xState = Except.ok s' →
      s'.render.scale.size
        = scalersConfig.SCALER_MAXLINE_WIDTH / normal3xState.render.src.width) ∧
    (RENDER_Reset scalersConfig exactOps sampleEnv normal3xState).toOption.isSome = true :=
  ⟨⟨rfl, by decide⟩,
    ((C15_size_limit scalersConfig exactOps sampleEnv normal3xState).1 rfl (by decide)).2.1,
    by decide!⟩

/-- C16 with the backend `deadEnv`, whose `GFX_GetBestMode` returns 0: from
`idleState` in a build without scalers the candidate is the identity and
`RENDER_Reset` ends in `E_Exit`; from `normal3xState` in a build with scalers
the candidate is `ScaleNormal2x` and `RENDER_Reset` is the run repeated with
the identity blocks. -/
theorem C16_witness :
    RENDER_Reset plainConfig exactOps deadEnv idleState
      = Except.error "Failed to create a rendering output" ∧
    RENDER_Reset scalersConfig exactOps deadEnv normal3xState =
      RENDER_Reset_run scalersConfig exactOps deadEnv forcenormal
        (RENDER_Reset_asking scalersConfig (RENDER_Reset_candidate scalersConfig normal3xState).1
          (RENDER_Reset_candidate scalersConfig normal3xState).2) :=
  ⟨((C16_GetBestMode_failure plainConfig exactOps deadEnv idleState).1 rfl rfl).1 rfl,
    ((C16_GetBestMode_failure scalersConfig exactOps deadEnv normal3xState).1
      (by decide!) rfl).2 (by decide!)⟩

/-- C17 at `idleState` with the backend `sampleEnv`: `RENDER_Reset` completes,
and the whole palette is dirty, the changed flags are clear, the write pointer
is null and the pipeline is active. -/
theorem C17_witness :
    ∃ s', RENDER_Reset plainConfig exactOps sampleEnv idleState = Except.ok s' ∧
      s'.render.pal.first = 0 ∧ s'.render.pal.last = 255 ∧
      s'.render.pal.changed = false ∧ (∀ j, s'.render.pal.modified j = 0) ∧
      (plainConfig.C_DBP_ENABLE_SCALERCACHE = true → s'.render.scale.clearCache = true) ∧
      s'.render.scale.outWrite = 0 ∧ s'.render.active = true := by
  have hs : (RENDER_Reset plainConfig exactOps sampleEnv idleState).toOption.isSome = true := by
    decide!
  cases h : RENDER_Reset plainConfig exactOps sampleEnv idleState with
  | error e =>
    rw [h] at hs
    cases hs
  | ok s' =>
    exact ⟨s', rfl, C17_Reset_final_state plainConfig exactOps sampleEnv idleState s' h⟩

/-- C18 at `offsetRecord` (offset 1280) restored into `idleState` with the
buffer of `sampleEnv`: the write pointer becomes 4096 + 1280 and nothing is
called after `GFX_GetPixels`. -/
theorem C18_witness :
    (sampleEnv.GFX_GetPixels.1 ≠ 0 ∧ 1280 ≠ 0 ∧
      1280 < mulBitu plainConfig (mulBitu plainConfig idleState.render.src.width 4)
        idleState.render.src.height) ∧
    ∃ s', DBPSerialize_Render_load plainConfig exactOps sampleEnv 5 offsetRecord idleState
        = Except.ok (s', []) ∧
      s'.render.scale.outWrite = sampleEnv.GFX_GetPixels.1 + 1280 ∧
      s'.calls = idleState.calls ++ [Call.GFX_GetPixels] :=
  ⟨by decide,
    (C18_restore_same_format plainConfig exactOps sampleEnv 5 offsetRecord idleState
      idleState.render.src 1280 _ [] rfl rfl).1 (by decide)⟩

/-- C20 at `drawingState`, version 5, cache disabled. -/
theorem C20_witness :
    (plainConfig.C_DBP_ENABLE_SCALERCACHE = false ∧ 5 ≤ 5) ∧
    (DBPSerialize_Render_save plainConfig sampleEnv 5 0 drawingState).1 =
      [Field.srcBytes drawingState.render.src, Field.pal drawingState.render.pal,
        Field.bool drawingState.render.updating, Field.bool drawingState.render.active,
        Field.bitu drawingState.render.scale.inLine,
        Field.bitu drawingState.render.scale.outLine,
        Field.bit32u (render_offset_init plainConfig sampleEnv drawingState)] :=
  ⟨⟨rfl, by decide⟩, C20_record_layout plainConfig sampleEnv 5 0 drawingState rfl (by decide)⟩

/-- C21 at `idleState`, where no transaction is open. -/
theorem C21_witness :
    idleState.render.updating = false ∧
    RENDER_EndUpdate plainConfig sampleEnv true idleState = idleState ∧
    RENDER_EndUpdate plainConfig sampleEnv false idleState = idleState :=
  ⟨rfl, (C21_EndUpdate_idle plainConfig sampleEnv true idleState rfl).1,
    (C21_EndUpdate_idle plainConfig sampleEnv false idleState rfl).1⟩

/-- C22 at `skipState` (maximum 2) over six frames: the third and the sixth
`RENDER_StartUpdate` return true. -/
theorem C22_witness :
    (skipState.render.active = true ∧ skipState.render.updating = false ∧
      skipState.render.frameskip.count = 0 ∧ skipState.render.frameskip.max = 2) ∧
    (frameAttempts plainConfig sampleEnv (List.replicate 6 false) skipState).1
      = [false, false, true, false, false, true] :=
  ⟨⟨rfl, rfl, rfl, rfl⟩,
    (C22_frameskip_throttle plainConfig sampleEnv skipState (List.replicate 6 false)
      (fun _ _ => rfl) rfl rfl rfl).1.trans (by decide)⟩

/-- C23 at `idleState` for the width 0 and for the width 801 with
`SCALER_MAXWIDTH` 800: the call completes with the stored format unchanged and
the pipeline halted. -/
theorem C23_witness :
    (∃ s', RENDER_SetSize plainConfig exactOps sampleEnv 0 200 8 70 1 false false idleState
        = Except.ok s' ∧
      s'.render.src = idleState.render.src ∧
      s'.calls = idleState.calls ++ [Call.GFX_EndUpdate ChangedLinesArg.null] ∧
      s'.render.active = false ∧ s'.render.updating = false) ∧
    (∃ s', RENDER_SetSize plainConfig exactOps sampleEnv 801 200 8 70 1 false false idleState
        = Except.ok s' ∧
      s'.render.src = idleState.render.src ∧
      s'.calls = idleState.calls ++ [Call.GFX_EndUpdate ChangedLinesArg.null] ∧
      s'.render.active = false ∧ s'.render.updating = false) :=
  ⟨(C23_SetSize_limits plainConfig exactOps sampleEnv 0 200 8 70 1 false false idleState).1
      (Or.inl rfl),
    (C23_SetSize_limits plainConfig exactOps sampleEnv 801 200 8 70 1 false false idleState).1
      (Or.inr (Or.inr (Or.inl (by decide))))⟩

/-- C24 with the backend `refusingEnv`: `RENDER_StartUpdate` from `idleState`
in a build without the cache, and `RENDER_StartLineHandler` in
`cacheEntryState` for a line that differs from the cache. -/
theorem C24_witness :
    ((refusingEnv.GFX_StartUpdate 0 0).1 = false ∧
      (RENDER_StartUpdate plainConfig refusingEnv idleState).1 = false ∧
      (RENDER_StartUpdate plainConfig refusingEnv idleState).2.render.updating = false ∧
      (RENDER_StartUpdate plainConfig refusingEnv idleState).2.RENDER_DrawLine
        = idleState.RENDER_DrawLine) ∧
    ((RENDER_StartLineHandler cacheConfig refusingEnv (fun _ => 0) (some (fun _ => 1))
        cacheEntryState).2 = none ∧
      (RENDER_StartLineHandler cacheConfig refusingEnv (fun _ => 0) (some (fun _ => 1))
        cacheEntryState).1.RENDER_DrawLine = LineHandler.RENDER_EmptyLineHandler) :=
  ⟨⟨rfl,
      (C24_buffer_refused plainConfig refusingEnv (fun _ => 0) idleState none).1 rfl
        (by decide!)⟩,
    ((C24_buffer_refused cacheConfig refusingEnv (fun _ => 0) cacheEntryState
      (some (fun _ => 1))).2 rfl (by decide!)).1,
    ((C24_buffer_refused cacheConfig refusingEnv (fun _ => 0) cacheEntryState
      (some (fun _ => 1))).2 rfl (by decide!)).2.1⟩

/-- C25 at `cacheIdleState` for a frame of three lines that equal their cached
copies, every line with the repeat count 2: the line counters are 3 and the
changed-line run is 6. -/
theorem C25_witness :
    (RENDER_StartUpdate cacheConfig sampleEnv cacheIdleState).1 = true ∧
    (RENDER_EndUpdate cacheConfig sampleEnv false
      (drawLines cacheConfig sampleEnv (fun _ => 0) (List.replicate 3 (some (fun _ => 0)))
        (RENDER_StartUpdate cacheConfig sampleEnv cacheIdleState).2).1).render.scale.inLine
      = 3 ∧
    (RENDER_EndUpdate cacheConfig sampleEnv false
      (drawLines cacheConfig sampleEnv (fun _ => 0) (List.replicate 3 (some (fun _ => 0)))
        (RENDER_StartUpdate cacheConfig sampleEnv cacheIdleState).2).1).Scaler_ChangedLines 0
      = 6 := by
  have h := C25_unchanged_frame cacheConfig sampleEnv (fun _ => 0) false
    (List.replicate 3 (some (fun _ => 0))) cacheIdleState rfl rfl rfl (by decide) rfl
    (by decide!)
    (by
      intro i src hsrc
      rw [List.getElem?_replicate] at hsrc
      split_ifs at hsrc
      cases hsrc
      intro j _
      rfl)
    (by decide!)
  exact ⟨h.1, h.2.2.2.2.2.1, h.2.2.2.2.2.2.2.2.2 (by decide!)⟩

end Witnesses

end Render
